import Mathlib

/-!
# COOLBOY / MINDKIDS (SMD132, SMD133) mapper: bank decode, register bank, flash commands

A shallow embedding of `src/boards/coolboy.cpp`.  Bytes, addresses and bank numbers are
natural numbers; the C bit operators are the `Nat` bit operators, `~x` on a `uint32` is
`0xFFFFFFFF ^^^ x`.  Fixed-size C arrays indexed by a guarded index are functions from the
index.  The base banking controller (`mmc3.cpp`) and the cartridge page table (`cart.cpp`)
are not part of the sources: the controller's entry points are parameters, the page table is
modelled at 8 KiB (program) and 1 KiB (character) window granularity.
-/

namespace Coolboy

/-! ## Constants (coolboy.cpp:79-84) -/

def ROM_CHIP : Nat := 0x00
def WRAM_CHIP : Nat := 0x10
def CFI_CHIP : Nat := 0x11
def FLASH_CHIP : Nat := 0x12

def FLASH_SECTOR_SIZE : Nat := 128 * 1024

/-- Macronix 256-mbit memory CFI data (coolboy.cpp:97-115). -/
def cfi_data : List Nat :=
  [ 0xFF, 0xFF, 0xFF, 0xFF, 0xFF, 0xFF, 0xFF, 0xFF,
    0xFF, 0xFF, 0xFF, 0xFF, 0xFF, 0xFF, 0xFF, 0xFF,
    0x51, 0x52, 0x59, 0x02, 0x00, 0x40, 0x00, 0x00,
    0x00, 0x00, 0x00, 0x27, 0x36, 0x00, 0x00, 0x03,
    0x06, 0x09, 0x13, 0x03, 0x05, 0x03, 0x02, 0x19,
    0x02, 0x00, 0x06, 0x00, 0x01, 0xFF, 0x00, 0x00,
    0x02, 0x00, 0x00, 0x00, 0x00, 0x00, 0x00, 0x00,
    0x00, 0x00, 0x00, 0x00, 0x00, 0xFF, 0xFF, 0xFF,
    0x50, 0x52, 0x49, 0x31, 0x33, 0x14, 0x02, 0x01,
    0x00, 0x08, 0x00, 0x00, 0x02, 0x95, 0xA5, 0x05,
    0x01, 0xFF, 0xFF, 0xFF, 0xFF, 0xFF, 0xFF, 0xFF,
    0xFF, 0xFF, 0xFF, 0xFF, 0xFF, 0xFF, 0xFF, 0xFF,
    0xFF, 0xFF, 0xFF, 0xFF, 0xFF, 0xFF, 0xFF, 0xFF,
    0xFF, 0xFF, 0xFF, 0xFF, 0xFF, 0xFF, 0xFF, 0xFF,
    0xFF, 0xFF, 0xFF, 0xFF, 0xFF, 0xFF, 0xFF, 0xFF,
    0xFF, 0xFF, 0xFF, 0xFF, 0xFF, 0xFF, 0xFF, 0xFF ]

/-- Bitwise complement of a `uint32`. -/
def not32 (x : Nat) : Nat := 0xFFFFFFFF ^^^ x

/-! ## Data model -/

/-- The four control registers `EXPREGS[0..3]`. -/
structure Regs where
  r0 : Nat
  r1 : Nat
  r2 : Nat
  r3 : Nat
deriving DecidableEq, Repr

/-- Read of `EXPREGS[i]`, `i` in 0..3. -/
def Regs.get (e : Regs) (i : Nat) : Nat :=
  if i = 0 then e.r0 else if i = 1 then e.r1 else if i = 2 then e.r2 else e.r3

/-- Store `EXPREGS[i] = v`, `i` in 0..3. -/
def Regs.set (e : Regs) (i v : Nat) : Regs :=
  if i = 0 then { e with r0 := v }
  else if i = 1 then { e with r1 := v }
  else if i = 2 then { e with r2 := v }
  else { e with r3 := v }

/-- Modelled from the spec: the cartridge page table of cart.cpp (`Page`, `setprg8r`,
`setprg32r`) is not among the sources.  Per the glossary a bank is a fixed-size window of
cartridge memory selected by a value to appear at an address range: an 8 KiB program window
records the backing chip and the 8 KiB bank number it was given. -/
structure Window where
  chip : Nat
  bank : Nat
deriving DecidableEq, Repr

/-- Messages of `FCEU_printf` and `FCEU_PrintError`. -/
inductive Diag where
  | sectorErased (sector : Int) (offset : Int)
  | chipErased
  | notErased (offset : Int)
  | unsupportedSubmapper (submapper : Int)
deriving DecidableEq, Repr

/-- Handlers that `SetWriteHandler` can install. -/
inductive WriteHandler where
  | CartBW
  | COOLBOYWrite
  | MINDKIDSWrite
  | COOLBOYFlashWrite
  | other (tag : Nat)
deriving DecidableEq, Repr

/-- Handlers that `SetReadHandler` can install. -/
inductive ReadHandler where
  | COOLBOYFlashRead
  | other (tag : Nat)
deriving DecidableEq, Repr

/-- Modelled from the spec: the state that the base banking controller (mmc3.cpp) and the
system bus own is declared outside the sources.  It holds the bank-select command byte
`MMC3_cmd`, the buffered registers `DRegBuf`, the WRAM-enable byte `A001B`, the program and
character page tables, the contents of the chips other than the Flash Store, and the installed
bus handlers (§2, §6). -/
structure Base where
  MMC3_cmd : Nat
  DRegBuf : Nat → Nat
  A001B : Nat
  PRG : Nat → Window
  CHR : Nat → Nat
  mem : Nat → Nat → Nat
  BWrite : Nat → Option WriteHandler
  ARead : Nat → Option ReadHandler

/-- The mapper instance: the statics of coolboy.cpp, the externals it reads, and the log of
diagnostics. -/
structure Mapper where
  EXPREGS : Regs
  flash_save : Nat
  flash_state : Nat
  flash_buffer_a : Nat → Nat
  flash_buffer_v : Nat → Nat
  cfi_mode : Nat
  Flash : List Nat
  CFI : List Nat
  base : Base
  PRGmask8 : Nat → Nat
  layout : Nat → Int
  log : List Diag

/-- Modelled from the spec: the entry points of the base banking controller (mmc3.cpp) are not
among the sources.  §3 and §5: the controller owns its own registers, the Control Register Bank
is mutated only by accepted register writes and resets, and only the Flash Command State
Machine mutates the Flash Store; so each entry point is an arbitrary function of the whole
mapper state that yields a new `Base` and nothing else. -/
structure MMC3 where
  MMC3_CMDWrite : Nat → Nat → Mapper → Base
  MMC3_IRQWrite : Nat → Nat → Mapper → Base
  FixMMC3PRG : Nat → Mapper → Base
  FixMMC3CHR : Nat → Mapper → Base
  MMC3RegReset : Mapper → Base
  GenMMC3Power : Mapper → Base

/-! ## Cartridge page table -/

/-- Modelled from the spec: `setprg8r(r, A, V)` of cart.cpp is not among the sources; it makes
8 KiB bank `V` of chip `r` appear in the 8 KiB window at `A`. -/
def setprg8r (s : Mapper) (r A V : Nat) : Mapper :=
  { s with base := { s.base with
      PRG := fun w => if w = A >>> 13 then ⟨r, V⟩ else s.base.PRG w } }

/-- Modelled from the spec: `setprg32r(r, A, V)` of cart.cpp is not among the sources; it makes
32 KiB bank `V` of chip `r` appear in the 32 KiB window at `A`, that is the 8 KiB banks
`4 * V + i` in the four 8 KiB windows `i = 0..3` from `A`. -/
def setprg32r (s : Mapper) (r A V : Nat) : Mapper :=
  { s with base := { s.base with
      PRG := fun w =>
        if A >>> 13 ≤ w ∧ w < (A >>> 13) + 4 then ⟨r, 4 * V + (w - (A >>> 13))⟩
        else s.base.PRG w } }

/-- Modelled from the spec: `setchr1(A, V)` of cart.cpp is not among the sources; it makes
1 KiB character bank `V` appear in the 1 KiB window at `A`. -/
def setchr1 (s : Mapper) (A V : Nat) : Mapper :=
  { s with base := { s.base with
      CHR := fun w => if w = A >>> 10 then V else s.base.CHR w } }

/-- Modelled from the spec: offset inside the backing chip of the byte that the page table
shows at address `A` (cart.cpp masks the bank number with the chip's 8 KiB bank mask
`PRGmask8`, a table set up when the chip is registered). -/
def pageOffset (s : Mapper) (A : Nat) : Nat :=
  let w := s.base.PRG (A >>> 13)
  ((w.bank &&& s.PRGmask8 w.chip) <<< 13) + (A &&& 0x1FFF)

/-- Modelled from the spec: `CartBR(A)` of cart.cpp is not among the sources; it reads the byte
the page table shows at `A`: from the Flash Store when the window is backed by the flash chip,
from the doubled CFI table when it is backed by the CFI chip and inside the table, otherwise
from the other chip's contents. -/
def CartBR (s : Mapper) (A : Nat) : Nat :=
  let w := s.base.PRG (A >>> 13)
  if w.chip = FLASH_CHIP then s.Flash.getD (pageOffset s A) 0
  else if w.chip = CFI_CHIP ∧ pageOffset s A < s.CFI.length then s.CFI.getD (pageOffset s A) 0
  else s.base.mem w.chip (pageOffset s A)

/-- Modelled from the spec: `CartBW(A, V)` of cart.cpp is not among the sources; it stores `V`
at the byte the page table shows at `A` when the backing chip was registered as RAM: the
Flash Store (registered writable at coolboy.cpp:371) and the work RAM; ROM and the CFI table
(registered read-only at coolboy.cpp:365) ignore the write. -/
def CartBW (s : Mapper) (A V : Nat) : Mapper :=
  let w := s.base.PRG (A >>> 13)
  if w.chip = FLASH_CHIP then { s with Flash := s.Flash.set (pageOffset s A) V }
  else if w.chip = WRAM_CHIP then
    { s with base := { s.base with
        mem := fun c o => if c = WRAM_CHIP ∧ o = pageOffset s A then V else s.base.mem c o } }
  else s

/-! ## Bank decode engine (coolboy.cpp:117-189) -/

/-- Character-space decode `COOLBOYCW(A, V)` (coolboy.cpp:117-148). -/
def COOLBOYCW (s : Mapper) (A V : Nat) : Mapper :=
  let mask := 0xFF ^^^ (s.EXPREGS.r0 &&& 0x80)
  if s.EXPREGS.r3 &&& 0x10 ≠ 0 then
    let V1 :=
      if s.EXPREGS.r3 &&& 0x40 ≠ 0 then
        let cbase := (s.base.MMC3_cmd &&& 0x80) <<< 5
        if (cbase ^^^ A) = 0x0400 ∨ (cbase ^^^ A) = 0x0C00 then V &&& 0x7F else V
      else V
    setchr1 s A
      ((((V1 &&& 0x80) &&& mask) ||| (((s.EXPREGS.r0 &&& 0x08) <<< 4) &&& not32 mask))
        ||| ((s.EXPREGS.r2 &&& 0x0F) <<< 3)
        ||| ((A >>> 10) &&& 7))
  else
    let V1 :=
      if s.EXPREGS.r3 &&& 0x40 ≠ 0 then
        let cbase := (s.base.MMC3_cmd &&& 0x80) <<< 5
        if (cbase ^^^ A) = 0x0000 then s.base.DRegBuf 0
        else if (cbase ^^^ A) = 0x0800 then s.base.DRegBuf 1
        else if (cbase ^^^ A) = 0x0400 ∨ (cbase ^^^ A) = 0x0C00 then 0
        else V
      else V
    setchr1 s A ((V1 &&& mask) ||| (((s.EXPREGS.r0 &&& 0x08) <<< 4) &&& not32 mask))

/-- Program-space decode `COOLBOYPW(A, V)` (coolboy.cpp:150-189). -/
def COOLBOYPW (s : Mapper) (A V : Nat) : Mapper :=
  let mask := ((0x3F ||| (s.EXPREGS.r1 &&& 0x40) ||| ((s.EXPREGS.r1 &&& 0x20) <<< 2))
      ^^^ ((s.EXPREGS.r0 &&& 0x40) >>> 2)) ^^^ ((s.EXPREGS.r1 &&& 0x80) >>> 2)
  let base := ((s.EXPREGS.r0 &&& 0x07) >>> 0) ||| ((s.EXPREGS.r1 &&& 0x10) >>> 1)
      ||| ((s.EXPREGS.r1 &&& 0x0C) <<< 2) ||| ((s.EXPREGS.r0 &&& 0x30) <<< 2)
  let s1 := if s.cfi_mode ≠ 0 then setprg32r s CFI_CHIP 0x8000 0 else s
  let chip := if s.flash_save = 0 then ROM_CHIP else FLASH_CHIP
  -- Very weird mode
  let V1 :=
    if s.EXPREGS.r3 &&& 0x40 ≠ 0 ∧ V ≥ 0xFE ∧ ¬ (s.base.MMC3_cmd &&& 0x40 ≠ 0) then
      if (A &&& 0xE000) = 0xC000 ∨ (A &&& 0xE000) = 0xE000 then 0 else V
    else V
  if s.EXPREGS.r3 &&& 0x10 = 0 then
    -- Regular MMC3 mode
    setprg8r s1 chip A (((base <<< 4) &&& not32 mask) ||| (V1 &&& mask))
  else
    -- NROM mode
    let mask2 := mask &&& 0xF0
    let emask :=
      if s.EXPREGS.r1 &&& 2 ≠ 0 then (s.EXPREGS.r3 &&& 0x0C) ||| ((A &&& 0x4000) >>> 13)
      else s.EXPREGS.r3 &&& 0x0E
    setprg8r s1 chip A
      ((((base <<< 4) &&& not32 mask2) ||| (V1 &&& mask2)) ||| emask ||| ((A &&& 0x2000) >>> 13))

/-! ## Control register bank (coolboy.cpp:191-216) -/

/-- Register write handler `COOLBOYWrite` (coolboy.cpp:191-201). -/
def COOLBOYWrite (m : MMC3) (s : Mapper) (A V : Nat) : Mapper :=
  let s1 := if s.base.A001B &&& 0x80 ≠ 0 then CartBW s A V else s
  -- Deny any further writes when 7th bit is 1 AND 4th is 0
  if (s1.EXPREGS.r3 &&& 0x90) ≠ 0x80 then
    let s2 := { s1 with EXPREGS := s1.EXPREGS.set (A &&& 3) V }
    let s3 := { s2 with base := m.FixMMC3PRG s2.base.MMC3_cmd s2 }
    { s3 with base := m.FixMMC3CHR s3.base.MMC3_cmd s3 }
  else s1

/-- Register write handler `MINDKIDSWrite` (coolboy.cpp:203-216). -/
def MINDKIDSWrite (m : MMC3) (s : Mapper) (A V : Nat) : Mapper :=
  if A ≥ 0x6000 then
    if s.base.A001B &&& 0x80 ≠ 0 then CartBW s A V else s
  else
    -- Deny any further writes when 7th bit is 1 AND 4th is 0
    if (s.EXPREGS.r3 &&& 0x90) ≠ 0x80 then
      let s2 := { s with EXPREGS := s.EXPREGS.set (A &&& 3) V }
      let s3 := { s2 with base := m.FixMMC3PRG s2.base.MMC3_cmd s2 }
      { s3 with base := m.FixMMC3CHR s3.base.MMC3_cmd s3 }
    else s

/-! ## Flash command state machine (coolboy.cpp:218-299) -/

/-- Read handler `COOLBOYFlashRead` (coolboy.cpp:218-220). -/
def COOLBOYFlashRead (s : Mapper) (A : Nat) : Nat := CartBR s A

/-- The `int offset = &Page[A >> 11][A] - Flash` of coolboy.cpp:250 and :274: the distance of
the byte shown at `A` from the start of the Flash Store, truncated to a 32-bit `int`.  For a
window backed by the flash chip it is the offset inside the Flash Store; for another chip it
is shifted by `layout chip`, the distance between the two buffers. -/
def flashOffset (s : Mapper) (A : Nat) : Int :=
  let w := s.base.PRG (A >>> 13)
  Int.bmod ((if w.chip = FLASH_CHIP then 0 else s.layout w.chip) + (pageOffset s A : Int))
    (2 ^ 32)

/-- The loop `for (i = lo; i < hi; i++) Flash[i % PRGsize[ROM_CHIP]] = 0xFF` of
coolboy.cpp:252-253, with `n` iterations left from index `i`; `PRGsize[ROM_CHIP]` is the
size the Flash Store was allocated with (coolboy.cpp:367). -/
def eraseLoop (Flash : List Nat) (i : Nat) : Nat → List Nat
  | 0 => Flash
  | n + 1 => eraseLoop (Flash.set (i % Flash.length) 0xFF) (i + 1) n

/-- First loop index `(uint32)(sector * FLASH_SECTOR_SIZE)`. -/
def sectorLo (sector : Int) : Nat := ((sector * (FLASH_SECTOR_SIZE : Int)) % 2 ^ 32).toNat

/-- Loop bound `(uint32)((sector + 1) * FLASH_SECTOR_SIZE)`. -/
def sectorHi (sector : Int) : Nat :=
  (((sector + 1) * (FLASH_SECTOR_SIZE : Int)) % 2 ^ 32).toNat

/-- The common five-byte head of both erase commands (coolboy.cpp:244-248, 259-263). -/
def eraseHead (s : Mapper) : Bool :=
  s.flash_buffer_a 0 = 0x0AAA ∧ s.flash_buffer_v 0 = 0xAA ∧
  s.flash_buffer_a 1 = 0x0555 ∧ s.flash_buffer_v 1 = 0x55 ∧
  s.flash_buffer_a 2 = 0x0AAA ∧ s.flash_buffer_v 2 = 0x80 ∧
  s.flash_buffer_a 3 = 0x0AAA ∧ s.flash_buffer_v 3 = 0xAA ∧
  s.flash_buffer_a 4 = 0x0555 ∧ s.flash_buffer_v 4 = 0x55

/-- The three-byte head of the byte-program command (coolboy.cpp:271-273). -/
def programHead (s : Mapper) : Bool :=
  s.flash_buffer_a 0 = 0x0AAA ∧ s.flash_buffer_v 0 = 0xAA ∧
  s.flash_buffer_a 1 = 0x0555 ∧ s.flash_buffer_v 1 = 0x55 ∧
  s.flash_buffer_a 2 = 0x0AAA ∧ s.flash_buffer_v 2 = 0xA0

/-- Buffering of the write (coolboy.cpp:230-232). -/
def flashBuffer (s : Mapper) (A V : Nat) : Mapper :=
  { s with
    flash_buffer_a := fun i => if i = s.flash_state then A &&& 0xFFF else s.flash_buffer_a i
    flash_buffer_v := fun i => if i = s.flash_state then V else s.flash_buffer_v i
    flash_state := s.flash_state + 1 }

/-- The block `// enter CFI mode` (coolboy.cpp:234-240). -/
def flashEnterCFI (m : MMC3) (s : Mapper) : Mapper :=
  if s.flash_state = 1 ∧ s.flash_buffer_a 0 = 0x0AAA ∧ s.flash_buffer_v 0 = 0x98 then
    let s1 := { s with cfi_mode := 1, flash_state := 0 }
    { s1 with base := m.FixMMC3PRG s1.base.MMC3_cmd s1 }
  else s

/-- The block `// erase sector` (coolboy.cpp:242-255). -/
def flashEraseSector (s : Mapper) (A : Nat) : Mapper :=
  if s.flash_state = 6 ∧ eraseHead s = true ∧ s.flash_buffer_v 5 = 0x30 then
    let offset := flashOffset s A
    let sector := Int.tdiv offset (FLASH_SECTOR_SIZE : Int)
    { s with
      Flash := eraseLoop s.Flash (sectorLo sector) (sectorHi sector - sectorLo sector)
      log := s.log ++ [Diag.sectorErased sector offset] }
  else s

/-- The block `// erase chip, lol` (coolboy.cpp:257-267): `memset(Flash, 0xFF, size)`. -/
def flashEraseChip (s : Mapper) : Mapper :=
  if s.flash_state = 6 ∧ eraseHead s = true ∧ s.flash_buffer_v 5 = 0x10 then
    { s with
      Flash := List.replicate s.Flash.length 0xFF
      log := s.log ++ [Diag.chipErased] }
  else s

/-- The block `// write byte` (coolboy.cpp:269-282). -/
def flashWriteByte (s : Mapper) (A V : Nat) : Mapper :=
  if s.flash_state = 4 ∧ programHead s = true then
    let offset := flashOffset s A
    let s1 :=
      if CartBR s A ≠ 0xFF then { s with log := s.log ++ [Diag.notErased offset] }
      else CartBW s A V
    { s1 with flash_state := 0 }
  else s

/-- Forwarding of a ROM-space write to the base controller's command or IRQ port
(coolboy.cpp:223-226). -/
def portWrite (m : MMC3) (s : Mapper) (A V : Nat) : Mapper :=
  if A < 0xC000 then { s with base := m.MMC3_CMDWrite A V s }
  else { s with base := m.MMC3_IRQWrite A V s }

/-- Write handler of the ROM address range, `COOLBOYFlashWrite` (coolboy.cpp:222-299). -/
def COOLBOYFlashWrite (m : MMC3) (s : Mapper) (A V : Nat) : Mapper :=
  let s0 := portWrite m s A V
  if s0.flash_save ≠ 0 then
    let s1 :=
      if s0.flash_state < 10 then
        flashWriteByte (flashEraseChip (flashEraseSector
          (flashEnterCFI m (flashBuffer s0 A V)) A)) A V
      else s0
    -- not a command
    let s2 :=
      if (A &&& 0xFFF) ≠ 0x0AAA ∧ (A &&& 0xFFF) ≠ 0x0555 then { s1 with flash_state := 0 }
      else s1
    -- reset
    if V = 0xF0 then
      let s3 := { s2 with flash_state := 0, cfi_mode := 0 }
      { s3 with base := m.FixMMC3PRG s3.base.MMC3_cmd s3 }
    else s2
  else s0

/-- A run of ROM-space writes `(A, V)`, first to last. -/
def flashWrites (m : MMC3) (s : Mapper) : List (Nat × Nat) → Mapper
  | [] => s
  | (A, V) :: ws => flashWrites m (COOLBOYFlashWrite m s A V) ws

/-! ## Reset, power-on and initialisation (coolboy.cpp:301-410) -/

/-- Soft reset `CommonReset` (coolboy.cpp:301-308). -/
def CommonReset (m : MMC3) (s : Mapper) : Mapper :=
  let s1 := { s with base := m.MMC3RegReset s }
  let s2 := { s1 with EXPREGS := ⟨0, 0, 0, 0⟩, flash_state := 0, cfi_mode := 0 }
  let s3 := { s2 with base := m.FixMMC3PRG s2.base.MMC3_cmd s2 }
  { s3 with base := m.FixMMC3CHR s3.base.MMC3_cmd s3 }

/-- The call `SetWriteHandler(lo, hi, h)` of the system bus. -/
def SetWriteHandler (s : Mapper) (lo hi : Nat) (h : WriteHandler) : Mapper :=
  { s with base := { s.base with
      BWrite := fun a => if lo ≤ a ∧ a ≤ hi then some h else s.base.BWrite a } }

/-- The call `SetReadHandler(lo, hi, h)` of the system bus. -/
def SetReadHandler (s : Mapper) (lo hi : Nat) (h : ReadHandler) : Mapper :=
  { s with base := { s.base with
      ARead := fun a => if lo ≤ a ∧ a ≤ hi then some h else s.base.ARead a } }

/-- Power-on handler `COOLBOYPower` (coolboy.cpp:310-319). -/
def COOLBOYPower (m : MMC3) (s : Mapper) : Mapper :=
  let s1 := { s with base := m.GenMMC3Power s }
  let s2 := { s1 with EXPREGS := ⟨0, 0, 0, 0⟩ }
  let s3 := { s2 with base := m.FixMMC3PRG s2.base.MMC3_cmd s2 }
  let s4 := { s3 with base := m.FixMMC3CHR s3.base.MMC3_cmd s3 }
  let s5 := SetWriteHandler s4 0x5000 0x5fff WriteHandler.CartBW
  let s6 := SetWriteHandler s5 0x6000 0x6fff WriteHandler.COOLBOYWrite
  let s7 := SetWriteHandler s6 0x8000 0xFFFF WriteHandler.COOLBOYFlashWrite
  SetReadHandler s7 0x8000 0xFFFF ReadHandler.COOLBOYFlashRead

/-- Power-on handler `MINDKIDSPower` (coolboy.cpp:321-329). -/
def MINDKIDSPower (m : MMC3) (s : Mapper) : Mapper :=
  let s1 := { s with base := m.GenMMC3Power s }
  let s2 := { s1 with EXPREGS := ⟨0, 0, 0, 0⟩ }
  let s3 := { s2 with base := m.FixMMC3PRG s2.base.MMC3_cmd s2 }
  let s4 := { s3 with base := m.FixMMC3CHR s3.base.MMC3_cmd s3 }
  let s5 := SetWriteHandler s4 0x5000 0x7fff WriteHandler.MINDKIDSWrite
  let s6 := SetWriteHandler s5 0x8000 0xFFFF WriteHandler.COOLBOYFlashWrite
  SetReadHandler s6 0x8000 0xFFFF ReadHandler.COOLBOYFlashRead

/-- Values of the function pointer `info->Power`. -/
inductive PowerFn where
  | GenMMC3Power
  | COOLBOYPower
  | MINDKIDSPower
deriving DecidableEq, Repr

/-- Values of the function pointer `info->Reset`. -/
inductive ResetFn where
  | MMC3RegReset
  | CommonReset
deriving DecidableEq, Repr

/-- The fields of `CartInfo` that coolboy.cpp reads or writes. -/
structure CartInfo where
  Power : Option PowerFn
  Reset : Option ResetFn
  Close : Bool
  battery : Nat
  submapper : Int
  SaveGameLen1 : Nat
deriving DecidableEq, Repr

/-- Run of the installed power-on handler. -/
def runPower (m : MMC3) (s : Mapper) : PowerFn → Mapper
  | PowerFn.GenMMC3Power => { s with base := m.GenMMC3Power s }
  | PowerFn.COOLBOYPower => COOLBOYPower m s
  | PowerFn.MINDKIDSPower => MINDKIDSPower m s

/-- The `switch (submapper)` of CommonInit (coolboy.cpp:347-354): `case 1` has no `break`
and falls through into `default`. -/
def selectPower (info : CartInfo) (submapper : Int) : CartInfo :=
  let info1 := if submapper = 1 then { info with Power := some PowerFn.MINDKIDSPower } else info
  { info1 with Power := some PowerFn.COOLBOYPower }

/-- The doubling loop `CFI[i * 2] = CFI[i * 2 + 1] = cfi_data[i]` (coolboy.cpp:362-364). -/
def doubleBytes : List Nat → List Nat
  | [] => []
  | b :: bs => b :: b :: doubleBytes bs

/-- Initialisation `CommonInit(info, submapper)` (coolboy.cpp:341-385).  `GenMMC3_Init` (outside
the sources) leaves the base controller's own handlers in `info`, which the following lines
overwrite; `size` is `PRGsize[ROM_CHIP]` and the ROM image `PRGptr[ROM_CHIP]` is the contents of
chip `ROM_CHIP`.  The hooks `pwrap = COOLBOYPW`, `cwrap = COOLBOYCW` and the save-state
registrations have no counterpart in the state modelled here. -/
def CommonInit (s : Mapper) (size : Nat) (info : CartInfo) (submapper : Int) :
    CartInfo × Mapper :=
  let info0 := { info with Power := some PowerFn.GenMMC3Power, Reset := some ResetFn.MMC3RegReset }
  let info1 := selectPower info0 submapper
  let info2 := { info1 with Reset := some ResetFn.CommonReset, Close := true }
  let s1 := { s with flash_save := info.battery }
  if s1.flash_save ≠ 0 then
    (  { info2 with SaveGameLen1 := size },
       { s1 with
          CFI := doubleBytes cfi_data
          Flash := (List.range size).map (fun i => s.base.mem ROM_CHIP (i % size)) } )
  else (info2, s1)

/-- Entry `COOLBOY_Init` (coolboy.cpp:387-390): registers at $6xxx. -/
def COOLBOY_Init (s : Mapper) (size : Nat) (info : CartInfo) : CartInfo × Mapper :=
  CommonInit s size info 0

/-- Entry `MINDKIDS_Init` (coolboy.cpp:392-395): registers at $5xxx. -/
def MINDKIDS_Init (s : Mapper) (size : Nat) (info : CartInfo) : CartInfo × Mapper :=
  CommonInit s size info 1

/-- Entry for the NES 2.0 loader, `SMD132_SMD133_Init` (coolboy.cpp:397-410). -/
def SMD132_SMD133_Init (s : Mapper) (size : Nat) (info : CartInfo) : CartInfo × Mapper :=
  if info.submapper = 0 ∨ info.submapper = 1 then CommonInit s size info info.submapper
  else (info, { s with log := s.log ++ [Diag.unsupportedSubmapper info.submapper] })

/-! ## Derived definitions and sample instances -/

/-- A base controller whose entry points leave the base state as it is. -/
def quietMMC3 : MMC3 where
  MMC3_CMDWrite := fun _ _ s => s.base
  MMC3_IRQWrite := fun _ _ s => s.base
  FixMMC3PRG := fun _ s => s.base
  FixMMC3CHR := fun _ s => s.base
  MMC3RegReset := fun s => s.base
  GenMMC3Power := fun s => s.base

/-- Base state with every register zero, every program window on bank 0 of chip `chip`, and
no handler installed. -/
def baseOn (chip : Nat) : Base where
  MMC3_cmd := 0
  DRegBuf := fun _ => 0
  A001B := 0
  PRG := fun _ => ⟨chip, 0⟩
  CHR := fun _ => 0
  mem := fun _ _ => 0
  BWrite := fun _ => none
  ARead := fun _ => none

/-- Mapper with the given control registers, flash emulation off, everything else zero. -/
def mapperWith (e : Regs) : Mapper where
  EXPREGS := e
  flash_save := 0
  flash_state := 0
  flash_buffer_a := fun _ => 0
  flash_buffer_v := fun _ => 0
  cfi_mode := 0
  Flash := []
  CFI := []
  base := baseOn ROM_CHIP
  PRGmask8 := fun _ => 0
  layout := fun _ => 0
  log := []

/-- Mapper with flash emulation on, the given Flash Store, every program window on bank 0 of
the flash chip, and an 8 KiB bank mask that keeps every bank number. -/
def flashMapper (Flash : List Nat) : Mapper where
  EXPREGS := ⟨0, 0, 0, 0⟩
  flash_save := 1
  flash_state := 0
  flash_buffer_a := fun _ => 0
  flash_buffer_v := fun _ => 0
  cfi_mode := 0
  Flash := Flash
  CFI := doubleBytes cfi_data
  base := baseOn FLASH_CHIP
  PRGmask8 := fun _ => 0xFFFFFFFF
  layout := fun _ => 0
  log := []

/-- The 8 KiB bank number `COOLBOYPW` hands to `setprg8r`, as a function of the control
registers, the bank-select byte, the address and the value. -/
def prgBank (e : Regs) (cmd A V : Nat) : Nat :=
  ((COOLBOYPW { mapperWith e with base := { baseOn ROM_CHIP with MMC3_cmd := cmd } } A V).base.PRG
    (A >>> 13)).bank

/-- A run of ROM-space writes each of which is only buffered (coolboy.cpp:223-232). -/
def bufferRun (m : MMC3) (s : Mapper) : List (Nat × Nat) → Mapper
  | [] => s
  | (A, V) :: ws => bufferRun m (flashBuffer (portWrite m s A V) A V) ws

/-- A 192 KiB Flash Store of zero bytes (a size that is not a multiple of the 128 KiB sector),
every program window on 8 KiB bank 16 of the flash chip (offset 128 KiB), and the 8 KiB bank
mask 23 of a 24-bank chip. -/
def oddSizeMapper : Mapper :=
  { flashMapper (List.replicate 196608 0) with
    base := { baseOn FLASH_CHIP with PRG := fun _ => ⟨FLASH_CHIP, 16⟩ }
    PRGmask8 := fun _ => 23 }

/-- A two-byte erased Flash Store in CFI mode with the byte-program head pending; the page
table is the one `COOLBOYPW` leaves after decoding the windows at $8000 and $E000 with CFI
mode active: $8000-$DFFF on the CFI chip, $E000 on the flash chip. -/
def cfiProgramMapper : Mapper :=
  COOLBOYPW (COOLBOYPW
    { flashMapper [0xFF, 0xFF] with
      cfi_mode := 1
      flash_state := 3
      flash_buffer_a := fun i => if i = 1 then 0x0555 else 0x0AAA
      flash_buffer_v := fun i => if i = 0 then 0xAA else if i = 1 then 0x55 else 0xA0 }
    0x8000 0) 0xE000 0xFF

/-! ## Documented recipes (spec §4.1 and the register documentation of coolboy.cpp:25-66) -/

/-- The documented mask recipe of the program-space decode:
`mask = (0x3F | reg1.bit6 | reg1.bit5<<2) XOR (reg0.bit6>>2) XOR (reg1.bit7>>2)`. -/
def docMask (e : Regs) : Nat :=
  ((0x3F ||| (e.r1 &&& 0x40) ||| ((e.r1 &&& 0x20) <<< 2)) ^^^ ((e.r0 &&& 0x40) >>> 2))
    ^^^ ((e.r1 &&& 0x80) >>> 2)

/-- The documented base recipe of the program-space decode:
`base = reg0.bits0-2 | reg1.bit4>>1 | reg1.bits2-3<<2 | reg0.bits4-5<<2`. -/
def docBase (e : Regs) : Nat :=
  (e.r0 &&& 0x07) ||| ((e.r1 &&& 0x10) >>> 1) ||| ((e.r1 &&& 0x0C) <<< 2)
    ||| ((e.r0 &&& 0x30) <<< 2)

/-- The compatible-mode formula `((base << 4) AND NOT mask) OR (V AND mask)`. -/
def docCompatBank (e : Regs) (V : Nat) : Nat :=
  ((docBase e <<< 4) &&& not32 (docMask e)) ||| (V &&& docMask e)

/-- Bit `k` of the compatible-mode bank number as the register documentation states it:
bits 0-3 from `V`; bit 4 (PRG A17) from `V` if reg0 bit 6 is 0, else reg0 bit 0; bit 5 (A18)
from `V` if reg1 bit 7 is 0, else reg0 bit 1; bit 6 (A19) from `V` if reg1 bit 6 is 1, else
reg0 bit 2; bit 7 (A20) from `V` if reg1 bit 5 is 1, else reg1 bit 4; bits 8-11 (A21-A24) are
reg1 bit 2, reg1 bit 3, reg0 bit 4, reg0 bit 5; no higher bit. -/
def docCompatBit (e : Regs) (V k : Nat) : Bool :=
  if k < 4 then V.testBit k
  else if k = 4 then (if e.r0.testBit 6 then e.r0.testBit 0 else V.testBit 4)
  else if k = 5 then (if e.r1.testBit 7 then e.r0.testBit 1 else V.testBit 5)
  else if k = 6 then (if e.r1.testBit 6 then V.testBit 6 else e.r0.testBit 2)
  else if k = 7 then (if e.r1.testBit 5 then V.testBit 7 else e.r1.testBit 4)
  else if k = 8 then e.r1.testBit 2
  else if k = 9 then e.r1.testBit 3
  else if k = 10 then e.r0.testBit 4
  else if k = 11 then e.r0.testBit 5
  else false

/-- The value the very-weird last-bank remap leaves: 0 in weird mode (register 3 bit 6) with
bank-select bit 6 clear, supplied value at least 0xFE and one of the top two windows;
otherwise the supplied value. -/
def docRemap (e : Regs) (cmd A V : Nat) : Nat :=
  if e.r3 &&& 0x40 ≠ 0 ∧ cmd &&& 0x40 = 0 ∧ 0xFE ≤ V ∧
      ((A &&& 0xE000) = 0xC000 ∨ (A &&& 0xE000) = 0xE000) then 0
  else V

/-- The low four bits of the linear-mode (GNROM) bank number: with register 1 bit 1 set
(32 KiB banks) `(reg3 AND 0x0C) OR ((A >> 13) AND 3)`, with it clear (16 KiB banks)
`(reg3 AND 0x0E) OR ((A >> 13) AND 1)`. -/
def docLinearLow (e : Regs) (A : Nat) : Nat :=
  if e.r1 &&& 2 ≠ 0 then (e.r3 &&& 0x0C) ||| ((A >>> 13) &&& 3)
  else (e.r3 &&& 0x0E) ||| ((A >>> 13) &&& 1)

/-- The program bank number of §4.1 for a supplied value `V` used as it is: the
compatible-mode formula when register 3 bit 4 is clear; in linear mode the same formula with
the mask narrowed to its high nibble, merged with the nibble drawn from register 3 and the
address. -/
def docPrgBank (e : Regs) (A V : Nat) : Nat :=
  if e.r3 &&& 0x10 = 0 then docCompatBank e V
  else (((docBase e <<< 4) &&& not32 (docMask e &&& 0xF0)) ||| (V &&& (docMask e &&& 0xF0)))
    ||| (if e.r1 &&& 2 ≠ 0 then (e.r3 &&& 0x0C) ||| ((A &&& 0x4000) >>> 13)
         else e.r3 &&& 0x0E)
    ||| ((A &&& 0x2000) >>> 13)

/-- The value `V'` of the compatible-mode character decode: `V` unless weird mode (register 3
bit 6) is set; in weird mode, with `cbase = (bank-select AND 0x80) << 5`, the buffered register
0 (`d0`) when `cbase XOR A = 0x0000`, the buffered register 1 (`d1`) when it is 0x0800, 0 when
it is 0x0400 or 0x0C00, and `V` otherwise. -/
def docChrValue (e : Regs) (cmd d0 d1 A V : Nat) : Nat :=
  if e.r3 &&& 0x40 ≠ 0 then
    if (((cmd &&& 0x80) <<< 5) ^^^ A) = 0x0000 then d0
    else if (((cmd &&& 0x80) <<< 5) ^^^ A) = 0x0800 then d1
    else if (((cmd &&& 0x80) <<< 5) ^^^ A) = 0x0400 ∨ (((cmd &&& 0x80) <<< 5) ^^^ A) = 0x0C00
      then 0
    else V
  else V

/-- The compatible-mode character bank for the value `W`: `W` itself when register 0 bit 7 is
clear, `(W AND 0x7F) OR (register 0 bit 3 moved to bit 7)` when it is set. -/
def docChrCompat (e : Regs) (W : Nat) : Nat :=
  if e.r0 &&& 0x80 = 0 then W else (W &&& 0x7F) ||| ((e.r0 &&& 0x08) <<< 4)

/-- The value of the extended-mode character decode: `V` with bit 7 cleared in weird mode
(register 3 bit 6) for the windows with `((bank-select AND 0x80) << 5) XOR A` equal to 0x0400
or 0x0C00, and `V` otherwise. -/
def docChrExtValue (e : Regs) (cmd A V : Nat) : Nat :=
  if e.r3 &&& 0x40 ≠ 0 ∧
      ((((cmd &&& 0x80) <<< 5) ^^^ A) = 0x0400 ∨ (((cmd &&& 0x80) <<< 5) ^^^ A) = 0x0C00)
    then V &&& 0x7F
  else V

/-- Bit `k` of the extended-mode character bank for the value `W`: bits 2-0 are those of
`A >> 10`, bits 6-3 the low four bits of register 2, bit 7 is register 0 bit 3 when register
0 bit 7 is set and bit 7 of `W` otherwise; no higher bit. -/
def docChrExtBit (e : Regs) (A W k : Nat) : Bool :=
  if k < 3 then (A >>> 10).testBit k
  else if k < 7 then e.r2.testBit (k - 3)
  else if k = 7 then (if e.r0.testBit 7 then e.r0.testBit 3 else W.testBit 7)
  else false

/-- The final expression of the extended-mode character decode (coolboy.cpp:128-132) for
the value `W` it is applied to. -/
def chrExtForm (e : Regs) (A W : Nat) : Nat :=
  ((((W &&& 0x80) &&& (0xFF ^^^ (e.r0 &&& 0x80)))
      ||| (((e.r0 &&& 0x08) <<< 4) &&& not32 (0xFF ^^^ (e.r0 &&& 0x80))))
    ||| ((e.r2 &&& 0x0F) <<< 3))
    ||| ((A >>> 10) &&& 7)

/-- The write of value `V` completes an erase command: flash emulation is enabled, it is the
sixth buffered byte after the five-byte erase head, and its value is 0x30 (sector erase) or
0x10 (chip erase) (the conditions of coolboy.cpp:228-229, 243-249 and 258-264, read on the
state before the write). -/
def completesErase (s : Mapper) (V : Nat) : Prop :=
  s.flash_save ≠ 0 ∧ s.flash_state = 5 ∧ eraseHead s = true ∧ (V = 0x30 ∨ V = 0x10)

/-- The write completes a byte-program command: flash emulation is enabled and it is the
fourth buffered byte after the three-byte program head (the conditions of
coolboy.cpp:228-229 and 270-273, read on the state before the write). -/
def completesProgram (s : Mapper) : Prop :=
  s.flash_save ≠ 0 ∧ s.flash_state = 3 ∧ programHead s = true

/-- Sample state: flash emulation enabled on an erased 4 KiB store (every byte 0xFF) whose
windows show bank 0 of the flash chip, with the byte-program head
`(0x0AAA,0xAA),(0x0555,0x55),(0x0AAA,0xA0)` pending. -/
def programPendingMapper : Mapper :=
  { flashMapper (List.replicate 4096 0xFF) with
    flash_state := 3
    flash_buffer_a := fun i => if i = 1 then 0x0555 else 0x0AAA
    flash_buffer_v := fun i => if i = 0 then 0xAA else if i = 1 then 0x55 else 0xA0 }

/-- Sample state: flash emulation enabled with ten bytes pending (a full buffer). -/
def fullBufferMapper : Mapper :=
  { flashMapper [0x12] with flash_state := 10 }

/-- Sample state: flash emulation enabled with two bytes pending, both slots holding
`(0, 0)`, on the one-byte store `[0x12]`. -/
def twoPendingMapper : Mapper :=
  { flashMapper [0x12] with flash_state := 2 }

/-! ## Frame lemmas -/

@[simp]
theorem CartBW_EXPREGS (s : Mapper) (A V : Nat) : (CartBW s A V).EXPREGS = s.EXPREGS := by
  unfold CartBW
  dsimp only
  split
  · rfl
  · split <;> rfl

theorem Regs.set_get (e : Regs) (i v : Nat) : (e.set i v).get i = v := by
  unfold Regs.set Regs.get
  by_cases h0 : i = 0
  · simp [h0]
  · by_cases h1 : i = 1
    · simp [h1]
    · by_cases h2 : i = 2
      · simp [h2]
      · simp [h0, h1, h2]

theorem Regs.set_get_ne (e : Regs) (i j v : Nat) (hi : i < 4) (hj : j < 4) (h : j ≠ i) :
    (e.set i v).get j = e.get j := by
  unfold Regs.set Regs.get
  have hi' : i = 0 ∨ i = 1 ∨ i = 2 ∨ i = 3 := by omega
  have hj' : j = 0 ∨ j = 1 ∨ j = 2 ∨ j = 3 := by omega
  rcases hi' with rfl | rfl | rfl | rfl <;> rcases hj' with rfl | rfl | rfl | rfl <;>
    first
      | exact absurd rfl h
      | simp

theorem and_three_lt (A : Nat) : A &&& 3 < 4 := by
  have h : A &&& 3 = A % 4 := Nat.and_pow_two_sub_one_eq_mod A 2
  omega

theorem bit4_not_locked (r : Nat) (h : r &&& 0x10 ≠ 0) : (r &&& 0x90) ≠ 0x80 := by
  intro hl
  apply h
  have h1 : (r &&& 0x90) &&& 0x10 = r &&& 0x10 := by
    rw [Nat.and_assoc]
    rfl
  rw [← h1, hl]
  rfl

theorem COOLBOYWrite_EXPREGS (m : MMC3) (s : Mapper) (A V : Nat) :
    (COOLBOYWrite m s A V).EXPREGS =
      if (s.EXPREGS.r3 &&& 0x90) ≠ 0x80 then s.EXPREGS.set (A &&& 3) V else s.EXPREGS := by
  unfold COOLBOYWrite
  by_cases hw : s.base.A001B &&& 0x80 ≠ 0 <;> by_cases hl : (s.EXPREGS.r3 &&& 0x90) ≠ 0x80 <;>
    simp [hw, hl]

theorem MINDKIDSWrite_EXPREGS (m : MMC3) (s : Mapper) (A V : Nat) :
    (MINDKIDSWrite m s A V).EXPREGS =
      if A < 0x6000 ∧ (s.EXPREGS.r3 &&& 0x90) ≠ 0x80 then s.EXPREGS.set (A &&& 3) V
      else s.EXPREGS := by
  unfold MINDKIDSWrite
  by_cases hA : A ≥ 0x6000
  · have hA' : ¬ A < 0x6000 := by omega
    by_cases hw : s.base.A001B &&& 0x80 ≠ 0 <;> simp [hA, hA', hw]
  · have hA' : A < 0x6000 := by omega
    by_cases hl : (s.EXPREGS.r3 &&& 0x90) ≠ 0x80 <;> simp [hA, hA', hl]

/-! ## Control register bank: lockout and accepted writes -/

/-- C1 (lockout).  In every state whose register 3 has bit 7 set and bit 4 clear
(`reg3 AND 0x90 = 0x80`), `COOLBOYWrite` and `MINDKIDSWrite` at any address and value leave the
four control registers unchanged.  Conversely the lockout denies a write only in that case: in
every other state a write that reaches the register bank (`COOLBOYWrite` at any address,
`MINDKIDSWrite` below $6000) is stored in register `A AND 3`; in particular with bit 4 of
register 3 set the write is stored whatever bit 7 holds.  `MINDKIDSWrite` at $6000 and above
is the cartridge-RAM path and leaves the registers alone in every state. -/
theorem lockout_exact (m : MMC3) (s : Mapper) (A V : Nat) :
    ((s.EXPREGS.r3 &&& 0x90) = 0x80 →
      (COOLBOYWrite m s A V).EXPREGS = s.EXPREGS ∧
      (MINDKIDSWrite m s A V).EXPREGS = s.EXPREGS) ∧
    ((s.EXPREGS.r3 &&& 0x90) ≠ 0x80 →
      (COOLBOYWrite m s A V).EXPREGS = s.EXPREGS.set (A &&& 3) V ∧
      (A < 0x6000 → (MINDKIDSWrite m s A V).EXPREGS = s.EXPREGS.set (A &&& 3) V)) ∧
    (s.EXPREGS.r3 &&& 0x10 ≠ 0 →
      (COOLBOYWrite m s A V).EXPREGS = s.EXPREGS.set (A &&& 3) V ∧
      (A < 0x6000 → (MINDKIDSWrite m s A V).EXPREGS = s.EXPREGS.set (A &&& 3) V)) ∧
    (0x6000 ≤ A → (MINDKIDSWrite m s A V).EXPREGS = s.EXPREGS) := by
  have hacc : (s.EXPREGS.r3 &&& 0x90) ≠ 0x80 →
      (COOLBOYWrite m s A V).EXPREGS = s.EXPREGS.set (A &&& 3) V ∧
      (A < 0x6000 → (MINDKIDSWrite m s A V).EXPREGS = s.EXPREGS.set (A &&& 3) V) := by
    intro hl
    refine ⟨?_, fun hA => ?_⟩
    · rw [COOLBOYWrite_EXPREGS, if_pos hl]
    · rw [MINDKIDSWrite_EXPREGS, if_pos ⟨hA, hl⟩]
  refine ⟨fun hl => ⟨?_, ?_⟩, hacc, fun h4 => hacc (bit4_not_locked _ h4), fun hA => ?_⟩
  · rw [COOLBOYWrite_EXPREGS, if_neg (by simp [hl])]
  · rw [MINDKIDSWrite_EXPREGS, if_neg (by simp [hl])]
  · rw [MINDKIDSWrite_EXPREGS, if_neg (by omega)]

/-- Witness for C1: a locked bank (register 3 = 0x80) keeps its registers under a
`COOLBOYWrite` of 0x55 at $6001. -/
theorem lockout_exact_witness :
    ((mapperWith ⟨1, 2, 3, 0x80⟩).EXPREGS.r3 &&& 0x90) = 0x80 ∧
    (COOLBOYWrite quietMMC3 (mapperWith ⟨1, 2, 3, 0x80⟩) 0x6001 0x55).EXPREGS = ⟨1, 2, 3, 0x80⟩ :=
  ⟨by decide, ((lockout_exact quietMMC3 (mapperWith ⟨1, 2, 3, 0x80⟩) 0x6001 0x55).1
    (by decide)).1⟩

/-- C2 (accepted register write).  In every state that is not locked out
(`reg3 AND 0x90 ≠ 0x80`), for every address `A` and byte `V`, `COOLBOYWrite` at `A` and
`MINDKIDSWrite` at `A < 0x6000` leave register `A AND 3` equal to `V` and the other three
control registers unchanged; the write that arms the lockout is one of them. -/
theorem accepted_write_stores (m : MMC3) (s : Mapper) (A V : Nat)
    (hl : (s.EXPREGS.r3 &&& 0x90) ≠ 0x80) :
    ((COOLBOYWrite m s A V).EXPREGS.get (A &&& 3) = V ∧
      ∀ j, j < 4 → j ≠ A &&& 3 → (COOLBOYWrite m s A V).EXPREGS.get j = s.EXPREGS.get j) ∧
    (A < 0x6000 →
      (MINDKIDSWrite m s A V).EXPREGS.get (A &&& 3) = V ∧
      ∀ j, j < 4 → j ≠ A &&& 3 → (MINDKIDSWrite m s A V).EXPREGS.get j = s.EXPREGS.get j) := by
  refine ⟨⟨?_, fun j hj hne => ?_⟩, fun hA => ⟨?_, fun j hj hne => ?_⟩⟩
  · rw [COOLBOYWrite_EXPREGS, if_pos hl, Regs.set_get]
  · rw [COOLBOYWrite_EXPREGS, if_pos hl, Regs.set_get_ne _ _ _ _ (and_three_lt A) hj hne]
  · rw [MINDKIDSWrite_EXPREGS, if_pos ⟨hA, hl⟩, Regs.set_get]
  · rw [MINDKIDSWrite_EXPREGS, if_pos ⟨hA, hl⟩, Regs.set_get_ne _ _ _ _ (and_three_lt A) hj hne]

/-- Witness for C2: from the reset registers a `MINDKIDSWrite` of 0x80 at $5003 arms the
lockout: register 3 becomes 0x80 and registers 0, 1, 2 stay 0. -/
theorem accepted_write_stores_witness :
    ((mapperWith ⟨0, 0, 0, 0⟩).EXPREGS.r3 &&& 0x90) ≠ 0x80 ∧ 0x5003 < 0x6000 ∧
    (MINDKIDSWrite quietMMC3 (mapperWith ⟨0, 0, 0, 0⟩) 0x5003 0x80).EXPREGS.get (0x5003 &&& 3)
      = 0x80 :=
  ⟨by decide, by decide,
    ((accepted_write_stores quietMMC3 (mapperWith ⟨0, 0, 0, 0⟩) 0x5003 0x80 (by decide)).2
      (by decide)).1⟩

/-! ## Personality selection -/

/-- C3 (personality selection), evaluated on the code: for submapper 1 `CommonInit` leaves
`info->Power` equal to `COOLBOYPower`, the same handler as for submapper 0, because `case 1`
of the switch falls through into `default`; after that power-on handler has run, a write at
$5000 is handled by `CartBW` and a write at $6000 by `COOLBOYWrite`, and `MINDKIDSWrite` is
installed nowhere in $5000-$6FFF. -/
theorem submapper_one_gets_coolboy_power (m : MMC3) (s : Mapper) (size : Nat)
    (info : CartInfo) (p : Mapper) :
    (MINDKIDS_Init s size info).1.Power = some PowerFn.COOLBOYPower ∧
    (CommonInit s size info 1).1.Power = (CommonInit s size info 0).1.Power ∧
    (runPower m p PowerFn.COOLBOYPower).base.BWrite 0x5000 = some WriteHandler.CartBW ∧
    (runPower m p PowerFn.COOLBOYPower).base.BWrite 0x6000 = some WriteHandler.COOLBOYWrite ∧
    (runPower m p PowerFn.MINDKIDSPower).base.BWrite 0x5000 = some WriteHandler.MINDKIDSWrite := by
  refine ⟨?_, ?_, ?_, ?_, ?_⟩
  · unfold MINDKIDS_Init CommonInit selectPower
    dsimp only
    split <;> rfl
  · unfold CommonInit selectPower
    dsimp only
    split <;> rfl
  · simp [runPower, COOLBOYPower, SetWriteHandler, SetReadHandler]
  · simp [runPower, COOLBOYPower, SetWriteHandler, SetReadHandler]
  · simp [runPower, MINDKIDSPower, SetWriteHandler, SetReadHandler]

/-! ## Program-space decode -/

theorem setprg8r_PRG_self (s : Mapper) (r A V : Nat) :
    (setprg8r s r A V).base.PRG (A >>> 13) = ⟨r, V⟩ := by
  simp [setprg8r]

theorem setprg8r_PRG_other (s : Mapper) (r A V w : Nat) (h : w ≠ A >>> 13) :
    (setprg8r s r A V).base.PRG w = s.base.PRG w := by
  simp [setprg8r, h]

theorem COOLBOYPW_window (s : Mapper) (A V : Nat) :
    (COOLBOYPW s A V).base.PRG (A >>> 13) =
      ⟨if s.flash_save = 0 then ROM_CHIP else FLASH_CHIP, prgBank s.EXPREGS s.base.MMC3_cmd A V⟩ := by
  unfold prgBank COOLBOYPW
  dsimp only [mapperWith, baseOn]
  split <;> simp [setprg8r]

theorem COOLBOYPW_other (s : Mapper) (A V w : Nat) (h : w ≠ A >>> 13) :
    (COOLBOYPW s A V).base.PRG w =
      if s.cfi_mode ≠ 0 ∧ 4 ≤ w ∧ w < 8 then ⟨CFI_CHIP, w - 4⟩ else s.base.PRG w := by
  unfold COOLBOYPW
  dsimp only
  by_cases hc : s.cfi_mode = 0
  · split <;> simp [setprg8r, h, hc]
  · split <;> simp [setprg8r, setprg32r, h, hc]

/-- C7 (scenario A, as the code has it).  With the four control registers 0, bank-select 0,
flash emulation off and CFI mode off, for every value `V` and every window address `A`,
`COOLBOYPW(A, V)` maps window `A` to ROM bank `V AND 0x3F`: the low six bits pass through
and bits 6 and 7 come from the zero base offset; so the bank is exactly `V` when `V < 0x40`. -/
theorem scenarioA_low_six_bits (s : Mapper) (A V : Nat)
    (hE : s.EXPREGS = ⟨0, 0, 0, 0⟩) (hcmd : s.base.MMC3_cmd = 0)
    (hf : s.flash_save = 0) (hc : s.cfi_mode = 0) :
    (COOLBOYPW s A V).base.PRG (A >>> 13) = ⟨ROM_CHIP, V &&& 0x3F⟩ ∧
    (V < 0x40 → (COOLBOYPW s A V).base.PRG (A >>> 13) = ⟨ROM_CHIP, V⟩) := by
  have key : (COOLBOYPW s A V).base.PRG (A >>> 13) = ⟨ROM_CHIP, V &&& 0x3F⟩ := by
    unfold COOLBOYPW
    simp [hE, hcmd, hf, hc, setprg8r, not32]
  refine ⟨key, fun hV => ?_⟩
  rw [key]
  have h : V &&& 0x3F = V % 2 ^ 6 := Nat.and_pow_two_sub_one_eq_mod V 6
  rw [h, Nat.mod_eq_of_lt (by simpa using hV)]

/-- Witness for C7: the reset state and `COOLBOYPW(0xE000, 0xFF)`, the last-bank request of
the base controller, which lands on bank 0x3F. -/
theorem scenarioA_low_six_bits_witness :
    (COOLBOYPW (mapperWith ⟨0, 0, 0, 0⟩) 0xE000 0xFF).base.PRG (0xE000 >>> 13)
      = ⟨ROM_CHIP, 0xFF &&& 0x3F⟩ :=
  (scenarioA_low_six_bits (mapperWith ⟨0, 0, 0, 0⟩) 0xE000 0xFF rfl rfl rfl rfl).1

/-- Counterexample to C7 as stated: in the scenario-A state `COOLBOYPW(0x8000, 0x40)` maps the
window at $8000 to ROM bank 0, not to bank 0x40. -/
theorem scenarioA_not_passthrough :
    (mapperWith ⟨0, 0, 0, 0⟩).EXPREGS = ⟨0, 0, 0, 0⟩ ∧
    (mapperWith ⟨0, 0, 0, 0⟩).base.MMC3_cmd = 0 ∧
    (mapperWith ⟨0, 0, 0, 0⟩).flash_save = 0 ∧ (mapperWith ⟨0, 0, 0, 0⟩).cfi_mode = 0 ∧
    (COOLBOYPW (mapperWith ⟨0, 0, 0, 0⟩) 0x8000 0x40).base.PRG (0x8000 >>> 13) = ⟨ROM_CHIP, 0⟩ ∧
    (COOLBOYPW (mapperWith ⟨0, 0, 0, 0⟩) 0x8000 0x40).base.PRG (0x8000 >>> 13)
      ≠ ⟨ROM_CHIP, 0x40⟩ := by
  refine ⟨rfl, rfl, rfl, rfl, ?_, ?_⟩ <;> decide

/-- C8 (inputs of the program-space decode, as the code has them).  The bank number that
`COOLBOYPW(A, V)` gives window `A` is the same in any two states that agree on the four
control registers and the bank-select byte.  The backing chip is read from the flash-enable
flag and the other windows from the CFI-mode flag and the page table before the call: two
states that agree on these as well get the same mapping for every window.  Running the
decode a second time on its own result changes nothing. -/
theorem decode_inputs (s t : Mapper) (A V : Nat)
    (hE : s.EXPREGS = t.EXPREGS) (hcmd : s.base.MMC3_cmd = t.base.MMC3_cmd) :
    ((COOLBOYPW s A V).base.PRG (A >>> 13)).bank = ((COOLBOYPW t A V).base.PRG (A >>> 13)).bank ∧
    (s.flash_save = t.flash_save → s.cfi_mode = t.cfi_mode → s.base.PRG = t.base.PRG →
      (COOLBOYPW s A V).base.PRG = (COOLBOYPW t A V).base.PRG) ∧
    (COOLBOYPW (COOLBOYPW s A V) A V).base.PRG = (COOLBOYPW s A V).base.PRG := by
  have hfr : ∀ u : Mapper, (COOLBOYPW u A V).EXPREGS = u.EXPREGS ∧
      (COOLBOYPW u A V).base.MMC3_cmd = u.base.MMC3_cmd ∧
      (COOLBOYPW u A V).flash_save = u.flash_save ∧
      (COOLBOYPW u A V).cfi_mode = u.cfi_mode := by
    intro u
    unfold COOLBOYPW
    dsimp only
    split <;> split <;> simp [setprg8r, setprg32r]
  refine ⟨?_, fun hf hc hP => ?_, ?_⟩
  · rw [COOLBOYPW_window, COOLBOYPW_window, hE, hcmd]
  · funext w
    by_cases hw : w = A >>> 13
    · subst hw
      rw [COOLBOYPW_window, COOLBOYPW_window, hE, hcmd, hf]
    · rw [COOLBOYPW_other _ _ _ _ hw, COOLBOYPW_other _ _ _ _ hw, hc, hP]
  · obtain ⟨h1, h2, h3, h4⟩ := hfr s
    funext w
    by_cases hw : w = A >>> 13
    · subst hw
      rw [COOLBOYPW_window, COOLBOYPW_window, h1, h2, h3]
    · rw [COOLBOYPW_other _ _ _ _ hw, h4, COOLBOYPW_other _ _ _ _ hw]
      by_cases hc : s.cfi_mode ≠ 0 ∧ 4 ≤ w ∧ w < 8
      · simp [hc]
      · simp [hc]

/-- Witness for C8: the reset state with flash emulation off and on, at `COOLBOYPW(0x8000, 5)`:
both give window $8000 bank number 5. -/
theorem decode_inputs_witness :
    ((COOLBOYPW (mapperWith ⟨0, 0, 0, 0⟩) 0x8000 5).base.PRG (0x8000 >>> 13)).bank =
    ((COOLBOYPW (flashMapper []) 0x8000 5).base.PRG (0x8000 >>> 13)).bank :=
  (decode_inputs (mapperWith ⟨0, 0, 0, 0⟩) (flashMapper []) 0x8000 5 rfl rfl).1

/-- Counterexample to C8 as stated: two states that agree on the four control registers and on
the bank-select byte, one with flash emulation off and one with it on, get different backing
chips for window $8000 from `COOLBOYPW(0x8000, 5)`. -/
theorem decode_reads_flash_flag :
    (mapperWith ⟨0, 0, 0, 0⟩).EXPREGS = (flashMapper []).EXPREGS ∧
    (mapperWith ⟨0, 0, 0, 0⟩).base.MMC3_cmd = (flashMapper []).base.MMC3_cmd ∧
    (COOLBOYPW (mapperWith ⟨0, 0, 0, 0⟩) 0x8000 5).base.PRG (0x8000 >>> 13) = ⟨ROM_CHIP, 5⟩ ∧
    (COOLBOYPW (flashMapper []) 0x8000 5).base.PRG (0x8000 >>> 13) = ⟨FLASH_CHIP, 5⟩ ∧
    (COOLBOYPW (mapperWith ⟨0, 0, 0, 0⟩) 0x8000 5).base.PRG (0x8000 >>> 13) ≠
      (COOLBOYPW (flashMapper []) 0x8000 5).base.PRG (0x8000 >>> 13) := by
  refine ⟨rfl, rfl, ?_, ?_, ?_⟩ <;> decide

/-- C9 (CFI window), evaluated on the code: `COOLBOYPW(0x8000, V)` first points $8000-$FFFF at
the CFI chip when CFI mode is active and then maps the window at $8000 itself with
`setprg8r`, so after the call the window at $8000 is backed by the ROM or flash chip, never by
the CFI chip, in every state, CFI mode active or not. -/
theorem cfi_window_overridden (s : Mapper) (V : Nat) :
    ((COOLBOYPW s 0x8000 V).base.PRG (0x8000 >>> 13)).chip =
      (if s.flash_save = 0 then ROM_CHIP else FLASH_CHIP) ∧
    ((COOLBOYPW s 0x8000 V).base.PRG (0x8000 >>> 13)).chip ≠ CFI_CHIP ∧
    ((COOLBOYPW { flashMapper [] with cfi_mode := 1 } 0x8000 0).base.PRG (0x8000 >>> 13))
      = ⟨FLASH_CHIP, 0⟩ := by
  refine ⟨?_, ?_, by decide⟩
  · rw [COOLBOYPW_window]
  · rw [COOLBOYPW_window]
    dsimp only
    split <;> decide

/-- With CFI mode active, `COOLBOYPW` at one of the other three windows leaves the window at
$8000 on bank 0 of the CFI chip. -/
theorem cfi_window_kept (s : Mapper) (A V : Nat) (hc : s.cfi_mode ≠ 0)
    (hA : A = 0xA000 ∨ A = 0xC000 ∨ A = 0xE000) :
    (COOLBOYPW s A V).base.PRG (0x8000 >>> 13) = ⟨CFI_CHIP, 0⟩ := by
  have hw : (0x8000 >>> 13 : Nat) ≠ A >>> 13 := by
    rcases hA with rfl | rfl | rfl <;> decide
  rw [COOLBOYPW_other _ _ _ _ hw]
  simp [hc]

/-! ## Flash command state machine: frame lemmas -/

@[simp]
theorem portWrite_flash_save (m : MMC3) (s : Mapper) (A V : Nat) :
    (portWrite m s A V).flash_save = s.flash_save := by
  unfold portWrite; split <;> rfl

@[simp]
theorem portWrite_flash_state (m : MMC3) (s : Mapper) (A V : Nat) :
    (portWrite m s A V).flash_state = s.flash_state := by
  unfold portWrite; split <;> rfl

@[simp]
theorem portWrite_cfi_mode (m : MMC3) (s : Mapper) (A V : Nat) :
    (portWrite m s A V).cfi_mode = s.cfi_mode := by
  unfold portWrite; split <;> rfl

@[simp]
theorem portWrite_Flash (m : MMC3) (s : Mapper) (A V : Nat) :
    (portWrite m s A V).Flash = s.Flash := by
  unfold portWrite; split <;> rfl

@[simp]
theorem portWrite_buffer_a (m : MMC3) (s : Mapper) (A V : Nat) :
    (portWrite m s A V).flash_buffer_a = s.flash_buffer_a := by
  unfold portWrite; split <;> rfl

@[simp]
theorem portWrite_buffer_v (m : MMC3) (s : Mapper) (A V : Nat) :
    (portWrite m s A V).flash_buffer_v = s.flash_buffer_v := by
  unfold portWrite; split <;> rfl

@[simp]
theorem portWrite_log (m : MMC3) (s : Mapper) (A V : Nat) :
    (portWrite m s A V).log = s.log := by
  unfold portWrite; split <;> rfl

@[simp]
theorem CartBW_cfi_mode (s : Mapper) (A V : Nat) : (CartBW s A V).cfi_mode = s.cfi_mode := by
  unfold CartBW
  dsimp only
  split
  · rfl
  · split <;> rfl

@[simp]
theorem CartBW_log (s : Mapper) (A V : Nat) : (CartBW s A V).log = s.log := by
  unfold CartBW
  dsimp only
  split
  · rfl
  · split <;> rfl

@[simp]
theorem CartBW_buffer_a (s : Mapper) (A V : Nat) :
    (CartBW s A V).flash_buffer_a = s.flash_buffer_a := by
  unfold CartBW
  dsimp only
  split
  · rfl
  · split <;> rfl

@[simp]
theorem CartBW_buffer_v (s : Mapper) (A V : Nat) :
    (CartBW s A V).flash_buffer_v = s.flash_buffer_v := by
  unfold CartBW
  dsimp only
  split
  · rfl
  · split <;> rfl

theorem flashEraseSector_cfi_mode (s : Mapper) (A : Nat) :
    (flashEraseSector s A).cfi_mode = s.cfi_mode := by
  unfold flashEraseSector; split <;> rfl

theorem flashEraseChip_cfi_mode (s : Mapper) : (flashEraseChip s).cfi_mode = s.cfi_mode := by
  unfold flashEraseChip; split <;> rfl

theorem flashWriteByte_cfi_mode (s : Mapper) (A V : Nat) :
    (flashWriteByte s A V).cfi_mode = s.cfi_mode := by
  unfold flashWriteByte
  split
  · dsimp only
    split <;> simp
  · rfl

theorem flashEraseSector_buffers (s : Mapper) (A : Nat) :
    (flashEraseSector s A).flash_buffer_a = s.flash_buffer_a ∧
    (flashEraseSector s A).flash_buffer_v = s.flash_buffer_v := by
  unfold flashEraseSector; split <;> exact ⟨rfl, rfl⟩

theorem flashEraseChip_buffers (s : Mapper) :
    (flashEraseChip s).flash_buffer_a = s.flash_buffer_a ∧
    (flashEraseChip s).flash_buffer_v = s.flash_buffer_v := by
  unfold flashEraseChip; split <;> exact ⟨rfl, rfl⟩

theorem flashWriteByte_buffers (s : Mapper) (A V : Nat) :
    (flashWriteByte s A V).flash_buffer_a = s.flash_buffer_a ∧
    (flashWriteByte s A V).flash_buffer_v = s.flash_buffer_v := by
  unfold flashWriteByte
  split
  · dsimp only
    split <;> simp
  · exact ⟨rfl, rfl⟩

theorem flashEnterCFI_buffers (m : MMC3) (s : Mapper) :
    (flashEnterCFI m s).flash_buffer_a = s.flash_buffer_a ∧
    (flashEnterCFI m s).flash_buffer_v = s.flash_buffer_v ∧
    (flashEnterCFI m s).Flash = s.Flash ∧ (flashEnterCFI m s).log = s.log := by
  unfold flashEnterCFI; split <;> exact ⟨rfl, rfl, rfl, rfl⟩

/-- The tail of `COOLBOYFlashWrite` after the command blocks: `// not a command` and
`// reset` (coolboy.cpp:287-297) touch neither the Flash Store, the buffers nor the log. -/
theorem COOLBOYFlashWrite_eq (m : MMC3) (s : Mapper) (A V : Nat) (hf : s.flash_save ≠ 0) :
    ∃ t : Mapper,
      t = (if s.flash_state < 10 then
            flashWriteByte (flashEraseChip (flashEraseSector
              (flashEnterCFI m (flashBuffer (portWrite m s A V) A V)) A)) A V
          else portWrite m s A V) ∧
      (COOLBOYFlashWrite m s A V).Flash = t.Flash ∧
      (COOLBOYFlashWrite m s A V).log = t.log ∧
      (COOLBOYFlashWrite m s A V).flash_buffer_a = t.flash_buffer_a ∧
      (COOLBOYFlashWrite m s A V).flash_buffer_v = t.flash_buffer_v ∧
      (COOLBOYFlashWrite m s A V).cfi_mode = (if V = 0xF0 then 0 else t.cfi_mode) ∧
      (COOLBOYFlashWrite m s A V).flash_state =
        (if V = 0xF0 ∨ ((A &&& 0xFFF) ≠ 0x0AAA ∧ (A &&& 0xFFF) ≠ 0x0555) then 0
         else t.flash_state) := by
  refine ⟨_, rfl, ?_⟩
  unfold COOLBOYFlashWrite
  simp only [portWrite_flash_save, portWrite_flash_state, hf, ne_eq, not_false_eq_true, if_true]
  by_cases hV : V = 0xF0 <;>
    by_cases hA : (A &&& 0xFFF) ≠ 0x0AAA ∧ (A &&& 0xFFF) ≠ 0x0555 <;>
    simp [hV, hA]

/-! ## Flash command state machine: reset -/

/-- C6 (scenario C, explicit reset).  With flash emulation enabled, for every prior state
(any pending sequence length, any buffer contents, CFI mode on or off) and every ROM-space
address `A`, after the write `(A, 0xF0)` the pending sequence length is 0 and CFI mode is
off. -/
theorem reset_value_clears (m : MMC3) (s : Mapper) (A : Nat) (hf : s.flash_save ≠ 0) :
    (COOLBOYFlashWrite m s A 0xF0).flash_state = 0 ∧
    (COOLBOYFlashWrite m s A 0xF0).cfi_mode = 0 := by
  obtain ⟨t, -, -, -, -, -, hc, hs⟩ := COOLBOYFlashWrite_eq m s A 0xF0 hf
  refine ⟨?_, ?_⟩
  · rw [hs]; simp
  · rw [hc]; simp

/-- Witness for C6: CFI mode on and seven bytes pending, then the write `(0x8123, 0xF0)`. -/
theorem reset_value_clears_witness :
    ({ flashMapper [] with cfi_mode := 1, flash_state := 7 } : Mapper).flash_save ≠ 0 ∧
    (COOLBOYFlashWrite quietMMC3 { flashMapper [] with cfi_mode := 1, flash_state := 7 }
      0x8123 0xF0).flash_state = 0 ∧
    (COOLBOYFlashWrite quietMMC3 { flashMapper [] with cfi_mode := 1, flash_state := 7 }
      0x8123 0xF0).cfi_mode = 0 :=
  ⟨by decide, reset_value_clears quietMMC3
    { flashMapper [] with cfi_mode := 1, flash_state := 7 } 0x8123 (by decide)⟩

/-! ## Flash command state machine: byte program -/

theorem programHead_flashBuffer (s : Mapper) (A V : Nat) (h3 : s.flash_state = 3)
    (hh : programHead s = true) : programHead (flashBuffer s A V) = true := by
  simp only [programHead, flashBuffer, h3] at hh ⊢
  simpa using hh

/-- The command blocks of a write that arrives as the fourth byte after the byte-program
head reduce to the `// write byte` block. -/
theorem program_step (m : MMC3) (s : Mapper) (A V : Nat) (h3 : s.flash_state = 3) :
    flashWriteByte (flashEraseChip (flashEraseSector
        (flashEnterCFI m (flashBuffer s A V)) A)) A V
      = flashWriteByte (flashBuffer s A V) A V := by
  have h1 : flashEnterCFI m (flashBuffer s A V) = flashBuffer s A V := by
    unfold flashEnterCFI
    rw [if_neg]
    simp [flashBuffer, h3]
  have h2 : flashEraseSector (flashBuffer s A V) A = flashBuffer s A V := by
    unfold flashEraseSector
    rw [if_neg]
    simp [flashBuffer, h3]
  have h4 : flashEraseChip (flashBuffer s A V) = flashBuffer s A V := by
    unfold flashEraseChip
    rw [if_neg]
    simp [flashBuffer, h3]
  rw [h1, h2, h4]

/-- C5 (byte-program precondition, as the code has it).  With flash emulation enabled, for
every ROM-space write `(A, V)` that arrives as the fourth buffered byte after
`(0x0AAA,0xAA),(0x0555,0x55),(0x0AAA,0xA0)`: when the byte read at `A` (through the page table as the base controller
leaves it on this write) is not 0xFF, the Flash Store is unchanged and the diagnostic
`notErased` is appended to the log; when it is 0xFF and the window of `A` is backed by the
flash chip, the byte at the physical offset of `A` becomes `V`, every other Flash Store byte
is unchanged and nothing is logged; when it is 0xFF and the window is backed by another chip,
the Flash Store is unchanged. -/
theorem byte_program (m : MMC3) (s : Mapper) (A V : Nat) (hf : s.flash_save ≠ 0)
    (h3 : s.flash_state = 3) (hh : programHead s = true) :
    (CartBR (portWrite m s A V) A ≠ 0xFF →
      (COOLBOYFlashWrite m s A V).Flash = s.Flash ∧
      (COOLBOYFlashWrite m s A V).log
        = s.log ++ [Diag.notErased (flashOffset (portWrite m s A V) A)]) ∧
    (CartBR (portWrite m s A V) A = 0xFF →
      ((portWrite m s A V).base.PRG (A >>> 13)).chip = FLASH_CHIP →
      pageOffset (portWrite m s A V) A < s.Flash.length ∧
      (COOLBOYFlashWrite m s A V).Flash = s.Flash.set (pageOffset (portWrite m s A V) A) V ∧
      (COOLBOYFlashWrite m s A V).log = s.log) ∧
    (CartBR (portWrite m s A V) A = 0xFF →
      ((portWrite m s A V).base.PRG (A >>> 13)).chip ≠ FLASH_CHIP →
      (COOLBOYFlashWrite m s A V).Flash = s.Flash) := by
  obtain ⟨t, ht, hF, hL, -, -, -, -⟩ := COOLBOYFlashWrite_eq m s A V hf
  have h3' : (portWrite m s A V).flash_state = 3 := by simp [h3]
  have hh' : programHead (portWrite m s A V) = true := by
    simpa [programHead] using hh
  rw [if_pos (by omega), program_step m _ A V h3'] at ht
  have hb := programHead_flashBuffer (portWrite m s A V) A V h3' hh'
  have hst : (flashBuffer (portWrite m s A V) A V).flash_state = 4 := by
    simp [flashBuffer, h3]
  have hR : CartBR (flashBuffer (portWrite m s A V) A V) A = CartBR (portWrite m s A V) A := rfl
  have hO : flashOffset (flashBuffer (portWrite m s A V) A V) A
      = flashOffset (portWrite m s A V) A := rfl
  rw [hF, hL, ht]
  unfold flashWriteByte
  rw [if_pos ⟨hst, hb⟩]
  dsimp only
  rw [hR, hO]
  refine ⟨fun hne => ?_, fun heq hchip => ?_, fun heq hchip => ?_⟩
  · rw [if_pos hne]
    simp [flashBuffer]
  · rw [if_neg (by simp [heq])]
    have hlen : pageOffset (portWrite m s A V) A < s.Flash.length := by
      by_contra hge
      have : CartBR (portWrite m s A V) A = 0 := by
        unfold CartBR
        simp only [hchip, if_true, portWrite_Flash]
        rw [List.getD_eq_default]
        omega
      omega
    refine ⟨hlen, ?_, ?_⟩
    · unfold CartBW
      simp only [flashBuffer]
      rw [if_pos hchip]
      simp [pageOffset]
    · simp [flashBuffer]
  · rw [if_neg (by simp [heq])]
    unfold CartBW
    simp only [flashBuffer]
    rw [if_neg hchip]
    split <;> simp

/-- Witness for C5: a two-byte Flash Store `[0x00, 0xFF]` whose windows show bank 0 of the
flash chip, the byte-program head pending, and the write `(0x8001, 0x5A)`: byte 1 reads 0xFF
and is programmed. -/
theorem byte_program_witness :
    (COOLBOYFlashWrite quietMMC3
      { flashMapper [0x00, 0xFF] with
        flash_state := 3
        flash_buffer_a := fun i => if i = 1 then 0x0555 else 0x0AAA
        flash_buffer_v := fun i => if i = 0 then 0xAA else if i = 1 then 0x55 else 0xA0 }
      0x8001 0x5A).Flash = [0x00, 0x5A] :=
  ((byte_program quietMMC3
      { flashMapper [0x00, 0xFF] with
        flash_state := 3
        flash_buffer_a := fun i => if i = 1 then 0x0555 else 0x0AAA
        flash_buffer_v := fun i => if i = 0 then 0xAA else if i = 1 then 0x55 else 0xA0 }
      0x8001 0x5A (by decide) rfl (by decide)).2.1 (by decide) (by decide)).2.1

/-! ## Flash command state machine: sector erase -/

theorem eraseLoop_length (n : Nat) :
    ∀ (F : List Nat) (i : Nat), (eraseLoop F i n).length = F.length := by
  induction n with
  | zero => intro F i; rfl
  | succ n ih => intro F i; simp [eraseLoop, ih]

theorem getD_set_self (F : List Nat) (j v : Nat) (h : j < F.length) :
    (F.set j v).getD j 0 = v := by
  simp [List.getD_eq_getElem?_getD, h]

theorem getD_set_other (F : List Nat) (i j v : Nat) (h : i ≠ j) :
    (F.set i v).getD j 0 = F.getD j 0 := by
  simp [List.getD_eq_getElem?_getD, List.getElem?_set_ne h]

/-- A byte that no loop index reaches keeps its value. -/
theorem eraseLoop_keep (n : Nat) : ∀ (F : List Nat) (i j : Nat),
    (∀ k, i ≤ k → k < i + n → k % F.length ≠ j) →
    (eraseLoop F i n).getD j 0 = F.getD j 0 := by
  induction n with
  | zero => intro F i j _; rfl
  | succ n ih =>
    intro F i j h
    simp only [eraseLoop]
    rw [ih]
    · exact getD_set_other _ _ _ _ (h i (le_refl _) (by omega))
    · intro k hk1 hk2
      rw [List.length_set]
      exact h k (by omega) (by omega)

/-- A byte that some loop index reaches ends as 0xFF. -/
theorem eraseLoop_hit (n : Nat) : ∀ (F : List Nat) (i j : Nat), j < F.length →
    (∃ k, i ≤ k ∧ k < i + n ∧ k % F.length = j) →
    (eraseLoop F i n).getD j 0 = 0xFF := by
  induction n with
  | zero => intro F i j _ ⟨k, h1, h2, _⟩; omega
  | succ n ih =>
    intro F i j hj ⟨k, h1, h2, h3⟩
    simp only [eraseLoop]
    by_cases hlater : ∃ k, i + 1 ≤ k ∧ k < i + 1 + n ∧ k % F.length = j
    · apply ih
      · rw [List.length_set]; exact hj
      · rw [List.length_set]; exact hlater
    · rw [eraseLoop_keep]
      · have hk : k = i := by
          by_contra hne
          exact hlater ⟨k, by omega, by omega, h3⟩
        subst hk
        rw [h3]
        exact getD_set_self _ _ _ hj
      · intro k2 hk1 hk2 hk3
        rw [List.length_set] at hk3
        exact hlater ⟨k2, hk1, hk2, hk3⟩

theorem bmod_small (off : Nat) (h : off < 2 ^ 31) :
    Int.bmod (0 + (off : Int)) (2 ^ 32) = off := by
  unfold Int.bmod
  simp only [zero_add]
  norm_num
  omega

theorem tdiv_sector (off : Nat) :
    Int.tdiv (off : Int) (FLASH_SECTOR_SIZE : Int) = ((off / FLASH_SECTOR_SIZE : Nat) : Int) := by
  rw [Int.tdiv_eq_ediv (by omega) (by omega)]
  norm_cast

theorem sectorLo_small (q : Nat) (h : q * FLASH_SECTOR_SIZE < 2 ^ 32) :
    sectorLo (q : Int) = q * FLASH_SECTOR_SIZE := by
  unfold sectorLo
  have h2 : ((q : Int) * (FLASH_SECTOR_SIZE : Int)) % 2 ^ 32
      = ((q * FLASH_SECTOR_SIZE : Nat) : Int) := by
    push_cast
    apply Int.emod_eq_of_lt
    · positivity
    · have h3 : ((q * FLASH_SECTOR_SIZE : Nat) : Int) < ((2 ^ 32 : Nat) : Int) := by
        exact_mod_cast h
      simpa using h3
  rw [h2]
  exact Int.toNat_ofNat _

theorem sectorHi_small (q : Nat) (h : (q + 1) * FLASH_SECTOR_SIZE < 2 ^ 32) :
    sectorHi (q : Int) = (q + 1) * FLASH_SECTOR_SIZE := by
  unfold sectorHi
  have h2 : (((q : Int) + 1) * (FLASH_SECTOR_SIZE : Int)) % 2 ^ 32
      = (((q + 1) * FLASH_SECTOR_SIZE : Nat) : Int) := by
    push_cast
    apply Int.emod_eq_of_lt
    · positivity
    · have h3 : (((q + 1) * FLASH_SECTOR_SIZE : Nat) : Int) < ((2 ^ 32 : Nat) : Int) := by
        exact_mod_cast h
      simpa using h3
  rw [h2]
  exact Int.toNat_ofNat _

/-- A write that completes no command and keeps the sequence alive is only buffered. -/
theorem buffer_only (m : MMC3) (s : Mapper) (A V : Nat) (hf : s.flash_save ≠ 0)
    (hn : s.flash_state < 10)
    (hA : (A &&& 0xFFF) = 0x0AAA ∨ (A &&& 0xFFF) = 0x0555) (hV : V ≠ 0xF0)
    (h1 : s.flash_state = 0 → V ≠ 0x98) (h6 : s.flash_state ≠ 5)
    (h4 : s.flash_state = 3 → s.flash_buffer_v 2 ≠ 0xA0) :
    COOLBOYFlashWrite m s A V = flashBuffer (portWrite m s A V) A V := by
  have hE : flashEnterCFI m (flashBuffer (portWrite m s A V) A V)
      = flashBuffer (portWrite m s A V) A V := by
    unfold flashEnterCFI
    rw [if_neg]
    rintro ⟨hs, -, hv⟩
    simp only [flashBuffer, portWrite_flash_state, portWrite_buffer_v] at hs hv
    have h0 : s.flash_state = 0 := by omega
    rw [if_pos h0.symm] at hv
    exact h1 h0 hv
  have hS : flashEraseSector (flashBuffer (portWrite m s A V) A V) A
      = flashBuffer (portWrite m s A V) A V := by
    unfold flashEraseSector
    rw [if_neg]
    rintro ⟨hs, -, -⟩
    simp only [flashBuffer, portWrite_flash_state] at hs
    omega
  have hC : flashEraseChip (flashBuffer (portWrite m s A V) A V)
      = flashBuffer (portWrite m s A V) A V := by
    unfold flashEraseChip
    rw [if_neg]
    rintro ⟨hs, -, -⟩
    simp only [flashBuffer, portWrite_flash_state] at hs
    omega
  have hW : flashWriteByte (flashBuffer (portWrite m s A V) A V) A V
      = flashBuffer (portWrite m s A V) A V := by
    unfold flashWriteByte
    rw [if_neg]
    rintro ⟨hs, hp⟩
    simp only [flashBuffer, portWrite_flash_state] at hs
    have h3 : s.flash_state = 3 := by omega
    simp only [programHead, flashBuffer, portWrite_flash_state, portWrite_buffer_v, h3,
      decide_eq_true_eq] at hp
    exact h4 h3 (by simpa using hp.2.2.2.2.2)
  unfold COOLBOYFlashWrite
  simp only [portWrite_flash_save, portWrite_flash_state, hf, ne_eq, not_false_eq_true, if_true,
    hn, hE, hS, hC, hW]
  rcases hA with hA | hA <;> simp [hA, hV]

/-- The five-byte head of an erase command, written to an idle flash, is only buffered. -/
theorem erase_head_run (m : MMC3) (s : Mapper) (A1 A2 A3 A4 A5 : Nat) (hf : s.flash_save ≠ 0)
    (h0 : s.flash_state = 0)
    (hA1 : (A1 &&& 0xFFF) = 0x0AAA) (hA2 : (A2 &&& 0xFFF) = 0x0555)
    (hA3 : (A3 &&& 0xFFF) = 0x0AAA) (hA4 : (A4 &&& 0xFFF) = 0x0AAA)
    (hA5 : (A5 &&& 0xFFF) = 0x0555) :
    flashWrites m s [(A1, 0xAA), (A2, 0x55), (A3, 0x80), (A4, 0xAA), (A5, 0x55)]
      = bufferRun m s [(A1, 0xAA), (A2, 0x55), (A3, 0x80), (A4, 0xAA), (A5, 0x55)] := by
  simp only [flashWrites, bufferRun]
  rw [buffer_only m s A1 0xAA hf (by omega) (Or.inl hA1) (by decide) (fun _ => by decide)
    (by omega) (by omega)]
  rw [buffer_only m _ A2 0x55 (by simpa [flashBuffer] using hf) (by simp [flashBuffer, h0])
    (Or.inr hA2) (by decide) (fun _ => by decide) (by simp [flashBuffer, h0])
    (by simp [flashBuffer, h0])]
  rw [buffer_only m _ A3 0x80 (by simpa [flashBuffer] using hf) (by simp [flashBuffer, h0])
    (Or.inl hA3) (by decide) (fun _ => by decide) (by simp [flashBuffer, h0])
    (by simp [flashBuffer, h0])]
  rw [buffer_only m _ A4 0xAA (by simpa [flashBuffer] using hf) (by simp [flashBuffer, h0])
    (Or.inl hA4) (by decide) (fun _ => by decide) (by simp [flashBuffer, h0])
    (by simp [flashBuffer, h0])]
  rw [buffer_only m _ A5 0x55 (by simpa [flashBuffer] using hf) (by simp [flashBuffer, h0])
    (Or.inr hA5) (by decide) (fun _ => by decide) (by simp [flashBuffer, h0])
    (by simp [flashBuffer, h0])]

/-- State of the flash machine after the buffered five-byte erase head. -/
theorem erase_head_state (m : MMC3) (s : Mapper) (A1 A2 A3 A4 A5 : Nat)
    (h0 : s.flash_state = 0)
    (hA1 : (A1 &&& 0xFFF) = 0x0AAA) (hA2 : (A2 &&& 0xFFF) = 0x0555)
    (hA3 : (A3 &&& 0xFFF) = 0x0AAA) (hA4 : (A4 &&& 0xFFF) = 0x0AAA)
    (hA5 : (A5 &&& 0xFFF) = 0x0555) :
    (bufferRun m s [(A1, 0xAA), (A2, 0x55), (A3, 0x80), (A4, 0xAA), (A5, 0x55)]).flash_state = 5 ∧
    eraseHead (bufferRun m s [(A1, 0xAA), (A2, 0x55), (A3, 0x80), (A4, 0xAA), (A5, 0x55)])
      = true ∧
    (bufferRun m s [(A1, 0xAA), (A2, 0x55), (A3, 0x80), (A4, 0xAA), (A5, 0x55)]).Flash
      = s.Flash ∧
    (bufferRun m s [(A1, 0xAA), (A2, 0x55), (A3, 0x80), (A4, 0xAA), (A5, 0x55)]).flash_save
      = s.flash_save := by
  refine ⟨?_, ?_, ?_, ?_⟩
  · simp [bufferRun, flashBuffer, h0]
  · simp [bufferRun, flashBuffer, eraseHead, h0, hA1, hA2, hA3, hA4, hA5]
  · simp [bufferRun, flashBuffer]
  · simp [bufferRun, flashBuffer]

/-- The write that completes the sector-erase command runs the erase loop on the sector of
the `offset` computed for that write. -/
theorem sector_erase_write (m : MMC3) (s : Mapper) (A : Nat) (hf : s.flash_save ≠ 0)
    (h5 : s.flash_state = 5) (hh : eraseHead s = true) :
    (COOLBOYFlashWrite m s A 0x30).Flash =
      eraseLoop s.Flash
        (sectorLo (Int.tdiv (flashOffset (portWrite m s A 0x30) A) (FLASH_SECTOR_SIZE : Int)))
        (sectorHi (Int.tdiv (flashOffset (portWrite m s A 0x30) A) (FLASH_SECTOR_SIZE : Int))
          - sectorLo (Int.tdiv (flashOffset (portWrite m s A 0x30) A)
              (FLASH_SECTOR_SIZE : Int))) := by
  obtain ⟨t, ht, hF, -, -, -, -, -⟩ := COOLBOYFlashWrite_eq m s A 0x30 hf
  rw [hF, ht, if_pos (by omega)]
  have hst : (flashBuffer (portWrite m s A 0x30) A 0x30).flash_state = 6 := by
    simp [flashBuffer, h5]
  have hE : flashEnterCFI m (flashBuffer (portWrite m s A 0x30) A 0x30)
      = flashBuffer (portWrite m s A 0x30) A 0x30 := by
    unfold flashEnterCFI
    rw [if_neg]
    rintro ⟨hs, -, -⟩
    omega
  have hhead : eraseHead (flashBuffer (portWrite m s A 0x30) A 0x30) = true := by
    simp only [eraseHead, flashBuffer, portWrite_flash_state, portWrite_buffer_a,
      portWrite_buffer_v, h5] at hh ⊢
    simpa using hh
  have hv5 : (flashBuffer (portWrite m s A 0x30) A 0x30).flash_buffer_v 5 = 0x30 := by
    simp [flashBuffer, h5]
  rw [hE]
  have hO : flashOffset (flashBuffer (portWrite m s A 0x30) A 0x30) A
      = flashOffset (portWrite m s A 0x30) A := rfl
  have hS : (flashEraseSector (flashBuffer (portWrite m s A 0x30) A 0x30) A).flash_state = 6 ∧
      (flashEraseSector (flashBuffer (portWrite m s A 0x30) A 0x30) A).flash_buffer_v 5 = 0x30 ∧
      (flashEraseSector (flashBuffer (portWrite m s A 0x30) A 0x30) A).Flash =
        eraseLoop s.Flash
          (sectorLo (Int.tdiv (flashOffset (portWrite m s A 0x30) A) (FLASH_SECTOR_SIZE : Int)))
          (sectorHi (Int.tdiv (flashOffset (portWrite m s A 0x30) A) (FLASH_SECTOR_SIZE : Int))
            - sectorLo (Int.tdiv (flashOffset (portWrite m s A 0x30) A)
                (FLASH_SECTOR_SIZE : Int))) := by
    unfold flashEraseSector
    rw [if_pos ⟨hst, hhead, hv5⟩]
    dsimp only
    rw [hO]
    exact ⟨hst, hv5, by simp [flashBuffer]⟩
  have hC : flashEraseChip (flashEraseSector (flashBuffer (portWrite m s A 0x30) A 0x30) A)
      = flashEraseSector (flashBuffer (portWrite m s A 0x30) A 0x30) A := by
    unfold flashEraseChip
    rw [if_neg]
    rintro ⟨-, -, hv⟩
    rw [hS.2.1] at hv
    exact absurd hv (by decide)
  have hW : flashWriteByte (flashEraseSector (flashBuffer (portWrite m s A 0x30) A 0x30) A)
      A 0x30 = flashEraseSector (flashBuffer (portWrite m s A 0x30) A 0x30) A := by
    unfold flashWriteByte
    rw [if_neg]
    rintro ⟨hs, -⟩
    rw [hS.1] at hs
    exact absurd hs (by decide)
  rw [hC, hW, hS.2.2]

/-- Bytes of the Flash Store after the erase loop of the sector that holds offset `off`. -/
theorem erase_sector_bytes (F : List Nat) (off : Nat) (hoff : off < F.length)
    (hlen : F.length < 2 ^ 31) :
    (eraseLoop F (sectorLo (Int.tdiv (off : Int) (FLASH_SECTOR_SIZE : Int)))
      (sectorHi (Int.tdiv (off : Int) (FLASH_SECTOR_SIZE : Int))
        - sectorLo (Int.tdiv (off : Int) (FLASH_SECTOR_SIZE : Int)))).length = F.length ∧
    (∀ j, j < F.length →
      (∃ i, off / FLASH_SECTOR_SIZE * FLASH_SECTOR_SIZE ≤ i ∧
        i < (off / FLASH_SECTOR_SIZE + 1) * FLASH_SECTOR_SIZE ∧ i % F.length = j) →
      (eraseLoop F (sectorLo (Int.tdiv (off : Int) (FLASH_SECTOR_SIZE : Int)))
        (sectorHi (Int.tdiv (off : Int) (FLASH_SECTOR_SIZE : Int))
          - sectorLo (Int.tdiv (off : Int) (FLASH_SECTOR_SIZE : Int)))).getD j 0 = 0xFF) ∧
    (∀ j,
      (∀ i, off / FLASH_SECTOR_SIZE * FLASH_SECTOR_SIZE ≤ i →
        i < (off / FLASH_SECTOR_SIZE + 1) * FLASH_SECTOR_SIZE → i % F.length ≠ j) →
      (eraseLoop F (sectorLo (Int.tdiv (off : Int) (FLASH_SECTOR_SIZE : Int)))
        (sectorHi (Int.tdiv (off : Int) (FLASH_SECTOR_SIZE : Int))
          - sectorLo (Int.tdiv (off : Int) (FLASH_SECTOR_SIZE : Int)))).getD j 0
        = F.getD j 0) := by
  have hSS : FLASH_SECTOR_SIZE = 131072 := rfl
  have hq : (off / FLASH_SECTOR_SIZE + 1) * FLASH_SECTOR_SIZE < 2 ^ 32 := by
    rw [hSS]; omega
  have hq0 : off / FLASH_SECTOR_SIZE * FLASH_SECTOR_SIZE < 2 ^ 32 := by
    rw [hSS]; omega
  rw [tdiv_sector, sectorLo_small _ hq0, sectorHi_small _ hq]
  have hcount : (off / FLASH_SECTOR_SIZE + 1) * FLASH_SECTOR_SIZE
      - off / FLASH_SECTOR_SIZE * FLASH_SECTOR_SIZE = FLASH_SECTOR_SIZE := by
    rw [hSS]; omega
  have hend : off / FLASH_SECTOR_SIZE * FLASH_SECTOR_SIZE + FLASH_SECTOR_SIZE
      = (off / FLASH_SECTOR_SIZE + 1) * FLASH_SECTOR_SIZE := by
    rw [hSS]; omega
  rw [hcount]
  refine ⟨eraseLoop_length _ _ _, fun j hj ⟨i, h1, h2, h3⟩ => ?_, fun j h => ?_⟩
  · exact eraseLoop_hit _ _ _ _ hj ⟨i, h1, by rw [hend]; exact h2, h3⟩
  · exact eraseLoop_keep _ _ _ _ (fun k hk1 hk2 => h k hk1 (by rw [← hend]; exact hk2))

/-- The `offset` of coolboy.cpp:250 for a window backed by the flash chip. -/
theorem flashOffset_flash (s : Mapper) (A : Nat)
    (hchip : (s.base.PRG (A >>> 13)).chip = FLASH_CHIP) (h : pageOffset s A < 2 ^ 31) :
    flashOffset s A = (pageOffset s A : Int) := by
  unfold flashOffset
  dsimp only
  rw [if_pos hchip]
  exact bmod_small _ h

/-- Flash Store after the six writes of the sector-erase command on an idle flash, when the
sixth write lands in a window backed by the flash chip at offset `off`. -/
theorem sector_erase_run (m : MMC3) (s : Mapper) (A1 A2 A3 A4 A5 A6 off : Nat)
    (hf : s.flash_save ≠ 0) (h0 : s.flash_state = 0)
    (hA1 : (A1 &&& 0xFFF) = 0x0AAA) (hA2 : (A2 &&& 0xFFF) = 0x0555)
    (hA3 : (A3 &&& 0xFFF) = 0x0AAA) (hA4 : (A4 &&& 0xFFF) = 0x0AAA)
    (hA5 : (A5 &&& 0xFFF) = 0x0555)
    (hchip : ((portWrite m
        (bufferRun m s [(A1, 0xAA), (A2, 0x55), (A3, 0x80), (A4, 0xAA), (A5, 0x55)])
        A6 0x30).base.PRG (A6 >>> 13)).chip = FLASH_CHIP)
    (hoff : pageOffset (portWrite m
        (bufferRun m s [(A1, 0xAA), (A2, 0x55), (A3, 0x80), (A4, 0xAA), (A5, 0x55)])
        A6 0x30) A6 = off)
    (hlt : off < 2 ^ 31) :
    (flashWrites m s
        [(A1, 0xAA), (A2, 0x55), (A3, 0x80), (A4, 0xAA), (A5, 0x55), (A6, 0x30)]).Flash
      = eraseLoop s.Flash (sectorLo (Int.tdiv (off : Int) (FLASH_SECTOR_SIZE : Int)))
          (sectorHi (Int.tdiv (off : Int) (FLASH_SECTOR_SIZE : Int))
            - sectorLo (Int.tdiv (off : Int) (FLASH_SECTOR_SIZE : Int))) := by
  have hrun := erase_head_run m s A1 A2 A3 A4 A5 hf h0 hA1 hA2 hA3 hA4 hA5
  obtain ⟨h5, hh, hF, hs⟩ := erase_head_state m s A1 A2 A3 A4 A5 h0 hA1 hA2 hA3 hA4 hA5
  have hsplit : flashWrites m s
      [(A1, 0xAA), (A2, 0x55), (A3, 0x80), (A4, 0xAA), (A5, 0x55), (A6, 0x30)]
      = COOLBOYFlashWrite m
          (flashWrites m s [(A1, 0xAA), (A2, 0x55), (A3, 0x80), (A4, 0xAA), (A5, 0x55)])
          A6 0x30 := by
    simp only [flashWrites]
  rw [hsplit, hrun, sector_erase_write m _ A6 (by rw [hs]; exact hf) h5 hh,
    flashOffset_flash _ _ hchip (by rw [hoff]; exact hlt), hoff, hF]

/-- C4 (scenario B, sector erase, as the code has it).  With flash emulation enabled and an
empty pending sequence, the six ROM-space writes with 12-bit masked addresses and values
`(0x0AAA,0xAA),(0x0555,0x55),(0x0AAA,0x80),(0x0AAA,0xAA),(0x0555,0x55),(_,0x30)`, the sixth
landing in a window backed by the flash chip at physical offset `off` of a Flash Store below
2 GiB, keep the size of the Flash Store, set to 0xFF every byte at an index `i mod size` for
`i` in the 128 KiB-aligned range that contains `off`, and leave every other byte unchanged.
When the size is a multiple of 128 KiB, or at most 128 KiB, these are exactly the bytes of
the 128 KiB-aligned sector that contains `off`: every byte of that sector is 0xFF and every
byte outside it is unchanged. -/
theorem scenarioB_sector_erase (m : MMC3) (s : Mapper) (A1 A2 A3 A4 A5 A6 off : Nat)
    (hf : s.flash_save ≠ 0) (h0 : s.flash_state = 0)
    (hA1 : (A1 &&& 0xFFF) = 0x0AAA) (hA2 : (A2 &&& 0xFFF) = 0x0555)
    (hA3 : (A3 &&& 0xFFF) = 0x0AAA) (hA4 : (A4 &&& 0xFFF) = 0x0AAA)
    (hA5 : (A5 &&& 0xFFF) = 0x0555)
    (hchip : ((portWrite m
        (flashWrites m s [(A1, 0xAA), (A2, 0x55), (A3, 0x80), (A4, 0xAA), (A5, 0x55)])
        A6 0x30).base.PRG (A6 >>> 13)).chip = FLASH_CHIP)
    (hoff : pageOffset (portWrite m
        (flashWrites m s [(A1, 0xAA), (A2, 0x55), (A3, 0x80), (A4, 0xAA), (A5, 0x55)])
        A6 0x30) A6 = off)
    (hin : off < s.Flash.length) (hlen : s.Flash.length < 2 ^ 31) :
    (flashWrites m s
      [(A1, 0xAA), (A2, 0x55), (A3, 0x80), (A4, 0xAA), (A5, 0x55), (A6, 0x30)]).Flash.length
      = s.Flash.length ∧
    (∀ j, j < s.Flash.length →
      (∃ i, off / FLASH_SECTOR_SIZE * FLASH_SECTOR_SIZE ≤ i ∧
        i < (off / FLASH_SECTOR_SIZE + 1) * FLASH_SECTOR_SIZE ∧ i % s.Flash.length = j) →
      (flashWrites m s
        [(A1, 0xAA), (A2, 0x55), (A3, 0x80), (A4, 0xAA), (A5, 0x55), (A6, 0x30)]).Flash.getD j 0
        = 0xFF) ∧
    (∀ j,
      (∀ i, off / FLASH_SECTOR_SIZE * FLASH_SECTOR_SIZE ≤ i →
        i < (off / FLASH_SECTOR_SIZE + 1) * FLASH_SECTOR_SIZE → i % s.Flash.length ≠ j) →
      (flashWrites m s
        [(A1, 0xAA), (A2, 0x55), (A3, 0x80), (A4, 0xAA), (A5, 0x55), (A6, 0x30)]).Flash.getD j 0
        = s.Flash.getD j 0) ∧
    (FLASH_SECTOR_SIZE ∣ s.Flash.length ∨ s.Flash.length ≤ FLASH_SECTOR_SIZE →
      ∀ j, j < s.Flash.length →
        (j / FLASH_SECTOR_SIZE = off / FLASH_SECTOR_SIZE →
          (flashWrites m s
            [(A1, 0xAA), (A2, 0x55), (A3, 0x80), (A4, 0xAA), (A5, 0x55),
              (A6, 0x30)]).Flash.getD j 0 = 0xFF) ∧
        (j / FLASH_SECTOR_SIZE ≠ off / FLASH_SECTOR_SIZE →
          (flashWrites m s
            [(A1, 0xAA), (A2, 0x55), (A3, 0x80), (A4, 0xAA), (A5, 0x55),
              (A6, 0x30)]).Flash.getD j 0 = s.Flash.getD j 0)) := by
  have hrun := erase_head_run m s A1 A2 A3 A4 A5 hf h0 hA1 hA2 hA3 hA4 hA5
  rw [hrun] at hchip hoff
  rw [sector_erase_run m s A1 A2 A3 A4 A5 A6 off hf h0 hA1 hA2 hA3 hA4 hA5 hchip hoff
    (by omega)]
  obtain ⟨hL, hhit, hkeep⟩ := erase_sector_bytes s.Flash off hin hlen
  refine ⟨hL, hhit, hkeep, fun hsz j hj => ⟨fun hsame => ?_, fun hdiff => ?_⟩⟩
  · apply hhit j hj
    have hSS : FLASH_SECTOR_SIZE = 131072 := rfl
    rw [hSS] at hsame ⊢
    refine ⟨j, by omega, by omega, Nat.mod_eq_of_lt hj⟩
  · apply hkeep j
    intro i hi1 hi2 hmod
    have hSS : FLASH_SECTOR_SIZE = 131072 := rfl
    rw [hSS] at hdiff hi1 hi2 hsz
    have hi : i < s.Flash.length := by
      rcases hsz with ⟨c, hc⟩ | hle
      · omega
      · omega
    rw [Nat.mod_eq_of_lt hi] at hmod
    omega

/-- Witness for C4: a 4 KiB Flash Store of zero bytes shown through bank 0 of the flash chip,
the six writes at $8AAA and $8555; the sixth lands at offset 0xAAA, in sector 0, and byte 5
of that sector ends as 0xFF. -/
theorem scenarioB_sector_erase_witness :
    (flashMapper (List.replicate 4096 0)).flash_save ≠ 0 ∧
    (flashMapper (List.replicate 4096 0)).flash_state = 0 ∧
    (flashWrites quietMMC3 (flashMapper (List.replicate 4096 0))
      [(0x8AAA, 0xAA), (0x8555, 0x55), (0x8AAA, 0x80), (0x8AAA, 0xAA), (0x8555, 0x55),
        (0x8AAA, 0x30)]).Flash.getD 5 0 = 0xFF :=
  have hlen : (flashMapper (List.replicate 4096 0)).Flash.length = 4096 := by
    simp only [flashMapper, List.length_replicate]
  ⟨by decide, rfl,
    (((scenarioB_sector_erase quietMMC3 (flashMapper (List.replicate 4096 0))
      0x8AAA 0x8555 0x8AAA 0x8AAA 0x8555 0x8AAA 0xAAA (by decide) rfl (by decide) (by decide)
      (by decide) (by decide) (by decide) (by decide) (by decide)
      (by rw [hlen]; decide) (by rw [hlen]; decide)).2.2.2
      (Or.inr (by rw [hlen]; decide))) 5 (by rw [hlen]; decide)).1
      (by decide)⟩

/-- Counterexample to C4 as stated: on a 192 KiB Flash Store of zero bytes whose windows show
the flash chip from offset 128 KiB, the six writes erase sector 1 (the sixth write lands at
offset 133802) and also set byte 0, which lies in sector 0, from 0x00 to 0xFF. -/
theorem sector_erase_wraps :
    oddSizeMapper.flash_save ≠ 0 ∧ oddSizeMapper.flash_state = 0 ∧
    oddSizeMapper.Flash.length = 196608 ∧
    pageOffset (portWrite quietMMC3
      (flashWrites quietMMC3 oddSizeMapper
        [(0x8AAA, 0xAA), (0x8555, 0x55), (0x8AAA, 0x80), (0x8AAA, 0xAA), (0x8555, 0x55)])
      0x8AAA 0x30) 0x8AAA = 133802 ∧
    133802 / FLASH_SECTOR_SIZE = 1 ∧ 0 / FLASH_SECTOR_SIZE ≠ 1 ∧
    oddSizeMapper.Flash.getD 0 0 = 0x00 ∧
    (flashWrites quietMMC3 oddSizeMapper
      [(0x8AAA, 0xAA), (0x8555, 0x55), (0x8AAA, 0x80), (0x8AAA, 0xAA), (0x8555, 0x55),
        (0x8AAA, 0x30)]).Flash.getD 0 0 = 0xFF := by
  have hlen : oddSizeMapper.Flash.length = 196608 := by
    simp only [oddSizeMapper, flashMapper, List.length_replicate]
  have hrun := erase_head_run quietMMC3 oddSizeMapper 0x8AAA 0x8555 0x8AAA 0x8AAA 0x8555
    (by decide) rfl (by decide) (by decide) (by decide) (by decide) (by decide)
  have hoff : pageOffset (portWrite quietMMC3
      (bufferRun quietMMC3 oddSizeMapper
        [(0x8AAA, 0xAA), (0x8555, 0x55), (0x8AAA, 0x80), (0x8AAA, 0xAA), (0x8555, 0x55)])
      0x8AAA 0x30) 0x8AAA = 133802 := by decide
  refine ⟨by decide, rfl, hlen, by rw [hrun]; exact hoff, by decide, by decide, ?_, ?_⟩
  · decide
  · rw [sector_erase_run quietMMC3 oddSizeMapper 0x8AAA 0x8555 0x8AAA 0x8AAA 0x8555 0x8AAA
      133802 (by decide) rfl (by decide) (by decide) (by decide) (by decide) (by decide)
      (by decide) hoff (by decide)]
    refine (erase_sector_bytes oddSizeMapper.Flash 133802 (by rw [hlen]; decide)
      (by rw [hlen]; decide)).2.1 0 (by rw [hlen]; decide) ⟨196608, by decide, by decide, ?_⟩
    rw [hlen]

set_option maxRecDepth 16384 in
/-- Counterexample to C5 as stated: in CFI mode the window at $8000 shows the CFI table, whose
first byte reads 0xFF; the write `(0x8000, 0x12)` completes the byte-program command (the
pending sequence is cleared), raises no diagnostic, and leaves the Flash Store `[0xFF, 0xFF]`
as it was: no byte becomes 0x12. -/
theorem cfi_window_program_dropped :
    cfiProgramMapper.flash_save ≠ 0 ∧ cfiProgramMapper.flash_state = 3 ∧
    programHead cfiProgramMapper = true ∧
    cfiProgramMapper.Flash = [0xFF, 0xFF] ∧
    CartBR (portWrite quietMMC3 cfiProgramMapper 0x8000 0x12) 0x8000 = 0xFF ∧
    (COOLBOYFlashWrite quietMMC3 cfiProgramMapper 0x8000 0x12).flash_state = 0 ∧
    (COOLBOYFlashWrite quietMMC3 cfiProgramMapper 0x8000 0x12).log = [] ∧
    (COOLBOYFlashWrite quietMMC3 cfiProgramMapper 0x8000 0x12).Flash = [0xFF, 0xFF] := by
  refine ⟨?_, ?_, ?_, ?_, ?_, ?_, ?_, ?_⟩
  · decide
  · rfl
  · rfl
  · rfl
  · rfl
  · rfl
  · rfl
  · rfl

/-! ## Flash command state machine: end of a command, chip erase, bounded buffer -/

/-- With flash emulation disabled the handler only forwards the write to the base
controller. -/
theorem COOLBOYFlashWrite_disabled (m : MMC3) (s : Mapper) (A V : Nat) (hf : s.flash_save = 0) :
    COOLBOYFlashWrite m s A V = portWrite m s A V := by
  unfold COOLBOYFlashWrite
  simp [hf]

theorem flashEnterCFI_state_le (m : MMC3) (s : Mapper) :
    (flashEnterCFI m s).flash_state ≤ s.flash_state := by
  unfold flashEnterCFI
  split
  · exact Nat.zero_le _
  · exact Nat.le_refl _

theorem flashEraseSector_state (s : Mapper) (A : Nat) :
    (flashEraseSector s A).flash_state = s.flash_state := by
  unfold flashEraseSector; split <;> rfl

theorem flashEraseChip_state (s : Mapper) : (flashEraseChip s).flash_state = s.flash_state := by
  unfold flashEraseChip; split <;> rfl

theorem flashWriteByte_state_le (s : Mapper) (A V : Nat) :
    (flashWriteByte s A V).flash_state ≤ s.flash_state := by
  unfold flashWriteByte
  split
  · exact Nat.zero_le _
  · exact Nat.le_refl _

/-- The write that completes an erase command at a command-anchor address leaves six bytes
pending: neither erase block resets `flash_state`. -/
theorem erase_write_keeps_pending (m : MMC3) (s : Mapper) (A V : Nat) (hf : s.flash_save ≠ 0)
    (h5 : s.flash_state = 5) (hA : (A &&& 0xFFF) = 0x0AAA ∨ (A &&& 0xFFF) = 0x0555)
    (hV : V = 0x30 ∨ V = 0x10) :
    (COOLBOYFlashWrite m s A V).flash_state = 6 := by
  obtain ⟨t, ht, -, -, -, -, -, hs⟩ := COOLBOYFlashWrite_eq m s A V hf
  have hV' : ¬ V = 0xF0 := by rcases hV with rfl | rfl <;> decide
  have hA' : ¬ ((A &&& 0xFFF) ≠ 0x0AAA ∧ (A &&& 0xFFF) ≠ 0x0555) := by
    rcases hA with h | h <;> simp [h]
  rw [hs, if_neg (by simp [hV', hA']), ht, if_pos (by omega)]
  have hE : flashEnterCFI m (flashBuffer (portWrite m s A V) A V)
      = flashBuffer (portWrite m s A V) A V := by
    unfold flashEnterCFI
    rw [if_neg]
    rintro ⟨hs1, -, -⟩
    simp only [flashBuffer, portWrite_flash_state] at hs1
    omega
  have hW : ∀ u : Mapper, u.flash_state = 6 → (flashWriteByte u A V).flash_state = 6 := by
    intro u hu
    unfold flashWriteByte
    rw [if_neg]
    · exact hu
    · rintro ⟨h4, -⟩
      omega
  apply hW
  rw [flashEraseChip_state, flashEraseSector_state, hE]
  simp [flashBuffer, h5]

/-- C11 (end of a command), evaluated on the code: on an idle flash the six writes of the
sector-erase command and of the chip-erase command, the sixth at the command-anchor address
$8AAA, leave six bytes pending (`flash_state = 6`, not 0); a CFI query `(0x8AAA, 0x98)`
written next is buffered as the seventh byte and does not enter CFI mode, and the byte-program
command `(0x8AAA,0xAA),(0x8555,0x55),(0x8AAA,0xA0),(0x8000,0x5A)` written after the chip erase
is buffered as bytes seven to ten and programs nothing (the erased byte 0 stays 0xFF).  The
same query and the same byte-program command written to an idle flash are recognized. -/
theorem erase_leaves_sequence_pending :
    (flashWrites quietMMC3 (flashMapper [0x00])
      [(0x8AAA, 0xAA), (0x8555, 0x55), (0x8AAA, 0x80), (0x8AAA, 0xAA), (0x8555, 0x55),
        (0x8AAA, 0x30)]).flash_state = 6 ∧
    (flashWrites quietMMC3 (flashMapper [0x00])
      [(0x8AAA, 0xAA), (0x8555, 0x55), (0x8AAA, 0x80), (0x8AAA, 0xAA), (0x8555, 0x55),
        (0x8AAA, 0x10)]).flash_state = 6 ∧
    (flashWrites quietMMC3 (flashMapper [0x00])
      [(0x8AAA, 0xAA), (0x8555, 0x55), (0x8AAA, 0x80), (0x8AAA, 0xAA), (0x8555, 0x55),
        (0x8AAA, 0x10), (0x8AAA, 0x98)]).cfi_mode = 0 ∧
    (flashWrites quietMMC3 (flashMapper [0x00])
      [(0x8AAA, 0xAA), (0x8555, 0x55), (0x8AAA, 0x80), (0x8AAA, 0xAA), (0x8555, 0x55),
        (0x8AAA, 0x10), (0x8AAA, 0x98)]).flash_state = 7 ∧
    (flashWrites quietMMC3 (flashMapper [0x00]) [(0x8AAA, 0x98)]).cfi_mode = 1 ∧
    (flashWrites quietMMC3 (flashMapper [0x00])
      [(0x8AAA, 0xAA), (0x8555, 0x55), (0x8AAA, 0x80), (0x8AAA, 0xAA), (0x8555, 0x55),
        (0x8AAA, 0x10),
        (0x8AAA, 0xAA), (0x8555, 0x55), (0x8AAA, 0xA0)]).flash_state = 9 ∧
    (flashWrites quietMMC3 (flashMapper [0x00])
      [(0x8AAA, 0xAA), (0x8555, 0x55), (0x8AAA, 0x80), (0x8AAA, 0xAA), (0x8555, 0x55),
        (0x8AAA, 0x10),
        (0x8AAA, 0xAA), (0x8555, 0x55), (0x8AAA, 0xA0), (0x8000, 0x5A)]).Flash = [0xFF] ∧
    (flashWrites quietMMC3 (flashMapper [0xFF])
      [(0x8AAA, 0xAA), (0x8555, 0x55), (0x8AAA, 0xA0), (0x8000, 0x5A)]).Flash = [0x5A] := by
  refine ⟨?_, ?_, ?_, ?_, ?_, ?_, ?_, ?_⟩ <;> rfl

/-- C13 (soft reset).  For every prior state, after `CommonReset` the four control registers
are 0, the pending sequence length is 0, CFI mode is off and the Flash Store is unchanged;
the lockout condition no longer holds, and the next register write (`COOLBOYWrite` at any
address, `MINDKIDSWrite` below $6000) is stored. -/
theorem soft_reset (m : MMC3) (s : Mapper) (A V : Nat) :
    (CommonReset m s).EXPREGS = ⟨0, 0, 0, 0⟩ ∧
    (CommonReset m s).flash_state = 0 ∧
    (CommonReset m s).cfi_mode = 0 ∧
    (CommonReset m s).Flash = s.Flash ∧
    ((CommonReset m s).EXPREGS.r3 &&& 0x90) ≠ 0x80 ∧
    (COOLBOYWrite m (CommonReset m s) A V).EXPREGS = Regs.set ⟨0, 0, 0, 0⟩ (A &&& 3) V ∧
    (A < 0x6000 →
      (MINDKIDSWrite m (CommonReset m s) A V).EXPREGS = Regs.set ⟨0, 0, 0, 0⟩ (A &&& 3) V) := by
  have hE : (CommonReset m s).EXPREGS = ⟨0, 0, 0, 0⟩ := rfl
  have hl : ((CommonReset m s).EXPREGS.r3 &&& 0x90) ≠ 0x80 := by
    rw [hE]; decide
  refine ⟨hE, rfl, rfl, rfl, hl, ?_, fun hA => ?_⟩
  · rw [COOLBOYWrite_EXPREGS, if_pos hl, hE]
  · rw [MINDKIDSWrite_EXPREGS, if_pos ⟨hA, hl⟩, hE]

/-- Witness for C13: a locked-out bank (register 3 = 0x80) with CFI mode on and four bytes
pending is reset, and a `MINDKIDSWrite` of 0x11 at $5002 is then stored in register 2. -/
theorem soft_reset_witness :
    (0x5002 : Nat) < 0x6000 ∧
    (MINDKIDSWrite quietMMC3
      (CommonReset quietMMC3
        { mapperWith ⟨1, 2, 3, 0x80⟩ with cfi_mode := 1, flash_state := 4, flash_save := 1 })
      0x5002 0x11).EXPREGS = Regs.set ⟨0, 0, 0, 0⟩ (0x5002 &&& 3) 0x11 :=
  ⟨by decide,
    (soft_reset quietMMC3
      { mapperWith ⟨1, 2, 3, 0x80⟩ with cfi_mode := 1, flash_state := 4, flash_save := 1 }
      0x5002 0x11).2.2.2.2.2.2 (by decide)⟩

/-- The write that completes the chip-erase command fills the Flash Store with 0xFF. -/
theorem chip_erase_write (m : MMC3) (s : Mapper) (A : Nat) (hf : s.flash_save ≠ 0)
    (h5 : s.flash_state = 5) (hh : eraseHead s = true) :
    (COOLBOYFlashWrite m s A 0x10).Flash = List.replicate s.Flash.length 0xFF := by
  obtain ⟨t, ht, hF, -, -, -, -, -⟩ := COOLBOYFlashWrite_eq m s A 0x10 hf
  rw [hF, ht, if_pos (by omega)]
  have hst : (flashBuffer (portWrite m s A 0x10) A 0x10).flash_state = 6 := by
    simp [flashBuffer, h5]
  have hE : flashEnterCFI m (flashBuffer (portWrite m s A 0x10) A 0x10)
      = flashBuffer (portWrite m s A 0x10) A 0x10 := by
    unfold flashEnterCFI
    rw [if_neg]
    rintro ⟨hs, -, -⟩
    omega
  have hhead : eraseHead (flashBuffer (portWrite m s A 0x10) A 0x10) = true := by
    simp only [eraseHead, flashBuffer, portWrite_flash_state, portWrite_buffer_a,
      portWrite_buffer_v, h5] at hh ⊢
    simpa using hh
  have hv5 : (flashBuffer (portWrite m s A 0x10) A 0x10).flash_buffer_v 5 = 0x10 := by
    simp [flashBuffer, h5]
  have hS : flashEraseSector (flashBuffer (portWrite m s A 0x10) A 0x10) A
      = flashBuffer (portWrite m s A 0x10) A 0x10 := by
    unfold flashEraseSector
    rw [if_neg]
    rintro ⟨-, -, hv⟩
    rw [hv5] at hv
    exact absurd hv (by decide)
  have hC : (flashEraseChip (flashBuffer (portWrite m s A 0x10) A 0x10)).flash_state = 6 ∧
      (flashEraseChip (flashBuffer (portWrite m s A 0x10) A 0x10)).Flash
        = List.replicate s.Flash.length 0xFF := by
    unfold flashEraseChip
    rw [if_pos ⟨hst, hhead, hv5⟩]
    exact ⟨hst, by simp [flashBuffer]⟩
  have hW : flashWriteByte (flashEraseChip (flashBuffer (portWrite m s A 0x10) A 0x10)) A 0x10
      = flashEraseChip (flashBuffer (portWrite m s A 0x10) A 0x10) := by
    unfold flashWriteByte
    rw [if_neg]
    rintro ⟨hs, -⟩
    rw [hC.1] at hs
    exact absurd hs (by decide)
  rw [hE, hS, hW, hC.2]

/-- C14 (chip erase).  With flash emulation enabled and an empty pending sequence, for every
Flash Store, the five ROM-space writes with 12-bit masked addresses and values
`(0x0AAA,0xAA),(0x0555,0x55),(0x0AAA,0x80),(0x0AAA,0xAA),(0x0555,0x55)` followed by a write of
value 0x10 at any address leave the Flash Store with its size unchanged and every byte equal
to 0xFF. -/
theorem chip_erase (m : MMC3) (s : Mapper) (A1 A2 A3 A4 A5 A6 : Nat)
    (hf : s.flash_save ≠ 0) (h0 : s.flash_state = 0)
    (hA1 : (A1 &&& 0xFFF) = 0x0AAA) (hA2 : (A2 &&& 0xFFF) = 0x0555)
    (hA3 : (A3 &&& 0xFFF) = 0x0AAA) (hA4 : (A4 &&& 0xFFF) = 0x0AAA)
    (hA5 : (A5 &&& 0xFFF) = 0x0555) :
    (flashWrites m s
      [(A1, 0xAA), (A2, 0x55), (A3, 0x80), (A4, 0xAA), (A5, 0x55), (A6, 0x10)]).Flash.length
      = s.Flash.length ∧
    (∀ j, j < s.Flash.length →
      (flashWrites m s
        [(A1, 0xAA), (A2, 0x55), (A3, 0x80), (A4, 0xAA), (A5, 0x55), (A6, 0x10)]).Flash.getD j 0
        = 0xFF) ∧
    (flashWrites m s
      [(A1, 0xAA), (A2, 0x55), (A3, 0x80), (A4, 0xAA), (A5, 0x55), (A6, 0x10)]).Flash
      = List.replicate s.Flash.length 0xFF := by
  have hrun := erase_head_run m s A1 A2 A3 A4 A5 hf h0 hA1 hA2 hA3 hA4 hA5
  obtain ⟨h5, hh, hF, hs⟩ := erase_head_state m s A1 A2 A3 A4 A5 h0 hA1 hA2 hA3 hA4 hA5
  have hsplit : flashWrites m s
      [(A1, 0xAA), (A2, 0x55), (A3, 0x80), (A4, 0xAA), (A5, 0x55), (A6, 0x10)]
      = COOLBOYFlashWrite m
          (flashWrites m s [(A1, 0xAA), (A2, 0x55), (A3, 0x80), (A4, 0xAA), (A5, 0x55)])
          A6 0x10 := by
    simp only [flashWrites]
  have key : (flashWrites m s
      [(A1, 0xAA), (A2, 0x55), (A3, 0x80), (A4, 0xAA), (A5, 0x55), (A6, 0x10)]).Flash
      = List.replicate s.Flash.length 0xFF := by
    rw [hsplit, hrun, chip_erase_write m _ A6 (by rw [hs]; exact hf) h5 hh, hF]
  refine ⟨?_, fun j hj => ?_, key⟩
  · rw [key, List.length_replicate]
  · rw [key, List.getD_eq_getElem?_getD, List.getElem?_replicate]
    simp [hj]

/-- Witness for C14: a three-byte Flash Store, the chip-erase command with its last byte at
$C123. -/
theorem chip_erase_witness :
    (flashMapper [0x12, 0x00, 0x34]).flash_save ≠ 0 ∧
    (flashMapper [0x12, 0x00, 0x34]).flash_state = 0 ∧
    (flashWrites quietMMC3 (flashMapper [0x12, 0x00, 0x34])
      [(0x8AAA, 0xAA), (0x8555, 0x55), (0x8AAA, 0x80), (0x8AAA, 0xAA), (0x8555, 0x55),
        (0xC123, 0x10)]).Flash = [0xFF, 0xFF, 0xFF] :=
  ⟨by decide, rfl,
    (chip_erase quietMMC3 (flashMapper [0x12, 0x00, 0x34])
      0x8AAA 0x8555 0x8AAA 0x8AAA 0x8555 0xC123 (by decide) rfl (by decide) (by decide)
      (by decide) (by decide) (by decide)).2.2⟩

/-- The command blocks that follow the buffering of a write leave the buffer as the buffering
left it and never lengthen the pending sequence. -/
theorem command_blocks_buffers (m : MMC3) (p : Mapper) (A V : Nat) :
    (flashWriteByte (flashEraseChip (flashEraseSector
        (flashEnterCFI m (flashBuffer p A V)) A)) A V).flash_buffer_a
      = (flashBuffer p A V).flash_buffer_a ∧
    (flashWriteByte (flashEraseChip (flashEraseSector
        (flashEnterCFI m (flashBuffer p A V)) A)) A V).flash_buffer_v
      = (flashBuffer p A V).flash_buffer_v ∧
    (flashWriteByte (flashEraseChip (flashEraseSector
        (flashEnterCFI m (flashBuffer p A V)) A)) A V).flash_state ≤ p.flash_state + 1 := by
  refine ⟨?_, ?_, ?_⟩
  · rw [(flashWriteByte_buffers _ _ _).1, (flashEraseChip_buffers _).1,
      (flashEraseSector_buffers _ _).1, (flashEnterCFI_buffers _ _).1]
  · rw [(flashWriteByte_buffers _ _ _).2, (flashEraseChip_buffers _).2,
      (flashEraseSector_buffers _ _).2, (flashEnterCFI_buffers _ _).2.1]
  · refine Nat.le_trans (flashWriteByte_state_le _ _ _) ?_
    rw [flashEraseChip_state, flashEraseSector_state]
    exact Nat.le_trans (flashEnterCFI_state_le _ _) (Nat.le_refl _)

/-- C20 (bounded command buffer).  For every state with pending length at most 10 and every
ROM-space write `(A, V)`: the length after the write is at most 10; no buffer slot other than
the one at index = old length is changed, and no slot of index 10 or more is changed; with
flash emulation enabled and old length below 10 the slot at index = old length holds
`A AND 0xFFF` and `V`; and when the buffer already holds 10 entries the buffered addresses,
the buffered values, the Flash Store and the diagnostic log are unchanged. -/
theorem buffer_bounded (m : MMC3) (s : Mapper) (A V : Nat) (hle : s.flash_state ≤ 10) :
    (COOLBOYFlashWrite m s A V).flash_state ≤ 10 ∧
    (∀ i, i ≠ s.flash_state ∨ 10 ≤ i →
      (COOLBOYFlashWrite m s A V).flash_buffer_a i = s.flash_buffer_a i ∧
      (COOLBOYFlashWrite m s A V).flash_buffer_v i = s.flash_buffer_v i) ∧
    (s.flash_save ≠ 0 → s.flash_state < 10 →
      (COOLBOYFlashWrite m s A V).flash_buffer_a s.flash_state = (A &&& 0xFFF) ∧
      (COOLBOYFlashWrite m s A V).flash_buffer_v s.flash_state = V) ∧
    (s.flash_state = 10 →
      (COOLBOYFlashWrite m s A V).flash_buffer_a = s.flash_buffer_a ∧
      (COOLBOYFlashWrite m s A V).flash_buffer_v = s.flash_buffer_v ∧
      (COOLBOYFlashWrite m s A V).Flash = s.Flash ∧
      (COOLBOYFlashWrite m s A V).log = s.log) := by
  by_cases hf : s.flash_save = 0
  · rw [COOLBOYFlashWrite_disabled m s A V hf]
    refine ⟨?_, fun i _ => ?_, fun h => absurd hf h, fun _ => ?_⟩
    · rw [portWrite_flash_state]; exact hle
    · rw [portWrite_buffer_a, portWrite_buffer_v]; exact ⟨rfl, rfl⟩
    · rw [portWrite_buffer_a, portWrite_buffer_v, portWrite_Flash, portWrite_log]
      exact ⟨rfl, rfl, rfl, rfl⟩
  · obtain ⟨t, ht, hF, hL, ha, hv, -, hs⟩ := COOLBOYFlashWrite_eq m s A V hf
    rw [hF, hL, ha, hv, hs]
    by_cases hlt : s.flash_state < 10
    · rw [if_pos hlt] at ht
      obtain ⟨ca, cv, cs⟩ := command_blocks_buffers m (portWrite m s A V) A V
      rw [← ht] at ca cv cs
      rw [portWrite_flash_state] at cs
      rw [ca, cv]
      refine ⟨?_, fun i hi => ?_, fun _ _ => ?_, fun h10 => ?_⟩
      · split
        · exact Nat.zero_le _
        · omega
      · have hne : i ≠ s.flash_state := by omega
        simp [flashBuffer, hne]
      · simp [flashBuffer]
      · omega
    · rw [if_neg hlt] at ht
      rw [ht]
      refine ⟨?_, fun i _ => ?_, fun _ h => absurd h hlt, fun _ => ?_⟩
      · split
        · exact Nat.zero_le _
        · rw [portWrite_flash_state]; exact hle
      · rw [portWrite_buffer_a, portWrite_buffer_v]; exact ⟨rfl, rfl⟩
      · rw [portWrite_buffer_a, portWrite_buffer_v, portWrite_Flash, portWrite_log]
        exact ⟨rfl, rfl, rfl, rfl⟩

/-- Witness for C20: a full buffer (10 pending bytes) and the write `(0x8AAA, 0x30)`: the
length stays 10. -/
theorem buffer_bounded_witness :
    ({ flashMapper [0x00] with flash_state := 10 } : Mapper).flash_state ≤ 10 ∧
    (COOLBOYFlashWrite quietMMC3 { flashMapper [0x00] with flash_state := 10 }
      0x8AAA 0x30).flash_state ≤ 10 ∧
    (COOLBOYFlashWrite quietMMC3 { flashMapper [0x00] with flash_state := 10 }
      0x8AAA 0x30).Flash = [0x00] :=
  ⟨by decide,
    (buffer_bounded quietMMC3 { flashMapper [0x00] with flash_state := 10 } 0x8AAA 0x30
      (by decide)).1,
    ((buffer_bounded quietMMC3 { flashMapper [0x00] with flash_state := 10 } 0x8AAA 0x30
      (by decide)).2.2.2 rfl).2.2.1⟩

/-! ## Sector-erase fill -/

/-- Two lists of equal length that agree at every index are equal. -/
theorem list_eq_of_getD (F G : List Nat) (hlen : F.length = G.length)
    (h : ∀ j, j < F.length → F.getD j 0 = G.getD j 0) : F = G := by
  apply List.ext_getElem hlen
  intro j h1 h2
  have := h j h1
  simp only [List.getD_eq_getElem?_getD, List.getElem?_eq_getElem h1,
    List.getElem?_eq_getElem h2, Option.getD_some] at this
  exact this

/-- The erase loop is idempotent, whatever its first index and iteration count. -/
theorem eraseLoop_idem (F : List Nat) (lo n : Nat) :
    eraseLoop (eraseLoop F lo n) lo n = eraseLoop F lo n := by
  have hlen : (eraseLoop F lo n).length = F.length := eraseLoop_length n F lo
  apply list_eq_of_getD
  · rw [eraseLoop_length]
  · intro j hj
    rw [eraseLoop_length, hlen] at hj
    by_cases hhit : ∃ k, lo ≤ k ∧ k < lo + n ∧ k % F.length = j
    · rw [eraseLoop_hit n _ lo j (by rw [hlen]; exact hj) (by rw [hlen]; exact hhit),
        eraseLoop_hit n F lo j hj hhit]
    · rw [eraseLoop_keep n _ lo j]
      intro k hk1 hk2 hk3
      rw [hlen] at hk3
      exact hhit ⟨k, hk1, hk2, hk3⟩

/-- C12 (sector-erase idempotence).  For every Flash Store (any contents, any size) and every
sector index `s`, the sector-erase fill, which for every index `i` in
`[s * 128 KiB, (s + 1) * 128 KiB)` sets byte `i mod size` to 0xFF, gives the same Flash Store
when applied twice in succession as when applied once, keeps the size, and leaves every byte
`i mod size` of the erased region equal to 0xFF; for a sector index whose range ends below
2^32 this fill is the loop of coolboy.cpp:252-253, which is idempotent for every sector
value. -/
theorem sector_erase_idempotent (F : List Nat) (s : Nat) (sector : Int) :
    eraseLoop (eraseLoop F (s * FLASH_SECTOR_SIZE) FLASH_SECTOR_SIZE)
        (s * FLASH_SECTOR_SIZE) FLASH_SECTOR_SIZE
      = eraseLoop F (s * FLASH_SECTOR_SIZE) FLASH_SECTOR_SIZE ∧
    (eraseLoop F (s * FLASH_SECTOR_SIZE) FLASH_SECTOR_SIZE).length = F.length ∧
    (∀ i, s * FLASH_SECTOR_SIZE ≤ i → i < (s + 1) * FLASH_SECTOR_SIZE → 0 < F.length →
      (eraseLoop F (s * FLASH_SECTOR_SIZE) FLASH_SECTOR_SIZE).getD (i % F.length) 0 = 0xFF) ∧
    ((s + 1) * FLASH_SECTOR_SIZE < 2 ^ 32 →
      eraseLoop F (sectorLo (s : Int)) (sectorHi (s : Int) - sectorLo (s : Int))
        = eraseLoop F (s * FLASH_SECTOR_SIZE) FLASH_SECTOR_SIZE) ∧
    eraseLoop (eraseLoop F (sectorLo sector) (sectorHi sector - sectorLo sector))
        (sectorLo sector) (sectorHi sector - sectorLo sector)
      = eraseLoop F (sectorLo sector) (sectorHi sector - sectorLo sector) := by
  refine ⟨eraseLoop_idem _ _ _, eraseLoop_length _ _ _, fun i h1 h2 hpos => ?_, fun hb => ?_,
    eraseLoop_idem _ _ _⟩
  · apply eraseLoop_hit _ _ _ _ (Nat.mod_lt _ hpos)
    exact ⟨i, h1, by rw [Nat.add_mul, Nat.one_mul] at h2; exact h2, rfl⟩
  · have hSS : FLASH_SECTOR_SIZE = 131072 := rfl
    rw [sectorLo_small s (by rw [hSS] at hb ⊢; omega), sectorHi_small s hb]
    have hcount : (s + 1) * FLASH_SECTOR_SIZE - s * FLASH_SECTOR_SIZE = FLASH_SECTOR_SIZE := by
      rw [hSS]; omega
    rw [hcount]

/-- Witness for C12: the three-byte store `[1, 2, 3]` and sector 0: every byte of the region
ends as 0xFF, here byte `5 mod 3 = 2`. -/
theorem sector_erase_idempotent_witness :
    0 * FLASH_SECTOR_SIZE ≤ 5 ∧ 5 < (0 + 1) * FLASH_SECTOR_SIZE ∧
    0 < ([1, 2, 3] : List Nat).length ∧
    (eraseLoop [1, 2, 3] (0 * FLASH_SECTOR_SIZE) FLASH_SECTOR_SIZE).getD
      (5 % ([1, 2, 3] : List Nat).length) 0 = 0xFF :=
  ⟨by decide, by decide, by decide,
    (sector_erase_idempotent [1, 2, 3] 0 0).2.2.1 5 (by decide) (by decide) (by decide)⟩

/-! ## Program-space decode: bit recipes -/

theorem testBit_lit (c k : Nat) : c.testBit k = (1 &&& (c >>> k) != 0) := rfl

theorem docMask_lt (e : Regs) : docMask e < 2 ^ 8 := by
  unfold docMask
  apply Nat.xor_lt_two_pow
  · apply Nat.xor_lt_two_pow
    · apply Nat.or_lt_two_pow
      · apply Nat.or_lt_two_pow
        · decide
        · exact Nat.lt_of_le_of_lt Nat.and_le_right (by decide)
      · have h : e.r1 &&& 0x20 ≤ 0x20 := Nat.and_le_right
        rw [Nat.shiftLeft_eq]
        omega
    · have h : e.r0 &&& 0x40 ≤ 0x40 := Nat.and_le_right
      rw [Nat.shiftRight_eq_div_pow]
      omega
  · have h : e.r1 &&& 0x80 ≤ 0x80 := Nat.and_le_right
    rw [Nat.shiftRight_eq_div_pow]
    omega

theorem docBase_lt (e : Regs) : docBase e < 2 ^ 8 := by
  unfold docBase
  have h1 : e.r0 &&& 0x07 ≤ 0x07 := Nat.and_le_right
  have h2 : e.r1 &&& 0x10 ≤ 0x10 := Nat.and_le_right
  have h3 : e.r1 &&& 0x0C ≤ 0x0C := Nat.and_le_right
  have h4 : e.r0 &&& 0x30 ≤ 0x30 := Nat.and_le_right
  apply Nat.or_lt_two_pow
  · apply Nat.or_lt_two_pow
    · apply Nat.or_lt_two_pow
      · omega
      · rw [Nat.shiftRight_eq_div_pow]; omega
    · rw [Nat.shiftLeft_eq]; omega
  · rw [Nat.shiftLeft_eq]; omega

theorem docCompatBank_lt (e : Regs) (V : Nat) : docCompatBank e V < 2 ^ 12 := by
  unfold docCompatBank
  have hb := docBase_lt e
  have hm := docMask_lt e
  apply Nat.or_lt_two_pow
  · refine Nat.lt_of_le_of_lt Nat.and_le_left ?_
    rw [Nat.shiftLeft_eq]; omega
  · refine Nat.lt_of_le_of_lt Nat.and_le_right ?_
    omega

/-- The compatible-mode formula, bit by bit. -/
theorem docCompatBank_testBit (e : Regs) (V k : Nat) :
    (docCompatBank e V).testBit k = docCompatBit e V k := by
  by_cases hk : k < 12
  · interval_cases k
    · simp only [docCompatBank, docCompatBit, docBase, docMask, not32,
        Nat.testBit_or, Nat.testBit_and, Nat.testBit_xor,
        Nat.testBit_shiftLeft, Nat.testBit_shiftRight, Nat.reduceAdd, Nat.reduceSub, ge_iff_le,
        Nat.reduceLeDiff, decide_True, decide_False,
        testBit_lit 1, testBit_lit 2, testBit_lit 3, testBit_lit 7, testBit_lit 8, testBit_lit 12, testBit_lit 14, testBit_lit 15, testBit_lit 16, testBit_lit 32, testBit_lit 48, testBit_lit 63, testBit_lit 64, testBit_lit 127, testBit_lit 128, testBit_lit 240, testBit_lit 255, testBit_lit 8192, testBit_lit 16384, testBit_lit 4294967295,
        Nat.reduceShiftRight, Nat.one_and_eq_mod_two, Nat.reduceMod, Nat.reduceBNe,
        Bool.true_and, Bool.false_and, Bool.and_true, Bool.and_false, Bool.or_false, Bool.false_or,
        Bool.true_or, Bool.or_true, Bool.xor_false, Bool.false_xor, Bool.true_xor, Bool.xor_true,
        Bool.not_true, Bool.not_false]
      cases V.testBit 0 <;> simp
    · simp only [docCompatBank, docCompatBit, docBase, docMask, not32,
        Nat.testBit_or, Nat.testBit_and, Nat.testBit_xor,
        Nat.testBit_shiftLeft, Nat.testBit_shiftRight, Nat.reduceAdd, Nat.reduceSub, ge_iff_le,
        Nat.reduceLeDiff, decide_True, decide_False,
        testBit_lit 1, testBit_lit 2, testBit_lit 3, testBit_lit 7, testBit_lit 8, testBit_lit 12, testBit_lit 14, testBit_lit 15, testBit_lit 16, testBit_lit 32, testBit_lit 48, testBit_lit 63, testBit_lit 64, testBit_lit 127, testBit_lit 128, testBit_lit 240, testBit_lit 255, testBit_lit 8192, testBit_lit 16384, testBit_lit 4294967295,
        Nat.reduceShiftRight, Nat.one_and_eq_mod_two, Nat.reduceMod, Nat.reduceBNe,
        Bool.true_and, Bool.false_and, Bool.and_true, Bool.and_false, Bool.or_false, Bool.false_or,
        Bool.true_or, Bool.or_true, Bool.xor_false, Bool.false_xor, Bool.true_xor, Bool.xor_true,
        Bool.not_true, Bool.not_false]
      cases V.testBit 1 <;> simp
    · simp only [docCompatBank, docCompatBit, docBase, docMask, not32,
        Nat.testBit_or, Nat.testBit_and, Nat.testBit_xor,
        Nat.testBit_shiftLeft, Nat.testBit_shiftRight, Nat.reduceAdd, Nat.reduceSub, ge_iff_le,
        Nat.reduceLeDiff, decide_True, decide_False,
        testBit_lit 1, testBit_lit 2, testBit_lit 3, testBit_lit 7, testBit_lit 8, testBit_lit 12, testBit_lit 14, testBit_lit 15, testBit_lit 16, testBit_lit 32, testBit_lit 48, testBit_lit 63, testBit_lit 64, testBit_lit 127, testBit_lit 128, testBit_lit 240, testBit_lit 255, testBit_lit 8192, testBit_lit 16384, testBit_lit 4294967295,
        Nat.reduceShiftRight, Nat.one_and_eq_mod_two, Nat.reduceMod, Nat.reduceBNe,
        Bool.true_and, Bool.false_and, Bool.and_true, Bool.and_false, Bool.or_false, Bool.false_or,
        Bool.true_or, Bool.or_true, Bool.xor_false, Bool.false_xor, Bool.true_xor, Bool.xor_true,
        Bool.not_true, Bool.not_false]
      cases V.testBit 2 <;> simp
    · simp only [docCompatBank, docCompatBit, docBase, docMask, not32,
        Nat.testBit_or, Nat.testBit_and, Nat.testBit_xor,
        Nat.testBit_shiftLeft, Nat.testBit_shiftRight, Nat.reduceAdd, Nat.reduceSub, ge_iff_le,
        Nat.reduceLeDiff, decide_True, decide_False,
        testBit_lit 1, testBit_lit 2, testBit_lit 3, testBit_lit 7, testBit_lit 8, testBit_lit 12, testBit_lit 14, testBit_lit 15, testBit_lit 16, testBit_lit 32, testBit_lit 48, testBit_lit 63, testBit_lit 64, testBit_lit 127, testBit_lit 128, testBit_lit 240, testBit_lit 255, testBit_lit 8192, testBit_lit 16384, testBit_lit 4294967295,
        Nat.reduceShiftRight, Nat.one_and_eq_mod_two, Nat.reduceMod, Nat.reduceBNe,
        Bool.true_and, Bool.false_and, Bool.and_true, Bool.and_false, Bool.or_false, Bool.false_or,
        Bool.true_or, Bool.or_true, Bool.xor_false, Bool.false_xor, Bool.true_xor, Bool.xor_true,
        Bool.not_true, Bool.not_false]
      cases V.testBit 3 <;> simp
    · simp only [docCompatBank, docCompatBit, docBase, docMask, not32,
        Nat.testBit_or, Nat.testBit_and, Nat.testBit_xor,
        Nat.testBit_shiftLeft, Nat.testBit_shiftRight, Nat.reduceAdd, Nat.reduceSub, ge_iff_le,
        Nat.reduceLeDiff, decide_True, decide_False,
        testBit_lit 1, testBit_lit 2, testBit_lit 3, testBit_lit 7, testBit_lit 8, testBit_lit 12, testBit_lit 14, testBit_lit 15, testBit_lit 16, testBit_lit 32, testBit_lit 48, testBit_lit 63, testBit_lit 64, testBit_lit 127, testBit_lit 128, testBit_lit 240, testBit_lit 255, testBit_lit 8192, testBit_lit 16384, testBit_lit 4294967295,
        Nat.reduceShiftRight, Nat.one_and_eq_mod_two, Nat.reduceMod, Nat.reduceBNe,
        Bool.true_and, Bool.false_and, Bool.and_true, Bool.and_false, Bool.or_false, Bool.false_or,
        Bool.true_or, Bool.or_true, Bool.xor_false, Bool.false_xor, Bool.true_xor, Bool.xor_true,
        Bool.not_true, Bool.not_false]
      cases e.r0.testBit 6 <;> cases e.r0.testBit 0 <;> cases V.testBit 4 <;> simp
    · simp only [docCompatBank, docCompatBit, docBase, docMask, not32,
        Nat.testBit_or, Nat.testBit_and, Nat.testBit_xor,
        Nat.testBit_shiftLeft, Nat.testBit_shiftRight, Nat.reduceAdd, Nat.reduceSub, ge_iff_le,
        Nat.reduceLeDiff, decide_True, decide_False,
        testBit_lit 1, testBit_lit 2, testBit_lit 3, testBit_lit 7, testBit_lit 8, testBit_lit 12, testBit_lit 14, testBit_lit 15, testBit_lit 16, testBit_lit 32, testBit_lit 48, testBit_lit 63, testBit_lit 64, testBit_lit 127, testBit_lit 128, testBit_lit 240, testBit_lit 255, testBit_lit 8192, testBit_lit 16384, testBit_lit 4294967295,
        Nat.reduceShiftRight, Nat.one_and_eq_mod_two, Nat.reduceMod, Nat.reduceBNe,
        Bool.true_and, Bool.false_and, Bool.and_true, Bool.and_false, Bool.or_false, Bool.false_or,
        Bool.true_or, Bool.or_true, Bool.xor_false, Bool.false_xor, Bool.true_xor, Bool.xor_true,
        Bool.not_true, Bool.not_false]
      cases e.r1.testBit 7 <;> cases e.r0.testBit 1 <;> cases V.testBit 5 <;> simp
    · simp only [docCompatBank, docCompatBit, docBase, docMask, not32,
        Nat.testBit_or, Nat.testBit_and, Nat.testBit_xor,
        Nat.testBit_shiftLeft, Nat.testBit_shiftRight, Nat.reduceAdd, Nat.reduceSub, ge_iff_le,
        Nat.reduceLeDiff, decide_True, decide_False,
        testBit_lit 1, testBit_lit 2, testBit_lit 3, testBit_lit 7, testBit_lit 8, testBit_lit 12, testBit_lit 14, testBit_lit 15, testBit_lit 16, testBit_lit 32, testBit_lit 48, testBit_lit 63, testBit_lit 64, testBit_lit 127, testBit_lit 128, testBit_lit 240, testBit_lit 255, testBit_lit 8192, testBit_lit 16384, testBit_lit 4294967295,
        Nat.reduceShiftRight, Nat.one_and_eq_mod_two, Nat.reduceMod, Nat.reduceBNe,
        Bool.true_and, Bool.false_and, Bool.and_true, Bool.and_false, Bool.or_false, Bool.false_or,
        Bool.true_or, Bool.or_true, Bool.xor_false, Bool.false_xor, Bool.true_xor, Bool.xor_true,
        Bool.not_true, Bool.not_false]
      cases e.r1.testBit 6 <;> cases e.r0.testBit 2 <;> cases V.testBit 6 <;> simp
    · simp only [docCompatBank, docCompatBit, docBase, docMask, not32,
        Nat.testBit_or, Nat.testBit_and, Nat.testBit_xor,
        Nat.testBit_shiftLeft, Nat.testBit_shiftRight, Nat.reduceAdd, Nat.reduceSub, ge_iff_le,
        Nat.reduceLeDiff, decide_True, decide_False,
        testBit_lit 1, testBit_lit 2, testBit_lit 3, testBit_lit 7, testBit_lit 8, testBit_lit 12, testBit_lit 14, testBit_lit 15, testBit_lit 16, testBit_lit 32, testBit_lit 48, testBit_lit 63, testBit_lit 64, testBit_lit 127, testBit_lit 128, testBit_lit 240, testBit_lit 255, testBit_lit 8192, testBit_lit 16384, testBit_lit 4294967295,
        Nat.reduceShiftRight, Nat.one_and_eq_mod_two, Nat.reduceMod, Nat.reduceBNe,
        Bool.true_and, Bool.false_and, Bool.and_true, Bool.and_false, Bool.or_false, Bool.false_or,
        Bool.true_or, Bool.or_true, Bool.xor_false, Bool.false_xor, Bool.true_xor, Bool.xor_true,
        Bool.not_true, Bool.not_false]
      cases e.r1.testBit 5 <;> cases e.r1.testBit 4 <;> cases V.testBit 7 <;> simp
    · simp only [docCompatBank, docCompatBit, docBase, docMask, not32,
        Nat.testBit_or, Nat.testBit_and, Nat.testBit_xor,
        Nat.testBit_shiftLeft, Nat.testBit_shiftRight, Nat.reduceAdd, Nat.reduceSub, ge_iff_le,
        Nat.reduceLeDiff, decide_True, decide_False,
        testBit_lit 1, testBit_lit 2, testBit_lit 3, testBit_lit 7, testBit_lit 8, testBit_lit 12, testBit_lit 14, testBit_lit 15, testBit_lit 16, testBit_lit 32, testBit_lit 48, testBit_lit 63, testBit_lit 64, testBit_lit 127, testBit_lit 128, testBit_lit 240, testBit_lit 255, testBit_lit 8192, testBit_lit 16384, testBit_lit 4294967295,
        Nat.reduceShiftRight, Nat.one_and_eq_mod_two, Nat.reduceMod, Nat.reduceBNe,
        Bool.true_and, Bool.false_and, Bool.and_true, Bool.and_false, Bool.or_false, Bool.false_or,
        Bool.true_or, Bool.or_true, Bool.xor_false, Bool.false_xor, Bool.true_xor, Bool.xor_true,
        Bool.not_true, Bool.not_false]
      cases e.r1.testBit 2 <;> simp
    · simp only [docCompatBank, docCompatBit, docBase, docMask, not32,
        Nat.testBit_or, Nat.testBit_and, Nat.testBit_xor,
        Nat.testBit_shiftLeft, Nat.testBit_shiftRight, Nat.reduceAdd, Nat.reduceSub, ge_iff_le,
        Nat.reduceLeDiff, decide_True, decide_False,
        testBit_lit 1, testBit_lit 2, testBit_lit 3, testBit_lit 7, testBit_lit 8, testBit_lit 12, testBit_lit 14, testBit_lit 15, testBit_lit 16, testBit_lit 32, testBit_lit 48, testBit_lit 63, testBit_lit 64, testBit_lit 127, testBit_lit 128, testBit_lit 240, testBit_lit 255, testBit_lit 8192, testBit_lit 16384, testBit_lit 4294967295,
        Nat.reduceShiftRight, Nat.one_and_eq_mod_two, Nat.reduceMod, Nat.reduceBNe,
        Bool.true_and, Bool.false_and, Bool.and_true, Bool.and_false, Bool.or_false, Bool.false_or,
        Bool.true_or, Bool.or_true, Bool.xor_false, Bool.false_xor, Bool.true_xor, Bool.xor_true,
        Bool.not_true, Bool.not_false]
      cases e.r1.testBit 3 <;> simp
    · simp only [docCompatBank, docCompatBit, docBase, docMask, not32,
        Nat.testBit_or, Nat.testBit_and, Nat.testBit_xor,
        Nat.testBit_shiftLeft, Nat.testBit_shiftRight, Nat.reduceAdd, Nat.reduceSub, ge_iff_le,
        Nat.reduceLeDiff, decide_True, decide_False,
        testBit_lit 1, testBit_lit 2, testBit_lit 3, testBit_lit 7, testBit_lit 8, testBit_lit 12, testBit_lit 14, testBit_lit 15, testBit_lit 16, testBit_lit 32, testBit_lit 48, testBit_lit 63, testBit_lit 64, testBit_lit 127, testBit_lit 128, testBit_lit 240, testBit_lit 255, testBit_lit 8192, testBit_lit 16384, testBit_lit 4294967295,
        Nat.reduceShiftRight, Nat.one_and_eq_mod_two, Nat.reduceMod, Nat.reduceBNe,
        Bool.true_and, Bool.false_and, Bool.and_true, Bool.and_false, Bool.or_false, Bool.false_or,
        Bool.true_or, Bool.or_true, Bool.xor_false, Bool.false_xor, Bool.true_xor, Bool.xor_true,
        Bool.not_true, Bool.not_false]
      cases e.r0.testBit 4 <;> simp
    · simp only [docCompatBank, docCompatBit, docBase, docMask, not32,
        Nat.testBit_or, Nat.testBit_and, Nat.testBit_xor,
        Nat.testBit_shiftLeft, Nat.testBit_shiftRight, Nat.reduceAdd, Nat.reduceSub, ge_iff_le,
        Nat.reduceLeDiff, decide_True, decide_False,
        testBit_lit 1, testBit_lit 2, testBit_lit 3, testBit_lit 7, testBit_lit 8, testBit_lit 12, testBit_lit 14, testBit_lit 15, testBit_lit 16, testBit_lit 32, testBit_lit 48, testBit_lit 63, testBit_lit 64, testBit_lit 127, testBit_lit 128, testBit_lit 240, testBit_lit 255, testBit_lit 8192, testBit_lit 16384, testBit_lit 4294967295,
        Nat.reduceShiftRight, Nat.one_and_eq_mod_two, Nat.reduceMod, Nat.reduceBNe,
        Bool.true_and, Bool.false_and, Bool.and_true, Bool.and_false, Bool.or_false, Bool.false_or,
        Bool.true_or, Bool.or_true, Bool.xor_false, Bool.false_xor, Bool.true_xor, Bool.xor_true,
        Bool.not_true, Bool.not_false]
      cases e.r0.testBit 5 <;> simp
  · have h : docCompatBank e V < 2 ^ k :=
      Nat.lt_of_lt_of_le (docCompatBank_lt e V) (Nat.pow_le_pow_right (by decide) (by omega))
    rw [Nat.testBit_lt_two_pow h]
    unfold docCompatBit
    simp only [show ¬ k < 4 by omega, show ¬ k = 4 by omega, show ¬ k = 5 by omega,
      show ¬ k = 6 by omega, show ¬ k = 7 by omega, show ¬ k = 8 by omega, show ¬ k = 9 by omega,
      show ¬ k = 10 by omega, show ¬ k = 11 by omega, if_false]

/-- The bank number `COOLBOYPW` computes is the documented formula applied to the value the
very-weird remap leaves. -/
theorem prgBank_eq (e : Regs) (cmd A V : Nat) :
    prgBank e cmd A V = docPrgBank e A (docRemap e cmd A V) := by
  unfold prgBank COOLBOYPW docPrgBank docRemap docCompatBank docMask docBase
  simp only [mapperWith, baseOn, Nat.shiftRight_zero, ge_iff_le, ne_eq, Decidable.not_not]
  by_cases h4 : e.r3 &&& 0x10 = 0 <;> by_cases hw : e.r3 &&& 0x40 = 0 <;>
    by_cases hV : 0xFE ≤ V <;> by_cases hc : cmd &&& 0x40 = 0 <;>
    by_cases hA : ((A &&& 0xE000) = 0xC000 ∨ (A &&& 0xE000) = 0xE000) <;>
    simp [h4, hw, hV, hc, hA, setprg8r]

/-- C15 (program-space decode, compatible mode, bit by bit).  For every register state with
register 3 bit 4 clear and weird mode (register 3 bit 6) off, every window address `A` and
every value `V`, the 8 KiB bank number `COOLBOYPW` gives window `A` is
`((base << 4) AND NOT mask) OR (V AND mask)` with the documented `mask` and `base`, and its
bits are those the register documentation lists: bits 0-3 from `V`; bit 4 from `V` if reg0
bit 6 is 0, else reg0 bit 0; bit 5 from `V` if reg1 bit 7 is 0, else reg0 bit 1; bit 6 from
`V` if reg1 bit 6 is 1, else reg0 bit 2; bit 7 from `V` if reg1 bit 5 is 1, else reg1 bit 4;
bits 8-11 equal to reg1 bit 2, reg1 bit 3, reg0 bit 4, reg0 bit 5; and no bit above 11. -/
theorem compat_decode_bits (s : Mapper) (A V : Nat)
    (h4 : s.EXPREGS.r3 &&& 0x10 = 0) (hw : s.EXPREGS.r3 &&& 0x40 = 0) :
    ((COOLBOYPW s A V).base.PRG (A >>> 13)).bank = docCompatBank s.EXPREGS V ∧
    ∀ k, ((COOLBOYPW s A V).base.PRG (A >>> 13)).bank.testBit k
      = docCompatBit s.EXPREGS V k := by
  have key : ((COOLBOYPW s A V).base.PRG (A >>> 13)).bank = docCompatBank s.EXPREGS V := by
    rw [COOLBOYPW_window]
    dsimp only
    rw [prgBank_eq]
    unfold docPrgBank docRemap
    rw [if_pos h4, if_neg (by simp [hw])]
  exact ⟨key, fun k => by rw [key, docCompatBank_testBit]⟩

/-- Witness for C15: registers 0x47, 0, 0, 0 (PRG A17 taken from the offset, offset bits 111)
and `COOLBOYPW(0x8000, 0x1F)`: bank 0x5F. -/
theorem compat_decode_bits_witness :
    ((COOLBOYPW (mapperWith ⟨0x47, 0, 0, 0⟩) 0x8000 0x1F).base.PRG (0x8000 >>> 13)).bank
      = 0x5F :=
  (compat_decode_bits (mapperWith ⟨0x47, 0, 0, 0⟩) 0x8000 0x1F (by decide) (by decide)).1

/-- C19 (very-weird last-bank remap).  For every register state with weird mode set
(register 3 bit 6), bank-select bit 6 clear and supplied value `V >= 0xFE`, the decode of the
top two windows (`A AND 0xE000` equal to 0xC000 or 0xE000) is that of the supplied value 0:
`COOLBOYPW(A, V)` gives the same state as `COOLBOYPW(A, 0)`.  In every other case (weird mode
off, or bank-select bit 6 set, or `V < 0xFE`, or another window) the bank number is the
documented one for the supplied value `V` itself. -/
theorem very_weird_remap (s : Mapper) (A V : Nat) :
    (s.EXPREGS.r3 &&& 0x40 ≠ 0 → s.base.MMC3_cmd &&& 0x40 = 0 → 0xFE ≤ V →
      ((A &&& 0xE000) = 0xC000 ∨ (A &&& 0xE000) = 0xE000) →
      COOLBOYPW s A V = COOLBOYPW s A 0 ∧
      ((COOLBOYPW s A V).base.PRG (A >>> 13)).bank = docPrgBank s.EXPREGS A 0) ∧
    (¬ (s.EXPREGS.r3 &&& 0x40 ≠ 0 ∧ s.base.MMC3_cmd &&& 0x40 = 0 ∧ 0xFE ≤ V ∧
        ((A &&& 0xE000) = 0xC000 ∨ (A &&& 0xE000) = 0xE000)) →
      ((COOLBOYPW s A V).base.PRG (A >>> 13)).bank = docPrgBank s.EXPREGS A V) := by
  have key : ((COOLBOYPW s A V).base.PRG (A >>> 13)).bank
      = docPrgBank s.EXPREGS A (docRemap s.EXPREGS s.base.MMC3_cmd A V) := by
    rw [COOLBOYPW_window]
    dsimp only
    rw [prgBank_eq]
  refine ⟨fun hw hc hV hA => ⟨?_, ?_⟩, fun hn => ?_⟩
  · unfold COOLBOYPW
    simp [hw, hc, hV, hA]
  · rw [key]
    unfold docRemap
    rw [if_pos ⟨hw, hc, hV, hA⟩]
  · rw [key]
    unfold docRemap
    rw [if_neg hn]

/-- Witness for C19: weird mode (register 3 = 0x40), bank-select 0, and the base
controller's last-bank request `COOLBOYPW(0xE000, 0xFF)`: the window gets bank 0. -/
theorem very_weird_remap_witness :
    COOLBOYPW (mapperWith ⟨0, 0, 0, 0x40⟩) 0xE000 0xFF
      = COOLBOYPW (mapperWith ⟨0, 0, 0, 0x40⟩) 0xE000 0 ∧
    ((COOLBOYPW (mapperWith ⟨0, 0, 0, 0x40⟩) 0xE000 0xFF).base.PRG (0xE000 >>> 13)).bank = 0 :=
  (very_weird_remap (mapperWith ⟨0, 0, 0, 0x40⟩) 0xE000 0xFF).1 (by decide) (by decide)
    (by decide) (by decide)

/-! ## Program-space decode: linear (GNROM) mode -/

theorem addr_bits_32 (A : Nat) :
    ((A &&& 0x4000) >>> 13) ||| ((A &&& 0x2000) >>> 13) = (A >>> 13) &&& 3 := by
  apply Nat.eq_of_testBit_eq
  intro i
  have h1 : (0x4000 : Nat) = 2 ^ 14 := by norm_num
  have h2 : (0x2000 : Nat) = 2 ^ 13 := by norm_num
  have h3 : (3 : Nat) = 2 ^ 2 - 1 := by norm_num
  rw [h1, h2, h3]
  simp only [Nat.testBit_or, Nat.testBit_and, Nat.testBit_shiftRight, Nat.testBit_two_pow,
    Nat.testBit_two_pow_sub_one]
  rcases i with _ | _ | i
  · simp
  · simp
  · have e1 : ¬ (14 = 13 + (i + 1 + 1)) := by omega
    have e2 : ¬ (13 = 13 + (i + 1 + 1)) := by omega
    have e3 : ¬ (i + 1 + 1 < 2) := by omega
    simp [e1, e2, e3]

theorem addr_bits_16 (A : Nat) : ((A &&& 0x2000) >>> 13) = (A >>> 13) &&& 1 := by
  apply Nat.eq_of_testBit_eq
  intro i
  have h2 : (0x2000 : Nat) = 2 ^ 13 := by norm_num
  have h3 : (1 : Nat) = 2 ^ 1 - 1 := by norm_num
  rw [h2, h3]
  simp only [Nat.testBit_and, Nat.testBit_shiftRight, Nat.testBit_two_pow,
    Nat.testBit_two_pow_sub_one]
  rcases i with _ | i
  · simp
  · have e2 : ¬ (13 = 13 + (i + 1)) := by omega
    have e3 : ¬ (i + 1 < 1) := by omega
    simp [e2, e3]

theorem and_F0_high (m i : Nat) (hm : m < 2 ^ 8) :
    (m &&& 0xF0).testBit (4 + i) = m.testBit (4 + i) := by
  rw [Nat.testBit_and]
  by_cases hi : i < 4
  · interval_cases i <;> simp only [Nat.testBit_or, Nat.testBit_and, Nat.testBit_xor,
      Nat.testBit_shiftLeft, Nat.testBit_shiftRight, Nat.reduceAdd, Nat.reduceSub, ge_iff_le,
      Nat.reduceLeDiff, decide_True, decide_False,
      testBit_lit 1, testBit_lit 2, testBit_lit 3, testBit_lit 7, testBit_lit 8, testBit_lit 12, testBit_lit 14, testBit_lit 15, testBit_lit 16, testBit_lit 32, testBit_lit 48, testBit_lit 63, testBit_lit 64, testBit_lit 127, testBit_lit 128, testBit_lit 240, testBit_lit 255, testBit_lit 8192, testBit_lit 16384, testBit_lit 4294967295,
      Nat.reduceShiftRight, Nat.one_and_eq_mod_two, Nat.reduceMod, Nat.reduceBNe,
      Bool.true_and, Bool.false_and, Bool.and_true, Bool.and_false, Bool.or_false, Bool.false_or,
      Bool.true_or, Bool.or_true, Bool.xor_false, Bool.false_xor, Bool.true_xor, Bool.xor_true,
      Bool.not_true, Bool.not_false]
  · have h : m < 2 ^ (4 + i) :=
      Nat.lt_of_lt_of_le hm (Nat.pow_le_pow_right (by decide) (by omega))
    rw [Nat.testBit_lt_two_pow h, Bool.false_and]

theorem and_F0_low (m i : Nat) (hi : i < 4) : (m &&& 0xF0).testBit i = false := by
  rw [Nat.testBit_and]
  interval_cases i <;> simp only [Nat.testBit_or, Nat.testBit_and, Nat.testBit_xor,
      Nat.testBit_shiftLeft, Nat.testBit_shiftRight, Nat.reduceAdd, Nat.reduceSub, ge_iff_le,
      Nat.reduceLeDiff, decide_True, decide_False,
      testBit_lit 1, testBit_lit 2, testBit_lit 3, testBit_lit 7, testBit_lit 8, testBit_lit 12, testBit_lit 14, testBit_lit 15, testBit_lit 16, testBit_lit 32, testBit_lit 48, testBit_lit 63, testBit_lit 64, testBit_lit 127, testBit_lit 128, testBit_lit 240, testBit_lit 255, testBit_lit 8192, testBit_lit 16384, testBit_lit 4294967295,
      Nat.reduceShiftRight, Nat.one_and_eq_mod_two, Nat.reduceMod, Nat.reduceBNe,
      Bool.true_and, Bool.false_and, Bool.and_true, Bool.and_false, Bool.or_false, Bool.false_or,
      Bool.true_or, Bool.or_true, Bool.xor_false, Bool.false_xor, Bool.true_xor, Bool.xor_true,
      Bool.not_true, Bool.not_false]

/-- Low nibble and higher bits of a number assembled from a multiple of 16 and a nibble. -/
theorem or_nibble (X Y : Nat) (hX : ∀ i, i < 4 → X.testBit i = false) (hY : Y < 2 ^ 4) :
    (X ||| Y) % 16 = Y ∧ (X ||| Y) >>> 4 = X >>> 4 := by
  constructor
  · apply Nat.eq_of_testBit_eq
    intro i
    have h16 : (16 : Nat) = 2 ^ 4 := by norm_num
    rw [h16, Nat.testBit_mod_two_pow, Nat.testBit_or]
    by_cases hi : i < 4
    · simp [hi, hX i hi]
    · have h : Y < 2 ^ i := Nat.lt_of_lt_of_le hY (Nat.pow_le_pow_right (by decide) (by omega))
      simp [hi, Nat.testBit_lt_two_pow h]
  · apply Nat.eq_of_testBit_eq
    intro i
    rw [Nat.testBit_shiftRight, Nat.testBit_shiftRight, Nat.testBit_or]
    have h : Y < 2 ^ (4 + i) :=
      Nat.lt_of_lt_of_le hY (Nat.pow_le_pow_right (by decide) (by omega))
    rw [Nat.testBit_lt_two_pow h, Bool.or_false]

theorem docLinearLow_lt (e : Regs) (A : Nat) : docLinearLow e A < 2 ^ 4 := by
  unfold docLinearLow
  have h1 : e.r3 &&& 0x0C ≤ 0x0C := Nat.and_le_right
  have h2 : e.r3 &&& 0x0E ≤ 0x0E := Nat.and_le_right
  have h3 : (A >>> 13) &&& 3 ≤ 3 := Nat.and_le_right
  have h4 : (A >>> 13) &&& 1 ≤ 1 := Nat.and_le_right
  split
  · exact Nat.or_lt_two_pow (by omega) (by omega)
  · exact Nat.or_lt_two_pow (by omega) (by omega)

/-- The linear-mode bank number: its low nibble is the documented nibble, its higher bits are
those of the compatible-mode formula for the same value. -/
theorem docPrgBank_linear (e : Regs) (A W : Nat) (h4 : e.r3 &&& 0x10 ≠ 0) :
    docPrgBank e A W % 16 = docLinearLow e A ∧
    docPrgBank e A W >>> 4 = docCompatBank e W >>> 4 := by
  have hm := docMask_lt e
  have hform : docPrgBank e A W =
      (((docBase e <<< 4) &&& not32 (docMask e &&& 0xF0)) ||| (W &&& (docMask e &&& 0xF0)))
        ||| docLinearLow e A := by
    unfold docPrgBank docLinearLow
    rw [if_neg h4]
    by_cases h2 : e.r1 &&& 2 ≠ 0
    · rw [if_pos h2, if_pos h2, Nat.or_assoc, Nat.or_assoc (e.r3 &&& 0x0C), addr_bits_32]
    · rw [if_neg h2, if_neg h2, Nat.or_assoc, addr_bits_16]
  have hX : ∀ i, i < 4 →
      (((docBase e <<< 4) &&& not32 (docMask e &&& 0xF0))
        ||| (W &&& (docMask e &&& 0xF0))).testBit i = false := by
    intro i hi
    rw [Nat.testBit_or, Nat.testBit_and, Nat.testBit_and, and_F0_low _ _ hi,
      Nat.testBit_shiftLeft]
    have hge : ¬ (i ≥ 4) := by omega
    simp [hge]
  obtain ⟨hlow, hhigh⟩ := or_nibble _ _ hX (docLinearLow_lt e A)
  rw [hform]
  refine ⟨hlow, ?_⟩
  rw [hhigh]
  apply Nat.eq_of_testBit_eq
  intro i
  unfold docCompatBank not32
  have hF := and_F0_high (docMask e) i hm
  rw [Nat.testBit_and] at hF
  simp only [Nat.testBit_shiftRight, Nat.testBit_or, Nat.testBit_and, Nat.testBit_xor]
  rw [hF]

/-- C17 (program-space decode, linear mode, as the code has it).  For every register state
with register 3 bit 4 set, every window address `A` and every value `V`, the low four bits
of the bank number `COOLBOYPW` gives window `A` do not depend on `V`: they are
`(reg3 AND 0x0C) OR ((A >> 13) AND 3)` when register 1 bit 1 is set and
`(reg3 AND 0x0E) OR ((A >> 13) AND 1)` when it is clear.  Bits 4 and above are bits 4 and
above of the compatible-mode formula `((base << 4) AND NOT mask) OR (V' AND mask)`, where `V'`
is the value the very-weird remap leaves: 0 in weird mode with bank-select bit 6 clear,
`V >= 0xFE` and one of the top two windows, and `V` in every other case. -/
theorem linear_decode (s : Mapper) (A V : Nat) (h4 : s.EXPREGS.r3 &&& 0x10 ≠ 0) :
    ((COOLBOYPW s A V).base.PRG (A >>> 13)).bank % 16 = docLinearLow s.EXPREGS A ∧
    (∀ W, ((COOLBOYPW s A W).base.PRG (A >>> 13)).bank % 16
      = ((COOLBOYPW s A V).base.PRG (A >>> 13)).bank % 16) ∧
    ((COOLBOYPW s A V).base.PRG (A >>> 13)).bank >>> 4
      = docCompatBank s.EXPREGS (docRemap s.EXPREGS s.base.MMC3_cmd A V) >>> 4 ∧
    (¬ (s.EXPREGS.r3 &&& 0x40 ≠ 0 ∧ s.base.MMC3_cmd &&& 0x40 = 0 ∧ 0xFE ≤ V ∧
        ((A &&& 0xE000) = 0xC000 ∨ (A &&& 0xE000) = 0xE000)) →
      ((COOLBOYPW s A V).base.PRG (A >>> 13)).bank >>> 4
        = docCompatBank s.EXPREGS V >>> 4) := by
  have key : ∀ W, ((COOLBOYPW s A W).base.PRG (A >>> 13)).bank
      = docPrgBank s.EXPREGS A (docRemap s.EXPREGS s.base.MMC3_cmd A W) := by
    intro W
    rw [COOLBOYPW_window]
    dsimp only
    rw [prgBank_eq]
  refine ⟨?_, fun W => ?_, ?_, fun hn => ?_⟩
  · rw [key, (docPrgBank_linear _ _ _ h4).1]
  · rw [key, key, (docPrgBank_linear _ _ _ h4).1, (docPrgBank_linear _ _ _ h4).1]
  · rw [key, (docPrgBank_linear _ _ _ h4).2]
  · rw [key, (docPrgBank_linear _ _ _ h4).2]
    unfold docRemap
    rw [if_neg hn]

/-- Witness for C17: register 3 = 0x1C, register 1 = 0x02 (32 KiB banks) and
`COOLBOYPW(0xE000, 0x05)`: the low nibble of the bank number is `0x0C OR 3`. -/
theorem linear_decode_witness :
    ((COOLBOYPW (mapperWith ⟨0, 0x02, 0, 0x1C⟩) 0xE000 0x05).base.PRG (0xE000 >>> 13)).bank % 16
      = 0x0F :=
  (linear_decode (mapperWith ⟨0, 0x02, 0, 0x1C⟩) 0xE000 0x05 (by decide)).1

/-- Counterexample to C17 as stated: in linear mode with weird mode set (register 3 = 0x50),
bank-select 0 and `COOLBOYPW(0xE000, 0xFF)`, the bank number is 1, so its bits 4 and above are
0, while bits 4 and above of `((base << 4) AND NOT mask) OR (0xFF AND mask)` are 3. -/
theorem linear_decode_weird_differs :
    (mapperWith ⟨0, 0, 0, 0x50⟩).EXPREGS.r3 &&& 0x10 ≠ 0 ∧
    ((COOLBOYPW (mapperWith ⟨0, 0, 0, 0x50⟩) 0xE000 0xFF).base.PRG (0xE000 >>> 13)).bank = 1 ∧
    ((COOLBOYPW (mapperWith ⟨0, 0, 0, 0x50⟩) 0xE000 0xFF).base.PRG (0xE000 >>> 13)).bank >>> 4
      = 0 ∧
    docCompatBank (mapperWith ⟨0, 0, 0, 0x50⟩).EXPREGS 0xFF >>> 4 = 3 ∧
    ((COOLBOYPW (mapperWith ⟨0, 0, 0, 0x50⟩) 0xE000 0xFF).base.PRG (0xE000 >>> 13)).bank >>> 4
      ≠ docCompatBank (mapperWith ⟨0, 0, 0, 0x50⟩).EXPREGS 0xFF >>> 4 := by
  refine ⟨?_, ?_, ?_, ?_, ?_⟩ <;> decide

/-! ## Character-space decode -/

theorem and_bit_cases (x i : Nat) : x &&& 2 ^ i = 0 ∨ x &&& 2 ^ i = 2 ^ i := by
  cases h : x.testBit i
  · left
    apply Nat.eq_of_testBit_eq
    intro j
    rw [Nat.testBit_and, Nat.testBit_two_pow, Nat.zero_testBit]
    by_cases hj : i = j
    · subst hj; simp [h]
    · simp [hj]
  · right
    apply Nat.eq_of_testBit_eq
    intro j
    rw [Nat.testBit_and, Nat.testBit_two_pow]
    by_cases hj : i = j
    · subst hj; simp [h]
    · simp [hj]

/-- The final expression of the compatible-mode character decode for an 8-bit value. -/
theorem chr_compat_bank (e : Regs) (W : Nat) (hW : W < 256) :
    (W &&& (0xFF ^^^ (e.r0 &&& 0x80)))
        ||| (((e.r0 &&& 0x08) <<< 4) &&& not32 (0xFF ^^^ (e.r0 &&& 0x80)))
      = docChrCompat e W := by
  unfold docChrCompat not32
  have h7 : e.r0 &&& 0x80 = 0 ∨ e.r0 &&& 0x80 = 0x80 := and_bit_cases e.r0 7
  have h3 : e.r0 &&& 0x08 = 0 ∨ e.r0 &&& 0x08 = 0x08 := and_bit_cases e.r0 3
  have hFF : W &&& 0xFF = W := Nat.and_pow_two_sub_one_of_lt_two_pow (n := 8) hW
  rcases h7 with h7 | h7 <;> rcases h3 with h3 | h3 <;> rw [h7, h3]
  · rw [if_pos rfl]
    show (W &&& 0xFF) ||| 0 = W
    rw [hFF, Nat.or_zero]
  · rw [if_pos rfl]
    show (W &&& 0xFF) ||| 0 = W
    rw [hFF, Nat.or_zero]
  · rw [if_neg (by decide)]
    rfl
  · rw [if_neg (by decide)]
    rfl

/-- C16 (character-space decode, compatible mode).  For every register state with register 3
bit 4 clear, every 1 KiB window address `A` and every 8-bit value `V` (the base controller's
buffered registers 0 and 1 being bytes as well), let `V'` be `V` unless weird mode is set, in
which case with `cbase = (bank-select AND 0x80) << 5` it is buffered register 0 when
`cbase XOR A = 0x0000`, buffered register 1 when it is 0x0800, 0 when it is 0x0400 or 0x0C00
and `V` otherwise; then the 1 KiB bank `COOLBOYCW` gives window `A` is `V'` when register 0
bit 7 is clear and `(V' AND 0x7F) OR (register 0 bit 3 moved to bit 7)` when it is set. -/
theorem chr_compat_decode (s : Mapper) (A V : Nat) (h4 : s.EXPREGS.r3 &&& 0x10 = 0)
    (hV : V < 256) (hd0 : s.base.DRegBuf 0 < 256) (hd1 : s.base.DRegBuf 1 < 256) :
    (COOLBOYCW s A V).base.CHR (A >>> 10)
      = docChrCompat s.EXPREGS
          (docChrValue s.EXPREGS s.base.MMC3_cmd (s.base.DRegBuf 0) (s.base.DRegBuf 1) A V) := by
  have hW : docChrValue s.EXPREGS s.base.MMC3_cmd (s.base.DRegBuf 0) (s.base.DRegBuf 1) A V
      < 256 := by
    unfold docChrValue
    split
    · split
      · exact hd0
      · split
        · exact hd1
        · split
          · decide
          · exact hV
    · exact hV
  rw [← chr_compat_bank _ _ hW]
  unfold COOLBOYCW docChrValue
  simp [h4, setchr1]

/-- Witness for C16: weird mode (register 3 = 0x40), register 0 = 0x88, buffered register 0
equal to 0x93, and `COOLBOYCW(0x0000, 0x21)`: the bank is `(0x93 AND 0x7F) OR 0x80`. -/
theorem chr_compat_decode_witness :
    (COOLBOYCW
      { mapperWith ⟨0x88, 0, 0, 0x40⟩ with
        base := { baseOn ROM_CHIP with DRegBuf := fun i => if i = 0 then 0x93 else 0x05 } }
      0x0000 0x21).base.CHR (0x0000 >>> 10) = 0x93 :=
  chr_compat_decode
    { mapperWith ⟨0x88, 0, 0, 0x40⟩ with
      base := { baseOn ROM_CHIP with DRegBuf := fun i => if i = 0 then 0x93 else 0x05 } }
    0x0000 0x21 (by decide) (by decide) (by decide) (by decide)

theorem chrExtForm_lt (e : Regs) (A W : Nat) : chrExtForm e A W < 2 ^ 8 := by
  unfold chrExtForm
  have h1 : (W &&& 0x80) &&& (0xFF ^^^ (e.r0 &&& 0x80)) ≤ W &&& 0x80 := Nat.and_le_left
  have h2 : W &&& 0x80 ≤ 0x80 := Nat.and_le_right
  have h3 : ((e.r0 &&& 0x08) <<< 4) &&& not32 (0xFF ^^^ (e.r0 &&& 0x80))
      ≤ (e.r0 &&& 0x08) <<< 4 := Nat.and_le_left
  have h4 : e.r0 &&& 0x08 ≤ 0x08 := Nat.and_le_right
  have h5 : e.r2 &&& 0x0F ≤ 0x0F := Nat.and_le_right
  have h6 : (A >>> 10) &&& 7 ≤ 7 := Nat.and_le_right
  have h3b : (e.r0 &&& 0x08) <<< 4 = (e.r0 &&& 0x08) * 2 ^ 4 := Nat.shiftLeft_eq _ _
  have h5b : (e.r2 &&& 0x0F) <<< 3 = (e.r2 &&& 0x0F) * 2 ^ 3 := Nat.shiftLeft_eq _ _
  apply Nat.or_lt_two_pow
  · apply Nat.or_lt_two_pow
    · apply Nat.or_lt_two_pow
      · omega
      · omega
    · omega
  · omega

/-- The extended-mode expression, bit by bit. -/
theorem chrExtForm_testBit (e : Regs) (A W k : Nat) :
    (chrExtForm e A W).testBit k = docChrExtBit e A W k := by
  by_cases hk : k < 8
  · interval_cases k
    · simp only [chrExtForm, docChrExtBit, not32,
        Nat.testBit_or, Nat.testBit_and, Nat.testBit_xor,
        Nat.testBit_shiftLeft, Nat.testBit_shiftRight, Nat.reduceAdd, Nat.reduceSub, ge_iff_le,
        Nat.reduceLeDiff, decide_True, decide_False,
        testBit_lit 1, testBit_lit 2, testBit_lit 3, testBit_lit 7, testBit_lit 8, testBit_lit 12, testBit_lit 14, testBit_lit 15, testBit_lit 16, testBit_lit 32, testBit_lit 48, testBit_lit 63, testBit_lit 64, testBit_lit 127, testBit_lit 128, testBit_lit 240, testBit_lit 255, testBit_lit 8192, testBit_lit 16384, testBit_lit 4294967295,
        Nat.reduceShiftRight, Nat.one_and_eq_mod_two, Nat.reduceMod, Nat.reduceBNe,
        Bool.true_and, Bool.false_and, Bool.and_true, Bool.and_false, Bool.or_false, Bool.false_or,
        Bool.true_or, Bool.or_true, Bool.xor_false, Bool.false_xor, Bool.true_xor, Bool.xor_true,
        Bool.not_true, Bool.not_false]
      cases A.testBit 10 <;> simp
    · simp only [chrExtForm, docChrExtBit, not32,
        Nat.testBit_or, Nat.testBit_and, Nat.testBit_xor,
        Nat.testBit_shiftLeft, Nat.testBit_shiftRight, Nat.reduceAdd, Nat.reduceSub, ge_iff_le,
        Nat.reduceLeDiff, decide_True, decide_False,
        testBit_lit 1, testBit_lit 2, testBit_lit 3, testBit_lit 7, testBit_lit 8, testBit_lit 12, testBit_lit 14, testBit_lit 15, testBit_lit 16, testBit_lit 32, testBit_lit 48, testBit_lit 63, testBit_lit 64, testBit_lit 127, testBit_lit 128, testBit_lit 240, testBit_lit 255, testBit_lit 8192, testBit_lit 16384, testBit_lit 4294967295,
        Nat.reduceShiftRight, Nat.one_and_eq_mod_two, Nat.reduceMod, Nat.reduceBNe,
        Bool.true_and, Bool.false_and, Bool.and_true, Bool.and_false, Bool.or_false, Bool.false_or,
        Bool.true_or, Bool.or_true, Bool.xor_false, Bool.false_xor, Bool.true_xor, Bool.xor_true,
        Bool.not_true, Bool.not_false]
      cases A.testBit 11 <;> simp
    · simp only [chrExtForm, docChrExtBit, not32,
        Nat.testBit_or, Nat.testBit_and, Nat.testBit_xor,
        Nat.testBit_shiftLeft, Nat.testBit_shiftRight, Nat.reduceAdd, Nat.reduceSub, ge_iff_le,
        Nat.reduceLeDiff, decide_True, decide_False,
        testBit_lit 1, testBit_lit 2, testBit_lit 3, testBit_lit 7, testBit_lit 8, testBit_lit 12, testBit_lit 14, testBit_lit 15, testBit_lit 16, testBit_lit 32, testBit_lit 48, testBit_lit 63, testBit_lit 64, testBit_lit 127, testBit_lit 128, testBit_lit 240, testBit_lit 255, testBit_lit 8192, testBit_lit 16384, testBit_lit 4294967295,
        Nat.reduceShiftRight, Nat.one_and_eq_mod_two, Nat.reduceMod, Nat.reduceBNe,
        Bool.true_and, Bool.false_and, Bool.and_true, Bool.and_false, Bool.or_false, Bool.false_or,
        Bool.true_or, Bool.or_true, Bool.xor_false, Bool.false_xor, Bool.true_xor, Bool.xor_true,
        Bool.not_true, Bool.not_false]
      cases A.testBit 12 <;> simp
    · simp only [chrExtForm, docChrExtBit, not32,
        Nat.testBit_or, Nat.testBit_and, Nat.testBit_xor,
        Nat.testBit_shiftLeft, Nat.testBit_shiftRight, Nat.reduceAdd, Nat.reduceSub, ge_iff_le,
        Nat.reduceLeDiff, decide_True, decide_False,
        testBit_lit 1, testBit_lit 2, testBit_lit 3, testBit_lit 7, testBit_lit 8, testBit_lit 12, testBit_lit 14, testBit_lit 15, testBit_lit 16, testBit_lit 32, testBit_lit 48, testBit_lit 63, testBit_lit 64, testBit_lit 127, testBit_lit 128, testBit_lit 240, testBit_lit 255, testBit_lit 8192, testBit_lit 16384, testBit_lit 4294967295,
        Nat.reduceShiftRight, Nat.one_and_eq_mod_two, Nat.reduceMod, Nat.reduceBNe,
        Bool.true_and, Bool.false_and, Bool.and_true, Bool.and_false, Bool.or_false, Bool.false_or,
        Bool.true_or, Bool.or_true, Bool.xor_false, Bool.false_xor, Bool.true_xor, Bool.xor_true,
        Bool.not_true, Bool.not_false]
      cases e.r2.testBit 0 <;> simp
    · simp only [chrExtForm, docChrExtBit, not32,
        Nat.testBit_or, Nat.testBit_and, Nat.testBit_xor,
        Nat.testBit_shiftLeft, Nat.testBit_shiftRight, Nat.reduceAdd, Nat.reduceSub, ge_iff_le,
        Nat.reduceLeDiff, decide_True, decide_False,
        testBit_lit 1, testBit_lit 2, testBit_lit 3, testBit_lit 7, testBit_lit 8, testBit_lit 12, testBit_lit 14, testBit_lit 15, testBit_lit 16, testBit_lit 32, testBit_lit 48, testBit_lit 63, testBit_lit 64, testBit_lit 127, testBit_lit 128, testBit_lit 240, testBit_lit 255, testBit_lit 8192, testBit_lit 16384, testBit_lit 4294967295,
        Nat.reduceShiftRight, Nat.one_and_eq_mod_two, Nat.reduceMod, Nat.reduceBNe,
        Bool.true_and, Bool.false_and, Bool.and_true, Bool.and_false, Bool.or_false, Bool.false_or,
        Bool.true_or, Bool.or_true, Bool.xor_false, Bool.false_xor, Bool.true_xor, Bool.xor_true,
        Bool.not_true, Bool.not_false]
      cases e.r2.testBit 1 <;> simp
    · simp only [chrExtForm, docChrExtBit, not32,
        Nat.testBit_or, Nat.testBit_and, Nat.testBit_xor,
        Nat.testBit_shiftLeft, Nat.testBit_shiftRight, Nat.reduceAdd, Nat.reduceSub, ge_iff_le,
        Nat.reduceLeDiff, decide_True, decide_False,
        testBit_lit 1, testBit_lit 2, testBit_lit 3, testBit_lit 7, testBit_lit 8, testBit_lit 12, testBit_lit 14, testBit_lit 15, testBit_lit 16, testBit_lit 32, testBit_lit 48, testBit_lit 63, testBit_lit 64, testBit_lit 127, testBit_lit 128, testBit_lit 240, testBit_lit 255, testBit_lit 8192, testBit_lit 16384, testBit_lit 4294967295,
        Nat.reduceShiftRight, Nat.one_and_eq_mod_two, Nat.reduceMod, Nat.reduceBNe,
        Bool.true_and, Bool.false_and, Bool.and_true, Bool.and_false, Bool.or_false, Bool.false_or,
        Bool.true_or, Bool.or_true, Bool.xor_false, Bool.false_xor, Bool.true_xor, Bool.xor_true,
        Bool.not_true, Bool.not_false]
      cases e.r2.testBit 2 <;> simp
    · simp only [chrExtForm, docChrExtBit, not32,
        Nat.testBit_or, Nat.testBit_and, Nat.testBit_xor,
        Nat.testBit_shiftLeft, Nat.testBit_shiftRight, Nat.reduceAdd, Nat.reduceSub, ge_iff_le,
        Nat.reduceLeDiff, decide_True, decide_False,
        testBit_lit 1, testBit_lit 2, testBit_lit 3, testBit_lit 7, testBit_lit 8, testBit_lit 12, testBit_lit 14, testBit_lit 15, testBit_lit 16, testBit_lit 32, testBit_lit 48, testBit_lit 63, testBit_lit 64, testBit_lit 127, testBit_lit 128, testBit_lit 240, testBit_lit 255, testBit_lit 8192, testBit_lit 16384, testBit_lit 4294967295,
        Nat.reduceShiftRight, Nat.one_and_eq_mod_two, Nat.reduceMod, Nat.reduceBNe,
        Bool.true_and, Bool.false_and, Bool.and_true, Bool.and_false, Bool.or_false, Bool.false_or,
        Bool.true_or, Bool.or_true, Bool.xor_false, Bool.false_xor, Bool.true_xor, Bool.xor_true,
        Bool.not_true, Bool.not_false]
      cases e.r2.testBit 3 <;> simp
    · simp only [chrExtForm, docChrExtBit, not32,
        Nat.testBit_or, Nat.testBit_and, Nat.testBit_xor,
        Nat.testBit_shiftLeft, Nat.testBit_shiftRight, Nat.reduceAdd, Nat.reduceSub, ge_iff_le,
        Nat.reduceLeDiff, decide_True, decide_False,
        testBit_lit 1, testBit_lit 2, testBit_lit 3, testBit_lit 7, testBit_lit 8, testBit_lit 12, testBit_lit 14, testBit_lit 15, testBit_lit 16, testBit_lit 32, testBit_lit 48, testBit_lit 63, testBit_lit 64, testBit_lit 127, testBit_lit 128, testBit_lit 240, testBit_lit 255, testBit_lit 8192, testBit_lit 16384, testBit_lit 4294967295,
        Nat.reduceShiftRight, Nat.one_and_eq_mod_two, Nat.reduceMod, Nat.reduceBNe,
        Bool.true_and, Bool.false_and, Bool.and_true, Bool.and_false, Bool.or_false, Bool.false_or,
        Bool.true_or, Bool.or_true, Bool.xor_false, Bool.false_xor, Bool.true_xor, Bool.xor_true,
        Bool.not_true, Bool.not_false]
      cases e.r0.testBit 7 <;> cases e.r0.testBit 3 <;> cases W.testBit 7 <;> simp
  · have h : chrExtForm e A W < 2 ^ k :=
      Nat.lt_of_lt_of_le (chrExtForm_lt e A W) (Nat.pow_le_pow_right (by decide) (by omega))
    rw [Nat.testBit_lt_two_pow h]
    unfold docChrExtBit
    simp only [show ¬ k < 3 by omega, show ¬ k < 7 by omega, show ¬ k = 7 by omega, if_false]

/-- C18 (character-space decode, extended mode).  For every register state with register 3
bit 4 set, every 1 KiB window address `A` and every value `V`, the 1 KiB bank number
`COOLBOYCW` gives window `A` has bits 2-0 equal to `(A >> 10) AND 7` and bits 6-3 equal to the
low four bits of register 2, whatever `V` and weird mode are; bit 7 is register 0 bit 3 when
register 0 bit 7 is set, and otherwise bit 7 of `V`, which in weird mode (register 3 bit 6)
is cleared first for the windows with `((bank-select AND 0x80) << 5) XOR A` equal to 0x0400 or
0x0C00; and no bit above 7. -/
theorem chr_extended_decode (s : Mapper) (A V : Nat) (h4 : s.EXPREGS.r3 &&& 0x10 ≠ 0) :
    (∀ k, ((COOLBOYCW s A V).base.CHR (A >>> 10)).testBit k
      = docChrExtBit s.EXPREGS A (docChrExtValue s.EXPREGS s.base.MMC3_cmd A V) k) ∧
    ((docChrExtValue s.EXPREGS s.base.MMC3_cmd A V).testBit 7 =
      if s.EXPREGS.r3 &&& 0x40 ≠ 0 ∧
          ((((s.base.MMC3_cmd &&& 0x80) <<< 5) ^^^ A) = 0x0400 ∨
            (((s.base.MMC3_cmd &&& 0x80) <<< 5) ^^^ A) = 0x0C00) then false
      else V.testBit 7) ∧
    ((COOLBOYCW s A V).base.CHR (A >>> 10)) &&& 7 = (A >>> 10) &&& 7 ∧
    (((COOLBOYCW s A V).base.CHR (A >>> 10)) >>> 3) &&& 0x0F = s.EXPREGS.r2 &&& 0x0F := by
  have key : (COOLBOYCW s A V).base.CHR (A >>> 10)
      = chrExtForm s.EXPREGS A (docChrExtValue s.EXPREGS s.base.MMC3_cmd A V) := by
    unfold COOLBOYCW chrExtForm docChrExtValue
    by_cases hw : s.EXPREGS.r3 &&& 0x40 = 0
    · simp [h4, hw, setchr1]
    · by_cases hx : ((((s.base.MMC3_cmd &&& 0x80) <<< 5) ^^^ A) = 0x0400 ∨
          (((s.base.MMC3_cmd &&& 0x80) <<< 5) ^^^ A) = 0x0C00)
      · simp [h4, hw, hx, setchr1]
      · simp [h4, hw, hx, setchr1]
  have hbits : ∀ k, ((COOLBOYCW s A V).base.CHR (A >>> 10)).testBit k
      = docChrExtBit s.EXPREGS A (docChrExtValue s.EXPREGS s.base.MMC3_cmd A V) k := by
    intro k
    rw [key, chrExtForm_testBit]
  refine ⟨hbits, ?_, ?_, ?_⟩
  · unfold docChrExtValue
    split
    · rw [Nat.testBit_and]
      have h : Nat.testBit 0x7F 7 = false := by decide
      rw [h, Bool.and_false]
    · rfl
  · apply Nat.eq_of_testBit_eq
    intro i
    rw [Nat.testBit_and, Nat.testBit_and, hbits]
    by_cases hi : i < 3
    · unfold docChrExtBit
      rw [if_pos hi]
    · have h7 : Nat.testBit 7 i = false :=
        Nat.testBit_lt_two_pow
          (Nat.lt_of_lt_of_le (by decide : (7 : Nat) < 2 ^ 3)
            (Nat.pow_le_pow_right (by decide) (by omega)))
      rw [h7, Bool.and_false, Bool.and_false]
  · apply Nat.eq_of_testBit_eq
    intro i
    rw [Nat.testBit_and, Nat.testBit_and, Nat.testBit_shiftRight, hbits]
    by_cases hi : i < 4
    · unfold docChrExtBit
      rw [if_neg (by omega), if_pos (by omega)]
      have hsub : 3 + i - 3 = i := by omega
      rw [hsub]
    · have hF : Nat.testBit 0x0F i = false :=
        Nat.testBit_lt_two_pow
          (Nat.lt_of_lt_of_le (by decide : (0x0F : Nat) < 2 ^ 4)
            (Nat.pow_le_pow_right (by decide) (by omega)))
      rw [hF, Bool.and_false, Bool.and_false]

/-- Witness for C18: register 3 = 0x10, register 2 = 0x0A, register 0 = 0 and
`COOLBOYCW(0x1400, 0x80)`: bits 6-3 of the bank are 0x0A. -/
theorem chr_extended_decode_witness :
    (((COOLBOYCW (mapperWith ⟨0, 0, 0x0A, 0x10⟩) 0x1400 0x80).base.CHR (0x1400 >>> 10)) >>> 3)
      &&& 0x0F = 0x0A :=
  (chr_extended_decode (mapperWith ⟨0, 0, 0x0A, 0x10⟩) 0x1400 0x80 (by decide)).2.2.2

/-! ## Range of the bank numbers -/

theorem docPrgBank_lt (e : Regs) (A W : Nat) : docPrgBank e A W < 2 ^ 12 := by
  by_cases h4 : e.r3 &&& 0x10 = 0
  · unfold docPrgBank
    rw [if_pos h4]
    exact docCompatBank_lt e W
  · obtain ⟨hlow, hhigh⟩ := docPrgBank_linear e A W h4
    have h1 := docCompatBank_lt e W
    have h2 := docLinearLow_lt e A
    rw [Nat.shiftRight_eq_div_pow, Nat.shiftRight_eq_div_pow] at hhigh
    omega

/-- The final expression of the compatible-mode character decode stays below 256 for every
value it is applied to. -/
theorem chr_compat_lt (e : Regs) (W : Nat) :
    (W &&& (0xFF ^^^ (e.r0 &&& 0x80)))
      ||| (((e.r0 &&& 0x08) <<< 4) &&& not32 (0xFF ^^^ (e.r0 &&& 0x80))) < 2 ^ 8 := by
  have hm : 0xFF ^^^ (e.r0 &&& 0x80) < 2 ^ 8 :=
    Nat.xor_lt_two_pow (by decide) (Nat.lt_of_le_of_lt Nat.and_le_right (by decide))
  have h1 : W &&& (0xFF ^^^ (e.r0 &&& 0x80)) ≤ 0xFF ^^^ (e.r0 &&& 0x80) := Nat.and_le_right
  have h2 : ((e.r0 &&& 0x08) <<< 4) &&& not32 (0xFF ^^^ (e.r0 &&& 0x80))
      ≤ (e.r0 &&& 0x08) <<< 4 := Nat.and_le_left
  have h3 : e.r0 &&& 0x08 ≤ 0x08 := Nat.and_le_right
  have h4 : (e.r0 &&& 0x08) <<< 4 = (e.r0 &&& 0x08) * 2 ^ 4 := Nat.shiftLeft_eq _ _
  exact Nat.or_lt_two_pow (by omega) (by omega)

/-- The character bank `COOLBOYCW` gives window `A`, in both modes. -/
theorem COOLBOYCW_window (s : Mapper) (A V : Nat) :
    (s.EXPREGS.r3 &&& 0x10 ≠ 0 →
      (COOLBOYCW s A V).base.CHR (A >>> 10)
        = chrExtForm s.EXPREGS A (docChrExtValue s.EXPREGS s.base.MMC3_cmd A V)) ∧
    (s.EXPREGS.r3 &&& 0x10 = 0 →
      (COOLBOYCW s A V).base.CHR (A >>> 10)
        = ((docChrValue s.EXPREGS s.base.MMC3_cmd (s.base.DRegBuf 0) (s.base.DRegBuf 1) A V)
              &&& (0xFF ^^^ (s.EXPREGS.r0 &&& 0x80)))
            ||| (((s.EXPREGS.r0 &&& 0x08) <<< 4)
              &&& not32 (0xFF ^^^ (s.EXPREGS.r0 &&& 0x80)))) := by
  refine ⟨fun h4 => ?_, fun h4 => ?_⟩
  · unfold COOLBOYCW chrExtForm docChrExtValue
    by_cases hw : s.EXPREGS.r3 &&& 0x40 = 0
    · simp [h4, hw, setchr1]
    · by_cases hx : ((((s.base.MMC3_cmd &&& 0x80) <<< 5) ^^^ A) = 0x0400 ∨
          (((s.base.MMC3_cmd &&& 0x80) <<< 5) ^^^ A) = 0x0C00)
      · simp [h4, hw, hx, setchr1]
      · simp [h4, hw, hx, setchr1]
  · unfold COOLBOYCW docChrValue
    simp [h4, setchr1]

/-- C21 (bank numbers stay inside the addressable range).  For every value of the four
control registers, every bank-select byte, every window address and every supplied value,
the 8 KiB program bank number `COOLBOYPW` gives window `A` is below 4096
(4096 x 8 KiB = 32 MiB) and the 1 KiB character bank number `COOLBOYCW` gives window `A` is
below 256 (256 x 1 KiB = 256 KiB). -/
theorem bank_numbers_in_range (s : Mapper) (A V : Nat) :
    ((COOLBOYPW s A V).base.PRG (A >>> 13)).bank < 4096 ∧
    (COOLBOYCW s A V).base.CHR (A >>> 10) < 256 := by
  refine ⟨?_, ?_⟩
  · rw [COOLBOYPW_window]
    dsimp only
    rw [prgBank_eq]
    exact docPrgBank_lt _ _ _
  · by_cases h4 : s.EXPREGS.r3 &&& 0x10 = 0
    · rw [(COOLBOYCW_window s A V).2 h4]
      exact chr_compat_lt _ _
    · rw [(COOLBOYCW_window s A V).1 h4]
      exact chrExtForm_lt _ _ _

/-! ## Flash Store frame -/

/-- Every byte after the erase loop is the byte before it or 0xFF. -/
theorem eraseLoop_byte (F : List Nat) (i n j : Nat) :
    (eraseLoop F i n).getD j 0 = F.getD j 0 ∨ (eraseLoop F i n).getD j 0 = 0xFF := by
  by_cases hj : j < F.length
  · by_cases hhit : ∃ k, i ≤ k ∧ k < i + n ∧ k % F.length = j
    · exact Or.inr (eraseLoop_hit n F i j hj hhit)
    · left
      apply eraseLoop_keep
      intro k h1 h2 h3
      exact hhit ⟨k, h1, h2, h3⟩
  · left
    have h1 : (eraseLoop F i n).length ≤ j := by
      rw [eraseLoop_length]; omega
    rw [List.getD_eq_default _ _ h1, List.getD_eq_default _ _ (by omega)]

/-- Every byte after the chip-erase fill is the byte before it or 0xFF. -/
theorem replicate_byte (F : List Nat) (j : Nat) :
    (List.replicate F.length 0xFF).getD j 0 = F.getD j 0 ∨
    (List.replicate F.length 0xFF).getD j 0 = 0xFF := by
  by_cases hj : j < F.length
  · right
    rw [List.getD_eq_getElem?_getD, List.getElem?_replicate]
    simp [hj]
  · left
    rw [List.getD_eq_default _ _ (by rw [List.length_replicate]; omega),
      List.getD_eq_default _ _ (by omega)]

/-- Effect on the Flash Store of the erase and program blocks that follow the buffering:
an erase fill when six bytes with the erase head and value 0x30 or 0x10 are pending, at
most one programmed byte that read 0xFF when four bytes with the program head are pending,
and nothing otherwise. -/
theorem command_blocks_flash (u : Mapper) (A V : Nat) :
    (u.flash_state = 6 ∧ eraseHead u = true ∧
      (u.flash_buffer_v 5 = 0x30 ∨ u.flash_buffer_v 5 = 0x10) ∧
      (flashWriteByte (flashEraseChip (flashEraseSector u A)) A V).Flash.length
        = u.Flash.length ∧
      ∀ j, (flashWriteByte (flashEraseChip (flashEraseSector u A)) A V).Flash.getD j 0
          = u.Flash.getD j 0 ∨
        (flashWriteByte (flashEraseChip (flashEraseSector u A)) A V).Flash.getD j 0 = 0xFF) ∨
    (u.flash_state = 4 ∧ programHead u = true ∧
      ∃ off, off < u.Flash.length ∧ u.Flash.getD off 0 = 0xFF ∧
        (flashWriteByte (flashEraseChip (flashEraseSector u A)) A V).Flash
          = u.Flash.set off V) ∨
    (flashWriteByte (flashEraseChip (flashEraseSector u A)) A V).Flash = u.Flash := by
  by_cases h6 : u.flash_state = 6
  · have hW : ∀ x : Mapper, x.flash_state = 6 → flashWriteByte x A V = x := by
      intro x hx
      unfold flashWriteByte
      rw [if_neg]
      rintro ⟨h4, -⟩
      omega
    rw [hW _ (by rw [flashEraseChip_state, flashEraseSector_state]; exact h6)]
    by_cases hs : eraseHead u = true ∧ u.flash_buffer_v 5 = 0x30
    · left
      have hS : (flashEraseSector u A).flash_buffer_v 5 = 0x30 ∧
          (flashEraseSector u A).Flash =
            eraseLoop u.Flash
              (sectorLo (Int.tdiv (flashOffset u A) (FLASH_SECTOR_SIZE : Int)))
              (sectorHi (Int.tdiv (flashOffset u A) (FLASH_SECTOR_SIZE : Int))
                - sectorLo (Int.tdiv (flashOffset u A) (FLASH_SECTOR_SIZE : Int))) := by
        unfold flashEraseSector
        rw [if_pos ⟨h6, hs.1, hs.2⟩]
        exact ⟨hs.2, rfl⟩
      have hC : flashEraseChip (flashEraseSector u A) = flashEraseSector u A := by
        unfold flashEraseChip
        rw [if_neg]
        rintro ⟨-, -, hv⟩
        rw [hS.1] at hv
        exact absurd hv (by decide)
      rw [hC, hS.2]
      exact ⟨h6, hs.1, Or.inl hs.2, eraseLoop_length _ _ _, fun j => eraseLoop_byte _ _ _ j⟩
    · have hS : flashEraseSector u A = u := by
        unfold flashEraseSector
        rw [if_neg]
        rintro ⟨-, h1, h2⟩
        exact hs ⟨h1, h2⟩
      rw [hS]
      by_cases hc : eraseHead u = true ∧ u.flash_buffer_v 5 = 0x10
      · left
        have hC : (flashEraseChip u).Flash = List.replicate u.Flash.length 0xFF := by
          unfold flashEraseChip
          rw [if_pos ⟨h6, hc.1, hc.2⟩]
        rw [hC]
        exact ⟨h6, hc.1, Or.inr hc.2, List.length_replicate _ _, fun j => replicate_byte _ j⟩
      · right; right
        unfold flashEraseChip
        rw [if_neg]
        rintro ⟨-, h1, h2⟩
        exact hc ⟨h1, h2⟩
  · have hS : flashEraseSector u A = u := by
      unfold flashEraseSector
      rw [if_neg]
      rintro ⟨h, -, -⟩
      exact h6 h
    have hC : flashEraseChip u = u := by
      unfold flashEraseChip
      rw [if_neg]
      rintro ⟨h, -, -⟩
      exact h6 h
    rw [hS, hC]
    by_cases hp : u.flash_state = 4 ∧ programHead u = true
    · unfold flashWriteByte
      rw [if_pos hp]
      dsimp only
      by_cases hr : CartBR u A ≠ 0xFF
      · right; right
        rw [if_pos hr]
      · rw [if_neg hr]
        have hr2 : CartBR u A = 0xFF := by
          by_contra h
          exact hr h
        by_cases hchip : (u.base.PRG (A >>> 13)).chip = FLASH_CHIP
        · right; left
          have hval : u.Flash.getD (pageOffset u A) 0 = 0xFF := by
            unfold CartBR at hr2
            simp only [hchip, if_true] at hr2
            exact hr2
          have hlen : pageOffset u A < u.Flash.length := by
            by_contra hge
            rw [List.getD_eq_default _ _ (by omega)] at hval
            omega
          refine ⟨hp.1, hp.2, pageOffset u A, hlen, hval, ?_⟩
          unfold CartBW
          dsimp only
          rw [if_pos hchip]
        · right; right
          unfold CartBW
          dsimp only
          rw [if_neg hchip]
          split <;> rfl
    · right; right
      unfold flashWriteByte
      rw [if_neg hp]

/-- The three ways a ROM-space write can leave the Flash Store: an erase fill when the write
completes an erase command, one programmed byte that read 0xFF when it completes a
byte-program command, and no change at all otherwise. -/
theorem flash_write_cases (m : MMC3) (s : Mapper) (A V : Nat) :
    (completesErase s V ∧
      (COOLBOYFlashWrite m s A V).Flash.length = s.Flash.length ∧
      ∀ j, (COOLBOYFlashWrite m s A V).Flash.getD j 0 = s.Flash.getD j 0 ∨
        (COOLBOYFlashWrite m s A V).Flash.getD j 0 = 0xFF) ∨
    (completesProgram s ∧
      ∃ off, off < s.Flash.length ∧ s.Flash.getD off 0 = 0xFF ∧
        (COOLBOYFlashWrite m s A V).Flash = s.Flash.set off V) ∨
    (COOLBOYFlashWrite m s A V).Flash = s.Flash := by
  by_cases hf : s.flash_save = 0
  · right; right
    rw [COOLBOYFlashWrite_disabled m s A V hf, portWrite_Flash]
  · obtain ⟨t, ht, hF, -, -, -, -, -⟩ := COOLBOYFlashWrite_eq m s A V hf
    rw [hF]
    by_cases hlt : s.flash_state < 10
    · rw [if_pos hlt] at ht
      rw [ht]
      obtain ⟨hba, hbv, hbF, -⟩ := flashEnterCFI_buffers m (flashBuffer (portWrite m s A V) A V)
      have hFu : (flashEnterCFI m (flashBuffer (portWrite m s A V) A V)).Flash = s.Flash := by
        rw [hbF]
        simp [flashBuffer]
      have hst : (flashEnterCFI m (flashBuffer (portWrite m s A V) A V)).flash_state
          ≤ s.flash_state + 1 := by
        refine Nat.le_trans (flashEnterCFI_state_le _ _) ?_
        simp [flashBuffer]
      have hst0 : (flashEnterCFI m (flashBuffer (portWrite m s A V) A V)).flash_state = 0 ∨
          (flashEnterCFI m (flashBuffer (portWrite m s A V) A V)).flash_state
            = s.flash_state + 1 := by
        unfold flashEnterCFI
        split
        · exact Or.inl rfl
        · right
          simp [flashBuffer]
      rcases command_blocks_flash (flashEnterCFI m (flashBuffer (portWrite m s A V) A V)) A V
        with ⟨h6, hh, hv, hlen, hbytes⟩ | ⟨h4, hh, off, hoff, hval, hset⟩ | hsame
      · left
        have h5 : s.flash_state = 5 := by
          rcases hst0 with h | h <;> omega
        refine ⟨⟨hf, h5, ?_, ?_⟩, ?_, ?_⟩
        · simp only [eraseHead, hba, hbv] at hh
          simp only [eraseHead, flashBuffer, portWrite_flash_state, portWrite_buffer_a,
            portWrite_buffer_v, h5] at hh ⊢
          simpa using hh
        · rw [hbv] at hv
          simpa [flashBuffer, h5] using hv
        · rw [hlen, hFu]
        · intro j
          rw [← hFu]
          exact hbytes j
      · right; left
        have h3 : s.flash_state = 3 := by
          rcases hst0 with h | h <;> omega
        refine ⟨⟨hf, h3, ?_⟩, off, ?_, ?_, ?_⟩
        · simp only [programHead, hba, hbv] at hh
          simp only [programHead, flashBuffer, portWrite_flash_state, portWrite_buffer_a,
            portWrite_buffer_v, h3] at hh ⊢
          simpa using hh
        · rw [← hFu]; exact hoff
        · rw [← hFu]; exact hval
        · rw [hset, hFu]
      · right; right
        rw [hsame, hFu]
    · right; right
      rw [if_neg hlt] at ht
      rw [ht, portWrite_Flash]

/-- C22 (Flash Store frame).  For every state and every ROM-space write `(A, V)` handled by
`COOLBOYFlashWrite`, the Flash Store keeps its size and each of its bytes after the write
equals its value before the write, or is 0xFF and the write completed a sector or chip
erase, or had the value 0xFF before the write and the write completed a byte program.  So a
write that completes neither an erase nor a byte program leaves the Flash Store unchanged; a
write of a byte `V` that does not complete an erase never turns a 0 bit of the store into a
1 bit; and with flash emulation disabled no write changes the Flash Store, the pending
sequence (its length and its buffered addresses and values) or the CFI-mode flag. -/
theorem flash_store_frame (m : MMC3) (s : Mapper) (A V : Nat) :
    (COOLBOYFlashWrite m s A V).Flash.length = s.Flash.length ∧
    (∀ j, (COOLBOYFlashWrite m s A V).Flash.getD j 0 = s.Flash.getD j 0 ∨
      (completesErase s V ∧ (COOLBOYFlashWrite m s A V).Flash.getD j 0 = 0xFF) ∨
      (completesProgram s ∧ s.Flash.getD j 0 = 0xFF)) ∧
    (¬ completesErase s V → ¬ completesProgram s →
      (COOLBOYFlashWrite m s A V).Flash = s.Flash) ∧
    (¬ completesErase s V → V < 256 → ∀ j k,
      (s.Flash.getD j 0).testBit k = false →
      ((COOLBOYFlashWrite m s A V).Flash.getD j 0).testBit k = false) ∧
    (s.flash_save = 0 →
      (COOLBOYFlashWrite m s A V).Flash = s.Flash ∧
      (COOLBOYFlashWrite m s A V).flash_state = s.flash_state ∧
      (COOLBOYFlashWrite m s A V).flash_buffer_a = s.flash_buffer_a ∧
      (COOLBOYFlashWrite m s A V).flash_buffer_v = s.flash_buffer_v ∧
      (COOLBOYFlashWrite m s A V).cfi_mode = s.cfi_mode) := by
  have hset : ∀ off j, off < s.Flash.length → s.Flash.getD off 0 = 0xFF →
      ((s.Flash.set off V).getD j 0 = s.Flash.getD j 0 ∨ s.Flash.getD j 0 = 0xFF) := by
    intro off j _ hval
    by_cases hj : off = j
    · subst hj
      exact Or.inr hval
    · exact Or.inl (getD_set_other _ _ _ _ hj)
  refine ⟨?_, fun j => ?_, fun hne hnp => ?_, fun hne hV j k hbit => ?_, fun hf => ?_⟩
  · rcases flash_write_cases m s A V with ⟨-, hlen, -⟩ | ⟨-, off, -, -, hF⟩ | hF
    · exact hlen
    · rw [hF, List.length_set]
    · rw [hF]
  · rcases flash_write_cases m s A V with ⟨he, -, hb⟩ | ⟨hp, off, hoff, hval, hF⟩ | hF
    · rcases hb j with h | h
      · exact Or.inl h
      · exact Or.inr (Or.inl ⟨he, h⟩)
    · rw [hF]
      rcases hset off j hoff hval with h | h
      · exact Or.inl h
      · exact Or.inr (Or.inr ⟨hp, h⟩)
    · rw [hF]
      exact Or.inl rfl
  · rcases flash_write_cases m s A V with ⟨he, -, -⟩ | ⟨hp, -⟩ | hF
    · exact absurd he hne
    · exact absurd hp hnp
    · exact hF
  · rcases flash_write_cases m s A V with ⟨he, -, -⟩ | ⟨-, off, hoff, hval, hF⟩ | hF
    · exact absurd he hne
    · rw [hF]
      by_cases hj : off = j
      · subst hj
        rw [getD_set_self _ _ _ hoff]
        rw [hval] at hbit
        have hk : 8 ≤ k := by
          by_contra hlt
          have hk8 : k < 8 := by omega
          have htrue : Nat.testBit 0xFF k = true := by
            interval_cases k <;> decide
          rw [htrue] at hbit
          exact absurd hbit (by decide)
        exact Nat.testBit_lt_two_pow
          (Nat.lt_of_lt_of_le (by omega : V < 2 ^ 8) (Nat.pow_le_pow_right (by decide) hk))
      · rw [getD_set_other _ _ _ _ hj]
        exact hbit
    · rw [hF]
      exact hbit
  · rw [COOLBOYFlashWrite_disabled m s A V hf]
    exact ⟨portWrite_Flash _ _ _ _, portWrite_flash_state _ _ _ _, portWrite_buffer_a _ _ _ _,
      portWrite_buffer_v _ _ _ _, portWrite_cfi_mode _ _ _ _⟩

/-- Witness for C22: flash emulation enabled, an idle flash with the one-byte store `[0x12]`
and the write `(0x8AAA, 0xAA)`, which completes neither an erase nor a byte program: the
store is unchanged. -/
theorem flash_store_frame_witness :
    ¬ completesErase (flashMapper [0x12]) 0xAA ∧ ¬ completesProgram (flashMapper [0x12]) ∧
    (COOLBOYFlashWrite quietMMC3 (flashMapper [0x12]) 0x8AAA 0xAA).Flash = [0x12] :=
  ⟨fun h => absurd h.2.1 (by decide), fun h => absurd h.2.1 (by decide),
    (flash_store_frame quietMMC3 (flashMapper [0x12]) 0x8AAA 0xAA).2.2.1
      (fun h => absurd h.2.1 (by decide)) (fun h => absurd h.2.1 (by decide))⟩

/-! ## Flash command state machine: CFI entry -/

/-- Pending length after the command blocks when the buffered byte was not the first one:
the CFI block cannot fire, the erase blocks never touch `flash_state`, and the
`// write byte` block clears it exactly when four bytes with the program head are pending. -/
theorem later_byte_state (m : MMC3) (b : Mapper) (A V : Nat) (h2 : 2 ≤ b.flash_state) :
    (flashWriteByte (flashEraseChip (flashEraseSector (flashEnterCFI m b) A)) A V).flash_state
      = if b.flash_state = 4 ∧ programHead b = true then 0 else b.flash_state := by
  have hE : flashEnterCFI m b = b := by
    unfold flashEnterCFI
    rw [if_neg]
    rintro ⟨h, -, -⟩
    omega
  have hst : (flashEraseChip (flashEraseSector b A)).flash_state = b.flash_state := by
    rw [flashEraseChip_state, flashEraseSector_state]
  have hba : (flashEraseChip (flashEraseSector b A)).flash_buffer_a = b.flash_buffer_a := by
    rw [(flashEraseChip_buffers _).1, (flashEraseSector_buffers _ _).1]
  have hbv : (flashEraseChip (flashEraseSector b A)).flash_buffer_v = b.flash_buffer_v := by
    rw [(flashEraseChip_buffers _).2, (flashEraseSector_buffers _ _).2]
  have hh : programHead (flashEraseChip (flashEraseSector b A)) = programHead b := by
    simp only [programHead, hba, hbv]
  rw [hE]
  unfold flashWriteByte
  rw [hst, hh]
  split
  · rfl
  · exact hst

set_option maxRecDepth 100000 in
/-- Counterexample to C10 as stated (a write `(A, 0x98)` with `A AND 0xFFF = 0x0AAA` on a
non-empty pending sequence "is only buffered").  On an erased 4 KiB store with the
byte-program head `(0x0AAA,0xAA),(0x0555,0x55),(0x0AAA,0xA0)` pending, the write
`(0x8AAA, 0x98)` is the fourth byte of a byte program: the store byte at offset 0xAAA goes
from 0xFF to 0x98 and the pending sequence is cleared (length 0, not 4), while the CFI-mode
flag stays off.  With ten bytes pending the same write is not buffered at all: the pending
length stays 10 and slot 9 keeps its value 0. -/
theorem cfi_value_not_only_buffered :
    programPendingMapper.flash_save ≠ 0 ∧ (0x8AAA &&& 0xFFF) = 0x0AAA ∧
    1 ≤ programPendingMapper.flash_state ∧
    programPendingMapper.cfi_mode = 0 ∧
    programPendingMapper.Flash.getD 0xAAA 0 = 0xFF ∧
    (COOLBOYFlashWrite quietMMC3 programPendingMapper 0x8AAA 0x98).cfi_mode = 0 ∧
    (COOLBOYFlashWrite quietMMC3 programPendingMapper 0x8AAA 0x98).flash_state = 0 ∧
    (COOLBOYFlashWrite quietMMC3 programPendingMapper 0x8AAA 0x98).Flash.getD 0xAAA 0 = 0x98 ∧
    (COOLBOYFlashWrite quietMMC3 programPendingMapper 0x8AAA 0x98).Flash
      ≠ programPendingMapper.Flash ∧
    fullBufferMapper.flash_save ≠ 0 ∧ fullBufferMapper.flash_state = 10 ∧
    (COOLBOYFlashWrite quietMMC3 fullBufferMapper 0x8AAA 0x98).flash_state = 10 ∧
    (COOLBOYFlashWrite quietMMC3 fullBufferMapper 0x8AAA 0x98).flash_buffer_a 9 = 0 ∧
    (COOLBOYFlashWrite quietMMC3 fullBufferMapper 0x8AAA 0x98).flash_buffer_v 9 = 0 := by
  have h1 : programPendingMapper.Flash.getD 0xAAA 0 = 0xFF := rfl
  have h2 : (COOLBOYFlashWrite quietMMC3 programPendingMapper 0x8AAA 0x98).Flash.getD 0xAAA 0
      = 0x98 := rfl
  refine ⟨by decide, by decide, by decide, rfl, h1, rfl, rfl, h2, ?_, by decide, rfl, rfl,
    rfl, rfl⟩
  intro h
  rw [h, h1] at h2
  exact absurd h2 (by decide)

/-- C10 (CFI entry, as the code has it).  With flash emulation enabled, for every ROM-space write
`(A, 0x98)` with `A AND 0xFFF = 0x0AAA`: if the pending sequence was empty before the write,
then after it CFI mode is on, the pending sequence is empty again and the Flash Store is
unchanged; if the pending sequence held one or more bytes, the CFI-mode flag is left as it
was, and
* with fewer than 10 bytes pending the byte is stored in the next slot and every other slot
  is unchanged;
* with fewer than 10 bytes pending and the write not completing a byte program, the byte is
  only buffered: the pending length grows by one and the Flash Store is unchanged;
* when the write completes a byte program (it is the fourth byte after the program head),
  the pending sequence is cleared and the Flash Store is unchanged or has one byte that read
  0xFF replaced by 0x98;
* with 10 or more bytes pending nothing is buffered: the pending length, both buffers and
  the Flash Store are unchanged. -/
theorem cfi_entry (m : MMC3) (s : Mapper) (A : Nat) (hf : s.flash_save ≠ 0)
    (hA : (A &&& 0xFFF) = 0x0AAA) :
    (s.flash_state = 0 →
      (COOLBOYFlashWrite m s A 0x98).cfi_mode = 1 ∧
      (COOLBOYFlashWrite m s A 0x98).flash_state = 0 ∧
      (COOLBOYFlashWrite m s A 0x98).Flash = s.Flash) ∧
    (1 ≤ s.flash_state →
      (COOLBOYFlashWrite m s A 0x98).cfi_mode = s.cfi_mode ∧
      (s.flash_state < 10 →
        (COOLBOYFlashWrite m s A 0x98).flash_buffer_a s.flash_state = 0x0AAA ∧
        (COOLBOYFlashWrite m s A 0x98).flash_buffer_v s.flash_state = 0x98 ∧
        ∀ i, i ≠ s.flash_state →
          (COOLBOYFlashWrite m s A 0x98).flash_buffer_a i = s.flash_buffer_a i ∧
          (COOLBOYFlashWrite m s A 0x98).flash_buffer_v i = s.flash_buffer_v i) ∧
      (s.flash_state < 10 → ¬ completesProgram s →
        (COOLBOYFlashWrite m s A 0x98).flash_state = s.flash_state + 1 ∧
        (COOLBOYFlashWrite m s A 0x98).Flash = s.Flash) ∧
      (completesProgram s →
        (COOLBOYFlashWrite m s A 0x98).flash_state = 0 ∧
        ((COOLBOYFlashWrite m s A 0x98).Flash = s.Flash ∨
          ∃ off, off < s.Flash.length ∧ s.Flash.getD off 0 = 0xFF ∧
            (COOLBOYFlashWrite m s A 0x98).Flash = s.Flash.set off 0x98)) ∧
      (10 ≤ s.flash_state →
        (COOLBOYFlashWrite m s A 0x98).flash_state = s.flash_state ∧
        (COOLBOYFlashWrite m s A 0x98).flash_buffer_a = s.flash_buffer_a ∧
        (COOLBOYFlashWrite m s A 0x98).flash_buffer_v = s.flash_buffer_v ∧
        (COOLBOYFlashWrite m s A 0x98).Flash = s.Flash)) := by
  obtain ⟨t, ht, hF, -, ha, hv, hc, hs⟩ := COOLBOYFlashWrite_eq m s A 0x98 hf
  have hs' : (COOLBOYFlashWrite m s A 0x98).flash_state = t.flash_state := by
    rw [hs, if_neg]
    simp [hA]
  have hc' : (COOLBOYFlashWrite m s A 0x98).cfi_mode = t.cfi_mode := by
    rw [hc, if_neg (by decide)]
  have hne : ¬ completesErase s 0x98 := by
    rintro ⟨-, -, -, h | h⟩ <;> exact absurd h (by decide)
  have hhead : ∀ h3 : s.flash_state = 3,
      programHead (flashBuffer (portWrite m s A 0x98) A 0x98) = programHead s := by
    intro h3
    simp only [programHead, flashBuffer, portWrite_flash_state, portWrite_buffer_a,
      portWrite_buffer_v, h3]
    simp
  refine ⟨fun h0 => ?_, fun h1 => ⟨?_, fun hlt => ?_, fun hlt hnp => ?_, fun hp => ?_,
    fun hge => ?_⟩⟩
  · have ht' : t = flashEnterCFI m (flashBuffer (portWrite m s A 0x98) A 0x98) := by
      rw [ht, if_pos (by omega)]
      simp [flashBuffer, flashEnterCFI, flashEraseSector, flashEraseChip, flashWriteByte, h0, hA]
    rw [hc', hs', hF, ht']
    simp [flashBuffer, flashEnterCFI, h0, hA]
  · rw [hc', ht]
    by_cases hlt : s.flash_state < 10
    · have hb : flashEnterCFI m (flashBuffer (portWrite m s A 0x98) A 0x98)
          = flashBuffer (portWrite m s A 0x98) A 0x98 := by
        unfold flashEnterCFI
        rw [if_neg]
        simp only [flashBuffer, portWrite_flash_state]
        omega
      rw [if_pos hlt, hb, flashWriteByte_cfi_mode, flashEraseChip_cfi_mode,
        flashEraseSector_cfi_mode]
      simp [flashBuffer]
    · rw [if_neg hlt]
      exact portWrite_cfi_mode _ _ _ _
  · have hb := flashEnterCFI_buffers m (flashBuffer (portWrite m s A 0x98) A 0x98)
    rw [ha, hv, ht, if_pos hlt, (flashWriteByte_buffers _ _ _).1,
      (flashWriteByte_buffers _ _ _).2, (flashEraseChip_buffers _).1,
      (flashEraseChip_buffers _).2, (flashEraseSector_buffers _ _).1,
      (flashEraseSector_buffers _ _).2, hb.1, hb.2.1]
    refine ⟨?_, ?_, fun i hi => ?_⟩
    · simp [flashBuffer, hA]
    · simp [flashBuffer]
    · simp [flashBuffer, hi]
  · refine ⟨?_, ?_⟩
    · rw [hs', ht, if_pos hlt,
        later_byte_state m _ A 0x98 (by simp only [flashBuffer, portWrite_flash_state]; omega)]
      rw [if_neg]
      · simp [flashBuffer]
      · rintro ⟨h4, hh⟩
        have h3 : s.flash_state = 3 := by
          simp only [flashBuffer, portWrite_flash_state] at h4
          omega
        rw [hhead h3] at hh
        exact hnp ⟨hf, h3, hh⟩
    · rcases flash_write_cases m s A 0x98 with ⟨he, -⟩ | ⟨hp, -⟩ | hsame
      · exact absurd he hne
      · exact absurd hp hnp
      · exact hsame
  · obtain ⟨-, h3, hh⟩ := hp
    refine ⟨?_, ?_⟩
    · rw [hs', ht, if_pos (by omega),
        later_byte_state m _ A 0x98 (by simp only [flashBuffer, portWrite_flash_state]; omega)]
      rw [if_pos]
      refine ⟨?_, ?_⟩
      · simp only [flashBuffer, portWrite_flash_state]
        omega
      · rw [hhead h3]
        exact hh
    · rcases flash_write_cases m s A 0x98 with ⟨he, -⟩ | ⟨-, off, hoff, hval, hset⟩ | hsame
      · exact absurd he hne
      · exact Or.inr ⟨off, hoff, hval, hset⟩
      · exact Or.inl hsame
  · have hnlt : ¬ s.flash_state < 10 := by omega
    rw [if_neg hnlt] at ht
    rw [hs', ha, hv, hF, ht]
    exact ⟨portWrite_flash_state _ _ _ _, portWrite_buffer_a _ _ _ _,
      portWrite_buffer_v _ _ _ _, portWrite_Flash _ _ _ _⟩

/-- Witness for C10: the CFI query `(0x8AAA, 0x98)` on an idle flash with a one-byte store
enters CFI mode; with two bytes pending (no program head) the same write is only buffered. -/
theorem cfi_entry_witness :
    ((flashMapper [0x12]).flash_save ≠ 0 ∧ (0x8AAA &&& 0xFFF) = 0x0AAA ∧
      (flashMapper [0x12]).flash_state = 0 ∧
      (COOLBOYFlashWrite quietMMC3 (flashMapper [0x12]) 0x8AAA 0x98).cfi_mode = 1 ∧
      (COOLBOYFlashWrite quietMMC3 (flashMapper [0x12]) 0x8AAA 0x98).flash_state = 0 ∧
      (COOLBOYFlashWrite quietMMC3 (flashMapper [0x12]) 0x8AAA 0x98).Flash = [0x12]) ∧
    (twoPendingMapper.flash_save ≠ 0 ∧ 1 ≤ twoPendingMapper.flash_state ∧
      twoPendingMapper.flash_state < 10 ∧ ¬ completesProgram twoPendingMapper ∧
      (COOLBOYFlashWrite quietMMC3 twoPendingMapper 0x8AAA 0x98).flash_state = 2 + 1 ∧
      (COOLBOYFlashWrite quietMMC3 twoPendingMapper 0x8AAA 0x98).Flash = [0x12]) :=
  ⟨⟨by decide, by decide, rfl,
      (cfi_entry quietMMC3 (flashMapper [0x12]) 0x8AAA (by decide) (by decide)).1 rfl⟩,
    ⟨by decide, by decide, by decide, fun h => absurd h.2.1 (by decide),
      ((cfi_entry quietMMC3 twoPendingMapper 0x8AAA (by decide) (by decide)).2
        (by decide)).2.2.1 (by decide) (fun h => absurd h.2.1 (by decide))⟩⟩

end Coolboy
